import Mathlib

/-!
# Verification of the rv_sha3 SHA-3 / Keccak-f[1600] implementation

Shallow embedding of the C sources (keccak1600.h, keccak1600_ref.c,
keccak1600_compact.c, keccak1600_inplaceur.c, keccak1600_intermediateur.c,
keccak1600_intermediateur_ep.c, keccak1600_intermediateur_lc.c,
keccak1600_sponge.c, sha3.c) into Lean.

Machine integers (`uint64_t` lanes, bytes) are modelled as `Nat` with
explicit reduction modulo `2^64` where C arithmetic wraps.  The 25-lane
state (`k1600_state_t`) is a `List Nat` of length 25; the byte view of the
union is the little-endian byte view of the lanes, as on the RV64 target
(see spec §3 "State A" and §9 "Aliasing of byte and lane views").
-/

set_option maxRecDepth 40000

set_option maxHeartbeats 4000000

namespace RvSha3

/-- `2^64`, the lane modulus. -/
def two64 : Nat := 18446744073709551616

/-- All-ones 64-bit lane (`~0ULL`). -/
def ones64 : Nat := 18446744073709551615

/-- `rotl_lane` from keccak1600.h:
`(val << times) | (val >> (KECCAK1600_LANE_BITS - times))`, on `uint64_t`.
Shifts are given Nat semantics and the result is reduced mod `2^64`.
At the C level both shift amounts are in range exactly for `times` in
`[1, 63]`, which covers every rotation performed by the permutations; this
Nat version also yields the correct rotation at `times = 0` and `64`. -/
def rotl_lane (val : Nat) (times : Nat) : Nat :=
  ((val <<< times) ||| (val >>> (64 - times))) % two64

/-- The same source expression as executed on the RV64 target, where the
`sll`/`srl` instructions read only the low six bits of the shift operand:
the left-shift amount is `times % 64` and the right-shift amount is the
value of the `int` expression `64 - times` reduced modulo 64, i.e.
`(64 - times % 64) % 64`.  For `times` in `[1, 63]` — the region where the
C shifts are defined — this coincides with `rotl_lane`. -/
def rotl_lane_rv64 (val : Nat) (times : Nat) : Nat :=
  ((val <<< (times % 64)) ||| (val >>> ((64 - times % 64) % 64))) % two64

/-- C bitwise NOT `~` on a `uint64_t` lane (complement within 64 bits). -/
def cnot (x : Nat) : Nat := x ^^^ ones64

/-- Lane `i` of the state (array read `A[i]`). -/
def lane (st : List Nat) (i : Nat) : Nat := st.getD i 0

/-! ## Reference strategy: keccak1600_ref.c -/

/-- `round_constants` table from keccak1600_ref.c. -/
def round_constants : List Nat :=
  [ 0x0000000000000001, 0x0000000000008082, 0x800000000000808a,
    0x8000000080008000, 0x000000000000808b, 0x0000000080000001,
    0x8000000080008081, 0x8000000000008009, 0x000000000000008a,
    0x0000000000000088, 0x0000000080008009, 0x000000008000000a,
    0x000000008000808b, 0x800000000000008b, 0x8000000000008089,
    0x8000000000008003, 0x8000000000008002, 0x8000000000000080,
    0x000000000000800a, 0x800000008000000a, 0x8000000080008081,
    0x8000000000008080, 0x0000000080000001, 0x8000000080008008 ]

/-- `pi_lane_idxes` table from keccak1600_ref.c. -/
def pi_lane_idxes : List Nat :=
  [ 10,  7, 11, 17, 18,
     3,  5, 16,  8, 21,
    24,  4, 15, 23, 19,
    13, 12,  2, 20, 14,
    22,  9,  6,  1 ]

/-- `rho_offsets` table from keccak1600_ref.c (non-size-optimized branch). -/
def rho_offsets : List Nat :=
  [ 1,  3,  6, 10, 15,
   21, 28, 36, 45, 55,
    2, 14, 27, 41, 56,
    8, 25, 43, 62, 18,
   39, 61, 20, 44 ]

/-- `theta` from keccak1600_ref.c: column parities `C`, the `D` values
(unrolled in the C source), then `A[x + y_offset] ^= D[x]` for every lane.
The double loop writes each lane exactly once, reading only state it has
not yet overwritten, so it is rendered as one update per lane index. -/
def theta (A : List Nat) : List Nat :=
  let C := (List.range 5).map fun x =>
    lane A x ^^^ lane A (x + 5) ^^^ lane A (x + 10) ^^^ lane A (x + 15) ^^^ lane A (x + 20)
  let D := [ lane C 4 ^^^ rotl_lane (lane C 1) 1,
             lane C 0 ^^^ rotl_lane (lane C 2) 1,
             lane C 1 ^^^ rotl_lane (lane C 3) 1,
             lane C 2 ^^^ rotl_lane (lane C 4) 1,
             lane C 3 ^^^ rotl_lane (lane C 0) 1 ]
  (List.range 25).map fun i => lane A i ^^^ lane D (i % 5)

/-- `get_rho_for_idx` from keccak1600_ref.c (table branch). -/
def get_rho_for_idx (idx : Nat) : Nat := rho_offsets.getD idx 0

/-- The source of each lane under the rho/pi cycle walk of
keccak1600_ref.c's `rho_pi`: the walk performs `A[pi_lane_idxes[i]] =
rotl(A[pi_lane_idxes[i-1]], rho_offsets[i])` for `i = 23` down to `1` and
closes the cycle with the saved `A[1]`, reading only lanes it has not yet
overwritten; lane `j = pi_lane_idxes[i]` therefore receives
`pi_lane_idxes[i-1]` (and lane `pi_lane_idxes[0] = 10` receives the saved
lane 1).  Lane 0 is not moved. -/
def rho_pi_src : List Nat :=
  [ 0, 6, 12, 18, 24, 3, 9, 10, 16, 22, 1, 7, 13,
    19, 20, 4, 5, 11, 17, 23, 2, 8, 14, 15, 21 ]

/-- The walk position of each lane: `pi_walk_idx[pi_lane_idxes[i]] = i`
(the inverse of `pi_lane_idxes`; index 0 is outside the cycle). -/
def pi_walk_idx : List Nat :=
  [ 0, 23, 17, 5, 11, 6, 22, 1, 8, 21, 0, 2, 16,
    15, 19, 12, 7, 3, 4, 14, 18, 9, 20, 13, 10 ]

/-- `rho_pi` from keccak1600_ref.c: the backwards cycle walk writes each
lane exactly once from a lane it has not yet overwritten, so it is rendered
as one rotate-and-transport per lane index: lane `pi_lane_idxes[i]` gets
`rotl(A[pi_lane_idxes[i-1]], get_rho_for_idx(i))` (`rho_pi_src` and
`pi_walk_idx` tabulate the walk). -/
def rho_pi (A : List Nat) : List Nat :=
  (List.range 25).map fun j =>
    if j = 0 then lane A 0
    else rotl_lane (lane A (rho_pi_src.getD j 0)) (get_rho_for_idx (pi_walk_idx.getD j 0))

/-- `chi` from keccak1600_ref.c: per plane, copy the plane into `a`, then
the five unrolled updates `A[x + y_offset] ^= (~a[(x+1)%5] & a[(x+2)%5])`
(each plane's lanes are written exactly once, from the copy). -/
def chi (A : List Nat) : List Nat :=
  (List.range 25).map fun i =>
    let y_offset := 5 * (i / 5)
    let a := (List.range 5).map fun x => lane A (x + y_offset)
    lane a (i % 5) ^^^ (cnot (lane a ((i % 5 + 1) % 5)) &&& lane a ((i % 5 + 2) % 5))

/-- `iota` from keccak1600_ref.c (64-bit constant table branch). -/
def iota (A : List Nat) (round : Nat) : List Nat :=
  A.set 0 (lane A 0 ^^^ round_constants.getD round 0)

/-- The round body of `keccakf1600_state_permute_ref`:
theta, rho_pi, chi, iota in that order. -/
def refRoundStep (acc : List Nat) (i : Nat) : List Nat :=
  iota (chi (rho_pi (theta acc))) i

/-- `keccakf1600_state_permute_ref` from keccak1600_ref.c:
24 rounds of theta, rho_pi, chi, iota. -/
def keccakf1600_state_permute_ref (st : List Nat) : List Nat :=
  (List.range 24).foldl refRoundStep st

/-! ## Compact strategy: keccak1600_compact.c -/

namespace compact

/-- `theta` from keccak1600_compact.c: `D` computed per column with
`(x + 4) % 5` / `(x + 1) % 5` indexing, applied inside the same loop. -/
def theta (A : List Nat) : List Nat :=
  let C := (List.range 5).map fun x =>
    lane A x ^^^ lane A (x + 5) ^^^ lane A (x + 10) ^^^ lane A (x + 15) ^^^ lane A (x + 20)
  (List.range 25).map fun i =>
    lane A i ^^^ (lane C ((i % 5 + 4) % 5) ^^^ rotl_lane (lane C ((i % 5 + 1) % 5)) 1)

/-- `get_rho_for_idx` from keccak1600_compact.c:
`i = idx + 1; return ((i * (i + 1)) >> 1) & 0x3F;`. -/
def get_rho_for_idx (idx : Nat) : Nat :=
  (((idx + 1) * (idx + 2)) >>> 1) &&& 0x3F

/-- `rho_pi` from keccak1600_compact.c (same cycle walk, computed rho). -/
def rho_pi (A : List Nat) : List Nat :=
  (List.range 25).map fun j =>
    if j = 0 then lane A 0
    else rotl_lane (lane A (rho_pi_src.getD j 0)) (get_rho_for_idx (pi_walk_idx.getD j 0))

/-- `chi` from keccak1600_compact.c (same modular-index plane update). -/
def chi (A : List Nat) : List Nat :=
  (List.range 25).map fun i =>
    let y_offset := 5 * (i / 5)
    let a := (List.range 5).map fun x => lane A (x + y_offset)
    lane a (i % 5) ^^^ (cnot (lane a ((i % 5 + 1) % 5)) &&& lane a ((i % 5 + 2) % 5))

/-- `rc_compressed` table from keccak1600_compact.c. -/
def rc_compressed : List Nat :=
  [ 0x01, 0x1A, 0x5E, 0x70, 0x1F, 0x21, 0x79, 0x55,
    0x0E, 0x0C, 0x35, 0x26, 0x3F, 0x4F, 0x5D, 0x53,
    0x52, 0x48, 0x16, 0x66, 0x79, 0x58, 0x21, 0x74 ]

/-- `iota` from keccak1600_compact.c: decompress the round constant,
setting bit `2^i - 1` when bit `i` of the compressed byte is set. -/
def iota (A : List Nat) (round : Nat) : List Nat :=
  let rc_comp := rc_compressed.getD round 0
  let rc := (List.range 7).foldl (fun rc i =>
    if rc_comp &&& (1 <<< i) ≠ 0 then rc ||| (1 <<< ((1 <<< i) - 1)) else rc) 0
  A.set 0 (lane A 0 ^^^ rc)

end compact

/-- The round body of `keccakf1600_state_permute_compact`. -/
def compactRoundStep (acc : List Nat) (i : Nat) : List Nat :=
  compact.iota (compact.chi (compact.rho_pi (compact.theta acc))) i

/-- `keccakf1600_state_permute_compact` from keccak1600_compact.c. -/
def keccakf1600_state_permute_compact (st : List Nat) : List Nat :=
  (List.range 24).foldl compactRoundStep st

/-! ## In-place unrolled strategy: keccak1600_inplaceur.c -/

/-- `keccakf1600_round_inplace_unrolled` from keccak1600_inplaceur.c:
straight-line transcription; `let` shadowing mirrors the in-place updates. -/
def keccakf1600_round_inplace_unrolled (A : List Nat) (r_idx : Nat) : List Nat :=
  match A with
  | [a0, a1, a2, a3, a4, a5, a6, a7, a8, a9, a10, a11, a12,
     a13, a14, a15, a16, a17, a18, a19, a20, a21, a22, a23, a24] =>
    -- parity of the columns
    let c0 := a0 ^^^ a5 ^^^ a10 ^^^ a15 ^^^ a20
    let c1 := a1 ^^^ a6 ^^^ a11 ^^^ a16 ^^^ a21
    let c2 := a2 ^^^ a7 ^^^ a12 ^^^ a17 ^^^ a22
    let c3 := a3 ^^^ a8 ^^^ a13 ^^^ a18 ^^^ a23
    let c4 := a4 ^^^ a9 ^^^ a14 ^^^ a19 ^^^ a24
    -- compute D for each slice (reuse C)
    let t := c4
    let c4 := c4 ^^^ rotl_lane c1 1  -- D[0]
    let c1 := c1 ^^^ rotl_lane c3 1  -- D[2]
    let c3 := c3 ^^^ rotl_lane c0 1  -- D[4]
    let c0 := c0 ^^^ rotl_lane c2 1  -- D[1]
    let c2 := c2 ^^^ rotl_lane t 1   -- D[3]
    -- apply theta-rho-pi in-place
    let a0 := a0 ^^^ c4
    let t := a1
    let a1 := rotl_lane (a6 ^^^ c0) 44
    let a6 := rotl_lane (a9 ^^^ c3) 20
    let a9 := rotl_lane (a22 ^^^ c1) 61
    let a22 := rotl_lane (a14 ^^^ c3) 39
    let a14 := rotl_lane (a20 ^^^ c4) 18
    let a20 := rotl_lane (a2 ^^^ c1) 62
    let a2 := rotl_lane (a12 ^^^ c1) 43
    let a12 := rotl_lane (a13 ^^^ c2) 25
    let a13 := rotl_lane (a19 ^^^ c3) 8
    let a19 := rotl_lane (a23 ^^^ c2) 56
    let a23 := rotl_lane (a15 ^^^ c4) 41
    let a15 := rotl_lane (a4 ^^^ c3) 27
    let a4 := rotl_lane (a24 ^^^ c3) 14
    let a24 := rotl_lane (a21 ^^^ c0) 2
    let a21 := rotl_lane (a8 ^^^ c2) 55
    let a8 := rotl_lane (a16 ^^^ c0) 45
    let a16 := rotl_lane (a5 ^^^ c4) 36
    let a5 := rotl_lane (a3 ^^^ c2) 28
    let a3 := rotl_lane (a18 ^^^ c2) 21
    let a18 := rotl_lane (a17 ^^^ c1) 15
    let a17 := rotl_lane (a11 ^^^ c0) 10
    let a11 := rotl_lane (a7 ^^^ c1) 6
    let a7 := rotl_lane (a10 ^^^ c4) 3
    let a10 := rotl_lane (t ^^^ c0) 1
    -- apply chi on each plane
    let c0 := a0
    let c1 := a1
    let a0 := a0 ^^^ (cnot a1 &&& a2)
    let a1 := a1 ^^^ (cnot a2 &&& a3)
    let a2 := a2 ^^^ (cnot a3 &&& a4)
    let a3 := a3 ^^^ (cnot a4 &&& c0)
    let a4 := a4 ^^^ (cnot c0 &&& c1)
    let c0 := a5
    let c1 := a6
    let a5 := a5 ^^^ (cnot a6 &&& a7)
    let a6 := a6 ^^^ (cnot a7 &&& a8)
    let a7 := a7 ^^^ (cnot a8 &&& a9)
    let a8 := a8 ^^^ (cnot a9 &&& c0)
    let a9 := a9 ^^^ (cnot c0 &&& c1)
    let c0 := a10
    let c1 := a11
    let a10 := a10 ^^^ (cnot a11 &&& a12)
    let a11 := a11 ^^^ (cnot a12 &&& a13)
    let a12 := a12 ^^^ (cnot a13 &&& a14)
    let a13 := a13 ^^^ (cnot a14 &&& c0)
    let a14 := a14 ^^^ (cnot c0 &&& c1)
    let c0 := a15
    let c1 := a16
    let a15 := a15 ^^^ (cnot a16 &&& a17)
    let a16 := a16 ^^^ (cnot a17 &&& a18)
    let a17 := a17 ^^^ (cnot a18 &&& a19)
    let a18 := a18 ^^^ (cnot a19 &&& c0)
    let a19 := a19 ^^^ (cnot c0 &&& c1)
    let c0 := a20
    let c1 := a21
    let a20 := a20 ^^^ (cnot a21 &&& a22)
    let a21 := a21 ^^^ (cnot a22 &&& a23)
    let a22 := a22 ^^^ (cnot a23 &&& a24)
    let a23 := a23 ^^^ (cnot a24 &&& c0)
    let a24 := a24 ^^^ (cnot c0 &&& c1)
    -- apply iota
    let a0 := a0 ^^^ round_constants.getD r_idx 0
    [a0, a1, a2, a3, a4, a5, a6, a7, a8, a9, a10, a11, a12,
     a13, a14, a15, a16, a17, a18, a19, a20, a21, a22, a23, a24]
  | _ => A

/-- `keccakf1600_state_permute_inplaceur` from keccak1600_inplaceur.c. -/
def keccakf1600_state_permute_inplaceur (st : List Nat) : List Nat :=
  (List.range 24).foldl keccakf1600_round_inplace_unrolled st

/-! ## Intermediate-state unrolled strategy: keccak1600_intermediateur.c

The round reads lanes from `A` and writes every output lane of `N`, so as a
pure function it is `A ↦ N`.  The column parities `C`, the theta values `D`
and each plane's five temporaries `T` are factored into helper definitions
shared verbatim by the `_ep` and `_lc` files. -/

/-- The column parities `C[0..4]` (identical lines in
keccak1600_intermediateur.c, keccak1600_intermediateur_ep.c,
keccak1600_intermediateur_lc.c). -/
def interC (A : List Nat) : Nat × Nat × Nat × Nat × Nat :=
  (lane A 0 ^^^ lane A 5 ^^^ lane A 10 ^^^ lane A 15 ^^^ lane A 20,
   lane A 1 ^^^ lane A 6 ^^^ lane A 11 ^^^ lane A 16 ^^^ lane A 21,
   lane A 2 ^^^ lane A 7 ^^^ lane A 12 ^^^ lane A 17 ^^^ lane A 22,
   lane A 3 ^^^ lane A 8 ^^^ lane A 13 ^^^ lane A 18 ^^^ lane A 23,
   lane A 4 ^^^ lane A 9 ^^^ lane A 14 ^^^ lane A 19 ^^^ lane A 24)

/-- The theta values `D[0..4]` computed from the column parities. -/
def interD : Nat × Nat × Nat × Nat × Nat → Nat × Nat × Nat × Nat × Nat :=
  fun (c0, c1, c2, c3, c4) =>
    (c4 ^^^ rotl_lane c1 1, c0 ^^^ rotl_lane c2 1, c1 ^^^ rotl_lane c3 1,
     c2 ^^^ rotl_lane c4 1, c3 ^^^ rotl_lane c0 1)

/-- Theta-rho-pi temporaries `T[0..4]` for the 1st output plane. -/
def interT1 (A : List Nat) : Nat × Nat × Nat × Nat × Nat → Nat × Nat × Nat × Nat × Nat :=
  fun (d0, d1, d2, d3, d4) =>
    (lane A 0 ^^^ d0, rotl_lane (lane A 6 ^^^ d1) 44, rotl_lane (lane A 12 ^^^ d2) 43,
     rotl_lane (lane A 18 ^^^ d3) 21, rotl_lane (lane A 24 ^^^ d4) 14)

/-- Theta-rho-pi temporaries `T[0..4]` for the 2nd output plane. -/
def interT2 (A : List Nat) : Nat × Nat × Nat × Nat × Nat → Nat × Nat × Nat × Nat × Nat :=
  fun (d0, d1, d2, d3, d4) =>
    (rotl_lane (lane A 3 ^^^ d3) 28, rotl_lane (lane A 9 ^^^ d4) 20,
     rotl_lane (lane A 10 ^^^ d0) 3, rotl_lane (lane A 16 ^^^ d1) 45,
     rotl_lane (lane A 22 ^^^ d2) 61)

/-- Theta-rho-pi temporaries `T[0..4]` for the 3rd output plane. -/
def interT3 (A : List Nat) : Nat × Nat × Nat × Nat × Nat → Nat × Nat × Nat × Nat × Nat :=
  fun (d0, d1, d2, d3, d4) =>
    (rotl_lane (lane A 1 ^^^ d1) 1, rotl_lane (lane A 7 ^^^ d2) 6,
     rotl_lane (lane A 13 ^^^ d3) 25, rotl_lane (lane A 19 ^^^ d4) 8,
     rotl_lane (lane A 20 ^^^ d0) 18)

/-- Theta-rho-pi temporaries `T[0..4]` for the 4th output plane. -/
def interT4 (A : List Nat) : Nat × Nat × Nat × Nat × Nat → Nat × Nat × Nat × Nat × Nat :=
  fun (d0, d1, d2, d3, d4) =>
    (rotl_lane (lane A 4 ^^^ d4) 27, rotl_lane (lane A 5 ^^^ d0) 36,
     rotl_lane (lane A 11 ^^^ d1) 10, rotl_lane (lane A 17 ^^^ d2) 15,
     rotl_lane (lane A 23 ^^^ d3) 56)

/-- Theta-rho-pi temporaries `T[0..4]` for the 5th output plane. -/
def interT5 (A : List Nat) : Nat × Nat × Nat × Nat × Nat → Nat × Nat × Nat × Nat × Nat :=
  fun (d0, d1, d2, d3, d4) =>
    (rotl_lane (lane A 2 ^^^ d2) 62, rotl_lane (lane A 8 ^^^ d3) 55,
     rotl_lane (lane A 14 ^^^ d4) 39, rotl_lane (lane A 15 ^^^ d0) 41,
     rotl_lane (lane A 21 ^^^ d1) 2)

/-- The chi plane update `N[i] = T[i] ^ (~T[i+1] & T[i+2])`. -/
def chiPlane : Nat × Nat × Nat × Nat × Nat → Nat × Nat × Nat × Nat × Nat :=
  fun (t0, t1, t2, t3, t4) =>
    (t0 ^^^ (cnot t1 &&& t2), t1 ^^^ (cnot t2 &&& t3), t2 ^^^ (cnot t3 &&& t4),
     t3 ^^^ (cnot t4 &&& t0), t4 ^^^ (cnot t0 &&& t1))

/-- `keccakf1600_round_intermediate_unrolled` from
keccak1600_intermediateur.c, as the pure function `A ↦ N`. -/
def keccakf1600_round_intermediate_unrolled (A : List Nat) (r_idx : Nat) : List Nat :=
  let D := interD (interC A)
  let (n0, n1, n2, n3, n4) := chiPlane (interT1 A D)
  let n0 := n0 ^^^ round_constants.getD r_idx 0  -- iota, fused into N[0]
  let (n5, n6, n7, n8, n9) := chiPlane (interT2 A D)
  let (n10, n11, n12, n13, n14) := chiPlane (interT3 A D)
  let (n15, n16, n17, n18, n19) := chiPlane (interT4 A D)
  let (n20, n21, n22, n23, n24) := chiPlane (interT5 A D)
  [n0, n1, n2, n3, n4, n5, n6, n7, n8, n9, n10, n11, n12,
   n13, n14, n15, n16, n17, n18, n19, n20, n21, n22, n23, n24]

/-- One iteration of the intermediateur round loop (`i += 2`): rounds `2k`
and `2k + 1`, `A → N → A`. -/
def interPairStep (a : List Nat) (k : Nat) : List Nat :=
  keccakf1600_round_intermediate_unrolled
    (keccakf1600_round_intermediate_unrolled a (2 * k)) (2 * k + 1)

/-- `keccakf1600_state_permute_intermediateur` from
keccak1600_intermediateur.c: rounds in pairs `A → N → A`. -/
def keccakf1600_state_permute_intermediateur (st : List Nat) : List Nat :=
  (List.range 12).foldl interPairStep st

/-! ## Early-parity strategy: keccak1600_intermediateur_ep.c -/

/-- `keccakf1600_round_intermediate_unrolled_ep` from
keccak1600_intermediateur_ep.c: `C` is threaded across rounds; each plane's
output lanes are folded into the parity vector for the next round. -/
def keccakf1600_round_intermediate_unrolled_ep (A : List Nat)
    (C : Nat × Nat × Nat × Nat × Nat) (r_idx : Nat) :
    List Nat × (Nat × Nat × Nat × Nat × Nat) :=
  let D := interD C
  let (n0, n1, n2, n3, n4) := chiPlane (interT1 A D)
  let n0 := n0 ^^^ round_constants.getD r_idx 0
  let (c0, c1, c2, c3, c4) := (n0, n1, n2, n3, n4)
  let (n5, n6, n7, n8, n9) := chiPlane (interT2 A D)
  let (c0, c1, c2, c3, c4) := (c0 ^^^ n5, c1 ^^^ n6, c2 ^^^ n7, c3 ^^^ n8, c4 ^^^ n9)
  let (n10, n11, n12, n13, n14) := chiPlane (interT3 A D)
  let (c0, c1, c2, c3, c4) := (c0 ^^^ n10, c1 ^^^ n11, c2 ^^^ n12, c3 ^^^ n13, c4 ^^^ n14)
  let (n15, n16, n17, n18, n19) := chiPlane (interT4 A D)
  let (c0, c1, c2, c3, c4) := (c0 ^^^ n15, c1 ^^^ n16, c2 ^^^ n17, c3 ^^^ n18, c4 ^^^ n19)
  let (n20, n21, n22, n23, n24) := chiPlane (interT5 A D)
  let (c0, c1, c2, c3, c4) := (c0 ^^^ n20, c1 ^^^ n21, c2 ^^^ n22, c3 ^^^ n23, c4 ^^^ n24)
  ([n0, n1, n2, n3, n4, n5, n6, n7, n8, n9, n10, n11, n12,
    n13, n14, n15, n16, n17, n18, n19, n20, n21, n22, n23, n24],
   (c0, c1, c2, c3, c4))

/-- `keccakf1600_round_intermediate_unrolled_ep_last` from
keccak1600_intermediateur_ep.c: same round, no parity update. -/
def keccakf1600_round_intermediate_unrolled_ep_last (A : List Nat)
    (C : Nat × Nat × Nat × Nat × Nat) (r_idx : Nat) : List Nat :=
  let D := interD C
  let (n0, n1, n2, n3, n4) := chiPlane (interT1 A D)
  let n0 := n0 ^^^ round_constants.getD r_idx 0
  let (n5, n6, n7, n8, n9) := chiPlane (interT2 A D)
  let (n10, n11, n12, n13, n14) := chiPlane (interT3 A D)
  let (n15, n16, n17, n18, n19) := chiPlane (interT4 A D)
  let (n20, n21, n22, n23, n24) := chiPlane (interT5 A D)
  [n0, n1, n2, n3, n4, n5, n6, n7, n8, n9, n10, n11, n12,
   n13, n14, n15, n16, n17, n18, n19, n20, n21, n22, n23, n24]

/-- One iteration of the ep round loop (`i += 2`), threading `(A, C)`. -/
def epPairStep (p : List Nat × (Nat × Nat × Nat × Nat × Nat)) (k : Nat) :
    List Nat × (Nat × Nat × Nat × Nat × Nat) :=
  let q := keccakf1600_round_intermediate_unrolled_ep p.1 p.2 (2 * k)
  keccakf1600_round_intermediate_unrolled_ep q.1 q.2 (2 * k + 1)

/-- `keccakf1600_state_permute_intermediateur_ep` from
keccak1600_intermediateur_ep.c: initial parity computation, 11 round pairs,
then rounds 22 and 23 (the last without parity update). -/
def keccakf1600_state_permute_intermediateur_ep (st : List Nat) : List Nat :=
  let p := (List.range 11).foldl epPairStep (st, interC st)
  let q := keccakf1600_round_intermediate_unrolled_ep p.1 p.2 22
  keccakf1600_round_intermediate_unrolled_ep_last q.1 q.2 23

/-! ## Lane-complementing strategy: keccak1600_intermediateur_lc.c -/

/-- Chi with the lane-complement Boolean rewrites, 1st plane. -/
def chiPlaneLC1 : Nat × Nat × Nat × Nat × Nat → Nat × Nat × Nat × Nat × Nat :=
  fun (t0, t1, t2, t3, t4) =>
    (t0 ^^^ (t1 ||| t2), t1 ^^^ (cnot t2 ||| t3), t2 ^^^ (t3 &&& t4),
     t3 ^^^ (t4 ||| t0), t4 ^^^ (t0 &&& t1))

/-- Chi with the lane-complement Boolean rewrites, 2nd plane. -/
def chiPlaneLC2 : Nat × Nat × Nat × Nat × Nat → Nat × Nat × Nat × Nat × Nat :=
  fun (t0, t1, t2, t3, t4) =>
    (t0 ^^^ (t1 ||| t2), t1 ^^^ (t2 &&& t3), t2 ^^^ (t3 ||| cnot t4),
     t3 ^^^ (t4 ||| t0), t4 ^^^ (t0 &&& t1))

/-- Chi with the lane-complement Boolean rewrites, 3rd plane. -/
def chiPlaneLC3 : Nat × Nat × Nat × Nat × Nat → Nat × Nat × Nat × Nat × Nat :=
  fun (t0, t1, t2, t3, t4) =>
    (t0 ^^^ (t1 ||| t2), t1 ^^^ (t2 &&& t3), t2 ^^^ (cnot t3 &&& t4),
     cnot t3 ^^^ (t4 ||| t0), t4 ^^^ (t0 &&& t1))

/-- Chi with the lane-complement Boolean rewrites, 4th plane. -/
def chiPlaneLC4 : Nat × Nat × Nat × Nat × Nat → Nat × Nat × Nat × Nat × Nat :=
  fun (t0, t1, t2, t3, t4) =>
    (t0 ^^^ (t1 &&& t2), t1 ^^^ (t2 ||| t3), t2 ^^^ (cnot t3 ||| t4),
     cnot t3 ^^^ (t4 &&& t0), t4 ^^^ (t0 ||| t1))

/-- Chi with the lane-complement Boolean rewrites, 5th plane. -/
def chiPlaneLC5 : Nat × Nat × Nat × Nat × Nat → Nat × Nat × Nat × Nat × Nat :=
  fun (t0, t1, t2, t3, t4) =>
    (t0 ^^^ (cnot t1 &&& t2), cnot t1 ^^^ (t2 ||| t3), t2 ^^^ (t3 &&& t4),
     t3 ^^^ (t4 ||| t0), t4 ^^^ (t0 &&& t1))

/-- `keccakf1600_round_intermediate_unrolled_lc` from
keccak1600_intermediateur_lc.c, as the pure function `A ↦ N`. -/
def keccakf1600_round_intermediate_unrolled_lc (A : List Nat) (r_idx : Nat) : List Nat :=
  let D := interD (interC A)
  let (n0, n1, n2, n3, n4) := chiPlaneLC1 (interT1 A D)
  let n0 := n0 ^^^ round_constants.getD r_idx 0
  let (n5, n6, n7, n8, n9) := chiPlaneLC2 (interT2 A D)
  let (n10, n11, n12, n13, n14) := chiPlaneLC3 (interT3 A D)
  let (n15, n16, n17, n18, n19) := chiPlaneLC4 (interT4 A D)
  let (n20, n21, n22, n23, n24) := chiPlaneLC5 (interT5 A D)
  [n0, n1, n2, n3, n4, n5, n6, n7, n8, n9, n10, n11, n12,
   n13, n14, n15, n16, n17, n18, n19, n20, n21, n22, n23, n24]

/-- One iteration of the lc round loop (`i += 2`). -/
def lcPairStep (a : List Nat) (k : Nat) : List Nat :=
  keccakf1600_round_intermediate_unrolled_lc
    (keccakf1600_round_intermediate_unrolled_lc a (2 * k)) (2 * k + 1)

/-- `keccakf1600_state_permute_intermediateur_lc` from
keccak1600_intermediateur_lc.c. -/
def keccakf1600_state_permute_intermediateur_lc (st : List Nat) : List Nat :=
  (List.range 12).foldl lcPairStep st

/-! ## Sponge layer: keccak1600_sponge.c -/

/-- `stub_state_permute` from keccak1600_sponge.c: "Stub function so that we
don't check for NULL every time" — it returns without touching the state. -/
def stub_state_permute (st : List Nat) : List Nat := st

/-- The initial value of the process-wide permutation selector
(`static keccak1600_spf keccakf1600_state_permute = &stub_state_permute;`). -/
def default_state_permute : List Nat → List Nat := stub_state_permute

/-- The initial value of the `use_lc` flag (`static bool use_lc = false;`). -/
def default_use_lc : Bool := false

/-- Little-endian `lane_t` load of 8 message bytes
(`*((lane_t *) (msg + msg_off))` on the little-endian target). -/
def loadLane (msg : Nat → Nat) (off : Nat) : Nat :=
  msg off ||| (msg (off + 1) <<< 8) ||| (msg (off + 2) <<< 16) |||
  (msg (off + 3) <<< 24) ||| (msg (off + 4) <<< 32) ||| (msg (off + 5) <<< 40) |||
  (msg (off + 6) <<< 48) ||| (msg (off + 7) <<< 56)

/-- `keccakf1600_absorb_lanes` from keccak1600_sponge.c: XOR `num_lanes`
message lanes into the state, advancing the message offset, then permute.
Returns the new state and message offset. -/
def keccakf1600_absorb_lanes (f : List Nat → List Nat) (st : List Nat)
    (msg : Nat → Nat) (num_lanes msg_off : Nat) : List Nat × Nat :=
  let st2 := (List.range num_lanes).foldl (fun acc i =>
    acc.set i (lane st i ^^^ loadLane msg (msg_off + 8 * i))) st
  (f st2, msg_off + 8 * num_lanes)

/-- XOR a byte into `st->A_bytes[off]`, through the little-endian union view:
byte `off` lives in lane `off / 8` at bit offset `8 * (off % 8)`. -/
def xorByte (st : List Nat) (off b : Nat) : List Nat :=
  st.set (off / 8) (lane st (off / 8) ^^^ (b <<< (8 * (off % 8))))

/-- Read `st->A_bytes[off]` through the little-endian union view. -/
def getByte (st : List Nat) (off : Nat) : Nat :=
  (lane st (off / 8) >>> (8 * (off % 8))) % 256

/-- The full-block loop of `keccakf1600_absorb`: absorb `num_blocks` blocks
one lane at a time, threading the state and the message offset. -/
def absorbBlocks (f : List Nat → List Nat) (st : List Nat) (msg : Nat → Nat)
    (num_blocks lanes_per_block : Nat) : List Nat × Nat :=
  (List.range num_blocks).foldl (fun (p : List Nat × Nat) _ =>
    keccakf1600_absorb_lanes f p.1 msg lanes_per_block p.2) (st, 0)

/-- The remaining-bytes loop of `keccakf1600_absorb`: XOR `count` message
bytes starting at `msg_off` into the byte view at the running block offset,
permuting and resetting the offset when it reaches `rate_bytes`.  Returns
the state and the final block offset. -/
def absorbTail (f : List Nat → List Nat) (st : List Nat) (msg : Nat → Nat)
    (msg_off count rate_bytes : Nat) : List Nat × Nat :=
  (List.range count).foldl (fun (q : List Nat × Nat) k =>
    let st' := xorByte q.1 q.2 (msg (msg_off + k))
    if q.2 + 1 = rate_bytes then (f st', 0) else (st', q.2 + 1)) (st, 0)

/-- The padding phase of `keccakf1600_absorb`: XOR the delimiter at the
block offset, permute once more when the delimiter has its high bit set and
sits in the last rate byte, XOR `0x80` at byte `rate_bytes - 1`, permute. -/
def absorbPad (f : List Nat → List Nat) (st : List Nat)
    (block_off rate_bytes delim_suffix : Nat) : List Nat :=
  let st1 := xorByte st block_off delim_suffix
  let st2 := if delim_suffix &&& 0x80 ≠ 0 ∧ block_off = rate_bytes - 1 then f st1 else st1
  let st3 := xorByte st2 (rate_bytes - 1) 0x80
  f st3

/-- `keccakf1600_absorb` from keccak1600_sponge.c, parametrized by the active
permutation `f` (the process-wide function pointer): the full-block loop,
the remaining-bytes loop, then padding. -/
def keccakf1600_absorb (f : List Nat → List Nat) (st : List Nat)
    (msg : Nat → Nat) (msg_len md_len delim_suffix : Nat) : List Nat :=
  let capacity_bytes := 2 * md_len
  let rate_bytes := 200 - capacity_bytes
  let num_blocks := msg_len / rate_bytes
  let lanes_per_block := rate_bytes / 8
  let p := absorbBlocks f st msg num_blocks lanes_per_block
  let q := absorbTail f p.1 msg p.2 (msg_len - p.2) rate_bytes
  absorbPad f q.1 q.2 rate_bytes delim_suffix

/-- Invert one 64-bit lane of the output block (`md_lanes[k] = ~md_lanes[k]`):
bytes `8*k .. 8*k+7` of the little-endian output buffer are complemented. -/
def invertOutLane (out : List Nat) (k : Nat) : List Nat :=
  (List.range 8).foldl (fun o j => o.set (8 * k + j) (o.getD (8 * k + j) 0 ^^^ 0xFF)) out

/-- The `use_lc` post-processing in `keccakf1600_squeeze`: invert the P-lanes
{1, 2, 8, 12, 17, 20} of the output block that are fully inside it
(`lanes_out = block_len / 8`). -/
def applyPmaskOut (out : List Nat) (lanes_out : Nat) : List Nat :=
  let out := if lanes_out > 1 then invertOutLane out 1 else out
  let out := if lanes_out > 2 then invertOutLane out 2 else out
  let out := if lanes_out > 8 then invertOutLane out 8 else out
  let out := if lanes_out > 12 then invertOutLane out 12 else out
  let out := if lanes_out > 17 then invertOutLane out 17 else out
  if lanes_out > 20 then invertOutLane out 20 else out

/-- One squeezed block: the first `block_len` bytes of the state, with the
P-mask applied when `use_lc` is set. -/
def squeezeBlock (use_lc : Bool) (st : List Nat) (block_len : Nat) : List Nat :=
  let out := (List.range block_len).map (getByte st)
  if use_lc then applyPmaskOut out (block_len / 8) else out

/-- The `while (i > 0)` loop of `keccakf1600_squeeze`, with explicit fuel
(one unit per iteration; `remaining` strictly decreases when `rate_bytes > 0`,
so `remaining` units suffice). -/
def keccakf1600_squeeze_aux (f : List Nat → List Nat) (use_lc : Bool) :
    Nat → List Nat → Nat → Nat → List Nat
  | 0, _, _, _ => []
  | fuel + 1, st, remaining, rate_bytes =>
    if remaining = 0 then []
    else
      let block_len := min remaining rate_bytes
      let out := squeezeBlock use_lc st block_len
      let rest := remaining - block_len
      out ++ (if rest > 0 then
        keccakf1600_squeeze_aux f use_lc fuel (f st) rest rate_bytes else [])

/-- `keccakf1600_squeeze` from keccak1600_sponge.c, parametrized by the
selector state `(f, use_lc)`. -/
def keccakf1600_squeeze (f : List Nat → List Nat) (use_lc : Bool)
    (st : List Nat) (md_len : Nat) : List Nat :=
  keccakf1600_squeeze_aux f use_lc md_len st md_len (200 - 2 * md_len)

/-- The zero-initialized state `k1600_state_t st = { 0 }`. -/
def zeroState : List Nat := List.replicate 25 0

/-- `keccakf1600_oneshot` from keccak1600_sponge.c, parametrized by the
selector state `(f, use_lc)`: fresh zero state, P-lane pre-inversion when
lane-complementing is active, absorb, squeeze. -/
def keccakf1600_oneshot (f : List Nat → List Nat) (use_lc : Bool)
    (msg : Nat → Nat) (msg_len md_len delim_suffix : Nat) : List Nat :=
  let st := zeroState
  let st := if use_lc then
    (((((st.set 1 ones64).set 2 ones64).set 8 ones64).set 12
      ones64).set 17 ones64).set 20 ones64
    else st
  keccakf1600_squeeze f use_lc
    (keccakf1600_absorb f st msg msg_len md_len delim_suffix) md_len

/-! ## SHA-3 entry points: sha3.c -/

/-- `sha3_oneshot` from sha3.c: delimiter `0x06`. -/
def sha3_oneshot (f : List Nat → List Nat) (use_lc : Bool)
    (msg : Nat → Nat) (msg_len md_len : Nat) : List Nat :=
  keccakf1600_oneshot f use_lc msg msg_len md_len 0x06

/-- `sha3_256_oneshot` from sha3.c. -/
def sha3_256_oneshot (f : List Nat → List Nat) (use_lc : Bool)
    (msg : Nat → Nat) (msg_len : Nat) : List Nat :=
  sha3_oneshot f use_lc msg msg_len 32

/-- `sha3_512_oneshot` from sha3.c. -/
def sha3_512_oneshot (f : List Nat → List Nat) (use_lc : Bool)
    (msg : Nat → Nat) (msg_len : Nat) : List Nat :=
  sha3_oneshot f use_lc msg msg_len 64

/-- The message `"abc"` as a byte function. -/
def msgAbc : Nat → Nat := fun i => [0x61, 0x62, 0x63].getD i 0

/-- The empty message as a byte function. -/
def msgEmpty : Nat → Nat := fun _ => 0

/-- A message of `n` repetitions of the byte `0x61` (`'a'`). -/
def msgAs (n : Nat) : Nat → Nat := fun i => if i < n then 0x61 else 0

/-- Expected SHA3-256 digest of the empty message
(`a7ffc6f8bf1ed76651c14756a061d662f580ff4de43b49fa82d80a4b80f8434a`). -/
def kat256_empty : List Nat :=
  [0xa7, 0xff, 0xc6, 0xf8, 0xbf, 0x1e, 0xd7, 0x66,
   0x51, 0xc1, 0x47, 0x56, 0xa0, 0x61, 0xd6, 0x62,
   0xf5, 0x80, 0xff, 0x4d, 0xe4, 0x3b, 0x49, 0xfa,
   0x82, 0xd8, 0x0a, 0x4b, 0x80, 0xf8, 0x43, 0x4a]

/-- Expected SHA3-256 digest of `"abc"`
(`3a985da74fe225b2045c172d6bd390bd855f086e3e9d525b46bfe24511431532`). -/
def kat256_abc : List Nat :=
  [0x3a, 0x98, 0x5d, 0xa7, 0x4f, 0xe2, 0x25, 0xb2,
   0x04, 0x5c, 0x17, 0x2d, 0x6b, 0xd3, 0x90, 0xbd,
   0x85, 0x5f, 0x08, 0x6e, 0x3e, 0x9d, 0x52, 0x5b,
   0x46, 0xbf, 0xe2, 0x45, 0x11, 0x43, 0x15, 0x32]

/-- First 32 bytes of the expected SHA3-512 digest of the empty message
(`a69f73cca23a9ac5c8b567dc185a756e97c982164fe25859e0d1dcc1475c80a6...`). -/
def kat512_empty_first32 : List Nat :=
  [0xa6, 0x9f, 0x73, 0xcc, 0xa2, 0x3a, 0x9a, 0xc5,
   0xc8, 0xb5, 0x67, 0xdc, 0x18, 0x5a, 0x75, 0x6e,
   0x97, 0xc9, 0x82, 0x16, 0x4f, 0xe2, 0x58, 0x59,
   0xe0, 0xd1, 0xdc, 0xc1, 0x47, 0x5c, 0x80, 0xa6]

/-! ## Auxiliary notions used by the verification -/

/-- The P-lane index set `{1, 2, 8, 12, 17, 20}` of the lane-complementing
transform. -/
def pSet : List Nat := [1, 2, 8, 12, 17, 20]

/-- XOR the all-ones mask into the six P-lanes of a (25-lane) state.
Pre-setting the P-lanes of the zero state to `~0` and un-inverting at the
squeeze boundary are both instances of this mask. -/
def maskP (st : List Nat) : List Nat :=
  (List.range 25).map fun i => if i ∈ pSet then lane st i ^^^ ones64 else lane st i

/-- Every lane of the state is a valid 64-bit value. -/
def Bounded (st : List Nat) : Prop := ∀ x ∈ st, x < two64

/-- Interpretation of a polynomial over the group `Z5 × Z64` (terms
`(j, r)` standing for `x^j z^r`) as a linear map on the vector of five
column parities: term `(j, r)` contributes `rotl(C[(x + j) % 5], r)` to
output column `x`.  The theta parity feedback map is `applyP pTheta`. -/
def applyP (p : List (Nat × Nat)) (C : Nat → Nat) : Nat → Nat :=
  fun x => (p.map fun t => rotl_lane (C ((x + t.1) % 5)) t.2).foldr
    (fun a b => a ^^^ b) 0

/-- `1 + x^4 + x z`: the map taking the column parities of a state to the
column parities of its theta image (`C'[x] = C[x] ^ C[x+4] ^ rotl(C[x+1],1)`). -/
def pTheta : List (Nat × Nat) := [(0, 0), (4, 0), (1, 1)]

/-- `pTheta^2` in the group algebra (squares computed with char-2
cancellation). -/
def pTheta2 : List (Nat × Nat) := [(0, 0), (2, 2), (3, 0)]

/-- `pTheta^4`. -/
def pTheta4 : List (Nat × Nat) := [(0, 0), (1, 0), (4, 4)]

/-- `pTheta^8`. -/
def pTheta8 : List (Nat × Nat) := [(0, 0), (2, 0), (3, 8)]

/-- `pTheta^16`. -/
def pTheta16 : List (Nat × Nat) := [(0, 0), (1, 16), (4, 0)]

/-- `pTheta^32`. -/
def pTheta32 : List (Nat × Nat) := [(0, 0), (2, 32), (3, 0)]

/-- `pTheta^64`. -/
def pTheta64 : List (Nat × Nat) := [(0, 0), (1, 0), (4, 0)]

/-- `pTheta^128`. -/
def pTheta128 : List (Nat × Nat) := [(0, 0), (2, 0), (3, 0)]

/-- `pTheta^192`, the identity (`g` has order dividing 192 on the parity
vectors). -/
def pTheta192 : List (Nat × Nat) := [(0, 0)]

/-- The inverse of the theta parity feedback map: `pTheta^191`, realised as
the composition `p^64 ∘ p^64 ∘ p^32 ∘ p^16 ∘ p^8 ∘ p^4 ∘ p^2 ∘ p`
(`1 + 2 + 4 + 8 + 16 + 32 + 64 + 64 = 191`). -/
def gInv (C : Nat → Nat) : Nat → Nat :=
  applyP pTheta64 (applyP pTheta64 (applyP pTheta32 (applyP pTheta16
    (applyP pTheta8 (applyP pTheta4 (applyP pTheta2 (applyP pTheta C)))))))

/-- The inverse of the chi plane map for row width 5:
`x[i] = y[i] ^ (~y[i+1] & (y[i+2] ^ (~y[i+3] & y[i+4])))`. -/
def chiInvPlane : Nat × Nat × Nat × Nat × Nat → Nat × Nat × Nat × Nat × Nat :=
  fun (y0, y1, y2, y3, y4) =>
    (y0 ^^^ (cnot y1 &&& (y2 ^^^ (cnot y3 &&& y4))),
     y1 ^^^ (cnot y2 &&& (y3 ^^^ (cnot y4 &&& y0))),
     y2 ^^^ (cnot y3 &&& (y4 ^^^ (cnot y0 &&& y1))),
     y3 ^^^ (cnot y4 &&& (y0 ^^^ (cnot y1 &&& y2))),
     y4 ^^^ (cnot y0 &&& (y1 ^^^ (cnot y2 &&& y3))))

/-- The five column parities of a state as a 5-element list. -/
def interClist (A : List Nat) : List Nat :=
  [(interC A).1, (interC A).2.1, (interC A).2.2.1,
   (interC A).2.2.2.1, (interC A).2.2.2.2]

/-- The five theta `D` values of a state as a 5-element list. -/
def interDlist (A : List Nat) : List Nat :=
  [(interD (interC A)).1, (interD (interC A)).2.1, (interD (interC A)).2.2.1,
   (interD (interC A)).2.2.2.1, (interD (interC A)).2.2.2.2]

/-- The theta image of a state: every lane XOR-ed with its column's `D`. -/
def thetaImage (A : List Nat) : List Nat :=
  (List.range 25).map fun i => lane A i ^^^ (interDlist A).getD (i % 5) 0

/-- The 25 theta-rho-pi temporaries of an intermediate round (the five `T`
planes concatenated in plane order). -/
def interTstate (A : List Nat) : List Nat :=
  [(interT1 A (interD (interC A))).1, (interT1 A (interD (interC A))).2.1,
   (interT1 A (interD (interC A))).2.2.1, (interT1 A (interD (interC A))).2.2.2.1,
   (interT1 A (interD (interC A))).2.2.2.2,
   (interT2 A (interD (interC A))).1, (interT2 A (interD (interC A))).2.1,
   (interT2 A (interD (interC A))).2.2.1, (interT2 A (interD (interC A))).2.2.2.1,
   (interT2 A (interD (interC A))).2.2.2.2,
   (interT3 A (interD (interC A))).1, (interT3 A (interD (interC A))).2.1,
   (interT3 A (interD (interC A))).2.2.1, (interT3 A (interD (interC A))).2.2.2.1,
   (interT3 A (interD (interC A))).2.2.2.2,
   (interT4 A (interD (interC A))).1, (interT4 A (interD (interC A))).2.1,
   (interT4 A (interD (interC A))).2.2.1, (interT4 A (interD (interC A))).2.2.2.1,
   (interT4 A (interD (interC A))).2.2.2.2,
   (interT5 A (interD (interC A))).1, (interT5 A (interD (interC A))).2.1,
   (interT5 A (interD (interC A))).2.2.1, (interT5 A (interD (interC A))).2.2.2.1,
   (interT5 A (interD (interC A))).2.2.2.2]

/-- Undo iota and chi of one intermediate round: XOR the round constant out
of lane 0 and invert chi on each plane, recovering the `T` planes. -/
def chiInvState (N : List Nat) (r_idx : Nat) : List Nat :=
  let P1 := chiInvPlane (lane N 0 ^^^ round_constants.getD r_idx 0,
    lane N 1, lane N 2, lane N 3, lane N 4)
  let P2 := chiInvPlane (lane N 5, lane N 6, lane N 7, lane N 8, lane N 9)
  let P3 := chiInvPlane (lane N 10, lane N 11, lane N 12, lane N 13, lane N 14)
  let P4 := chiInvPlane (lane N 15, lane N 16, lane N 17, lane N 18, lane N 19)
  let P5 := chiInvPlane (lane N 20, lane N 21, lane N 22, lane N 23, lane N 24)
  [P1.1, P1.2.1, P1.2.2.1, P1.2.2.2.1, P1.2.2.2.2,
   P2.1, P2.2.1, P2.2.2.1, P2.2.2.2.1, P2.2.2.2.2,
   P3.1, P3.2.1, P3.2.2.1, P3.2.2.2.1, P3.2.2.2.2,
   P4.1, P4.2.1, P4.2.2.1, P4.2.2.2.1, P4.2.2.2.2,
   P5.1, P5.2.1, P5.2.2.1, P5.2.2.2.1, P5.2.2.2.2]

/-- Undo rho/pi: rotate each `T` value back by the complementary amount and
restore the lane positions, recovering the theta image. -/
def rhoPiInv (T : List Nat) : List Nat :=
  [lane T 0, rotl_lane (lane T 10) 63, rotl_lane (lane T 20) 2,
   rotl_lane (lane T 5) 36, rotl_lane (lane T 15) 37,
   rotl_lane (lane T 16) 28, rotl_lane (lane T 1) 20, rotl_lane (lane T 11) 58,
   rotl_lane (lane T 21) 9, rotl_lane (lane T 6) 44,
   rotl_lane (lane T 7) 61, rotl_lane (lane T 17) 54, rotl_lane (lane T 2) 21,
   rotl_lane (lane T 12) 39, rotl_lane (lane T 22) 25,
   rotl_lane (lane T 23) 23, rotl_lane (lane T 8) 19, rotl_lane (lane T 18) 49,
   rotl_lane (lane T 3) 43, rotl_lane (lane T 13) 56,
   rotl_lane (lane T 14) 46, rotl_lane (lane T 24) 62, rotl_lane (lane T 9) 3,
   rotl_lane (lane T 19) 8, rotl_lane (lane T 4) 50]

/-- Undo theta given the theta image: recover the original column parities
through the inverted parity feedback map `gInv`, recompute the `D` values,
and XOR them away. -/
def thetaInvFromImage (thA : List Nat) : List Nat :=
  let Cfun : Nat → Nat := fun x => (interClist thA).getD (x % 5) 0
  let C := gInv Cfun
  let D := interD (C 0, C 1, C 2, C 3, C 4)
  let Dl := [D.1, D.2.1, D.2.2.1, D.2.2.2.1, D.2.2.2.2]
  (List.range 25).map fun i => lane thA i ^^^ Dl.getD (i % 5) 0

/-- Inverse of one intermediate-form round: undo iota and chi, undo rho/pi,
then undo theta. -/
def interRoundInv (N : List Nat) (r_idx : Nat) : List Nat :=
  thetaInvFromImage (rhoPiInv (chiInvState N r_idx))

/-- Inverse of the full 24-round permutation: the round inverses applied in
reverse round order. -/
def keccakf1600_state_permute_ref_inv (st : List Nat) : List Nat :=
  (List.range 24).reverse.foldl interRoundInv st

/-! ## Concrete pre-permutation states for the known-answer tests -/

/-- State absorbed from the empty message at rate 136 (after padding). -/
def preE256 : List Nat :=
  [0x6, 0x0, 0x0, 0x0, 0x0, 0x0, 0x0, 0x0, 0x0, 0x0, 0x0, 0x0, 0x0, 0x0, 0x0, 0x0, 0x8000000000000000, 0x0, 0x0, 0x0, 0x0, 0x0, 0x0, 0x0, 0x0]

/-- State absorbed from "abc" at rate 136 (after padding). -/
def preAbc : List Nat :=
  [0x6636261, 0x0, 0x0, 0x0, 0x0, 0x0, 0x0, 0x0, 0x0, 0x0, 0x0, 0x0, 0x0, 0x0, 0x0, 0x0, 0x8000000000000000, 0x0, 0x0, 0x0, 0x0, 0x0, 0x0, 0x0, 0x0]

/-- State absorbed from the empty message at rate 72 (after padding). -/
def preE512 : List Nat :=
  [0x6, 0x0, 0x0, 0x0, 0x0, 0x0, 0x0, 0x0, 0x8000000000000000, 0x0, 0x0, 0x0, 0x0, 0x0, 0x0, 0x0, 0x0, 0x0, 0x0, 0x0, 0x0, 0x0, 0x0, 0x0, 0x0]

/-- State absorbed from 135 bytes 0x61 at rate 136 (after padding). -/
def preA135 : List Nat :=
  [0x6161616161616161, 0x6161616161616161, 0x6161616161616161, 0x6161616161616161, 0x6161616161616161, 0x6161616161616161, 0x6161616161616161, 0x6161616161616161, 0x6161616161616161, 0x6161616161616161, 0x6161616161616161, 0x6161616161616161, 0x6161616161616161, 0x6161616161616161, 0x6161616161616161, 0x6161616161616161, 0x8661616161616161, 0x0, 0x0, 0x0, 0x0, 0x0, 0x0, 0x0, 0x0]

/-- State absorbed from one full block of 136 bytes 0x61. -/
def preBlockA : List Nat :=
  [0x6161616161616161, 0x6161616161616161, 0x6161616161616161, 0x6161616161616161, 0x6161616161616161, 0x6161616161616161, 0x6161616161616161, 0x6161616161616161, 0x6161616161616161, 0x6161616161616161, 0x6161616161616161, 0x6161616161616161, 0x6161616161616161, 0x6161616161616161, 0x6161616161616161, 0x6161616161616161, 0x6161616161616161, 0x0, 0x0, 0x0, 0x0, 0x0, 0x0, 0x0, 0x0]

/-- Second-permutation input for the 136-byte message (padding block). -/
def preA136p2 : List Nat :=
  [0xd498ec4c50d2e1f7, 0xf6998ae6c59e8574, 0x263aca0c5bafa4bf, 0xbae3c19ac8f814af, 0xdce614ab37078be4, 0x654ebe24fdaf5394, 0x73f522e1465cebca, 0x4703ad8e1fa34dd8, 0x62f13e6595b6b003, 0xb4612aebbfc3cb35, 0x27ddb9ec16622fd3, 0xf2d9657c38c08e9b, 0x3a4ed730f5883b65, 0x9aec4def2f00711, 0x6c42ad2013f0e844, 0x5c92b40273f042cb, 0x9d82f1902910fb5, 0xa14bfa300feff0ef, 0x7faf2c2662e2e66d, 0xe8fd30ad7d4031a8, 0x7de652c2538c8cd9, 0xe46508dd90553752, 0xc5b0be1407d0d0b0, 0x9735b888850d69e4, 0x2bab2ce9edd14d81]

/-- Second-permutation input for the 137-byte message (tail byte plus padding). -/
def preA137p2 : List Nat :=
  [0xd498ec4c50d2e790, 0xf6998ae6c59e8574, 0x263aca0c5bafa4bf, 0xbae3c19ac8f814af, 0xdce614ab37078be4, 0x654ebe24fdaf5394, 0x73f522e1465cebca, 0x4703ad8e1fa34dd8, 0x62f13e6595b6b003, 0xb4612aebbfc3cb35, 0x27ddb9ec16622fd3, 0xf2d9657c38c08e9b, 0x3a4ed730f5883b65, 0x9aec4def2f00711, 0x6c42ad2013f0e844, 0x5c92b40273f042cb, 0x9d82f1902910fb5, 0xa14bfa300feff0ef, 0x7faf2c2662e2e66d, 0xe8fd30ad7d4031a8, 0x7de652c2538c8cd9, 0xe46508dd90553752, 0xc5b0be1407d0d0b0, 0x9735b888850d69e4, 0x2bab2ce9edd14d81]

/-- The absorb phase up to (not including) padding: the full-block loop and
the remaining-bytes loop of `keccakf1600_absorb`, returning the state and
the block offset at which padding starts. -/
def absorbPrePad (f : List Nat → List Nat) (st : List Nat)
    (msg : Nat → Nat) (msg_len md_len : Nat) : List Nat × Nat :=
  let capacity_bytes := 2 * md_len
  let rate_bytes := 200 - capacity_bytes
  let num_blocks := msg_len / rate_bytes
  let lanes_per_block := rate_bytes / 8
  let p := absorbBlocks f st msg num_blocks lanes_per_block
  absorbTail f p.1 msg p.2 (msg_len - p.2) rate_bytes


/-- One conditional P-lane inversion of the squeeze output
(`if (lanes_out > k) md_lanes[k] = ~md_lanes[k];`). -/
def maskStep (L : Nat) (out : List Nat) (k : Nat) : List Nat :=
  if L > k then invertOutLane out k else out

/-! # Theorems

## Bit-level toolkit -/

theorem two64_eq : two64 = 2 ^ 64 := by norm_num [two64]

theorem two64_pos : 0 < two64 := by norm_num [two64]

theorem ones64_eq : ones64 = 2 ^ 64 - 1 := by norm_num [ones64, two64]

theorem ones64_lt : ones64 < two64 := by norm_num [ones64, two64]

theorem lt64_xor {a b : Nat} (ha : a < two64) (hb : b < two64) : a ^^^ b < two64 := by
  rw [two64_eq] at *; exact Nat.xor_lt_two_pow ha hb

theorem lt64_or {a b : Nat} (ha : a < two64) (hb : b < two64) : a ||| b < two64 := by
  rw [two64_eq] at *; exact Nat.or_lt_two_pow ha hb

theorem lt64_and (a : Nat) {b : Nat} (hb : b < two64) : a &&& b < two64 := by
  rw [two64_eq] at *; exact Nat.and_lt_two_pow a hb

theorem lt64_cnot {a : Nat} (ha : a < two64) : cnot a < two64 := lt64_xor ha ones64_lt

theorem lt64_rotl (v n : Nat) : rotl_lane v n < two64 := Nat.mod_lt _ two64_pos

theorem lt64_testBit {a : Nat} (ha : a < two64) {i : Nat} (hi : 64 ≤ i) :
    a.testBit i = false := by
  apply Nat.testBit_lt_two_pow
  calc a < two64 := ha
    _ = 2 ^ 64 := two64_eq
    _ ≤ 2 ^ i := Nat.pow_le_pow_right (by norm_num) hi

theorem eq64_of_testBit {a b : Nat} (ha : a < two64) (hb : b < two64)
    (h : ∀ i, i < 64 → a.testBit i = b.testBit i) : a = b := by
  apply Nat.eq_of_testBit_eq
  intro i
  rcases Nat.lt_or_ge i 64 with hi | hi
  · exact h i hi
  · rw [lt64_testBit ha hi, lt64_testBit hb hi]

theorem testBit_ones64 {i : Nat} (hi : i < 64) : Nat.testBit ones64 i = true := by
  rw [ones64_eq, Nat.testBit_two_pow_sub_one]
  simpa using hi

theorem testBit_cnot (x : Nat) {i : Nat} (hi : i < 64) :
    (cnot x).testBit i = !(x.testBit i) := by
  rw [cnot, Nat.testBit_xor, testBit_ones64 hi, Bool.xor_true]

theorem testBit_rotl_lane {v : Nat} (hv : v < two64) {n m : Nat} (hnm : n + m = 64)
    {i : Nat} (hi : i < 64) :
    (rotl_lane v n).testBit i = v.testBit ((i + m) % 64) := by
  have hmn : 64 - n = m := by omega
  rw [rotl_lane, hmn, two64_eq, Nat.testBit_mod_two_pow, decide_eq_true hi, Bool.true_and,
    Nat.testBit_or, Nat.testBit_shiftLeft, Nat.testBit_shiftRight]
  rcases Nat.lt_or_ge i n with h | h
  · rw [decide_eq_false (by omega : ¬ i ≥ n), Bool.false_and, Bool.false_or]
    have he : (i + m) % 64 = m + i := by omega
    rw [he]
  · rw [lt64_testBit hv (by omega : 64 ≤ m + i), decide_eq_true h, Bool.true_and, Bool.or_false]
    have he : (i + m) % 64 = i - n := by omega
    rw [he]

/-! ## Generic fold lemmas -/

theorem foldl_inv {β : Type} {α : Type} (P : β → Prop) (step : β → α → β)
    (hstep : ∀ b x, P b → P (step b x)) :
    ∀ (l : List α) (b : β), P b → P (l.foldl step b) := by
  intro l
  induction l with
  | nil => exact fun b h => h
  | cons x xs ih => exact fun b h => ih (step b x) (hstep b x h)

theorem foldl_congr_inv {β : Type} {α : Type} (P : β → Prop) (step1 step2 : β → α → β)
    (hcong : ∀ b x, P b → step1 b x = step2 b x)
    (hinv : ∀ b x, P b → P (step2 b x)) :
    ∀ (l : List α) (b : β), P b → l.foldl step1 b = l.foldl step2 b := by
  intro l
  induction l with
  | nil => intro b _; rfl
  | cons x xs ih =>
    intro b h
    simp only [List.foldl_cons]
    rw [hcong b x h]
    exact ih (step2 b x) (hinv b x h)

theorem foldl_pair_range (f : List Nat → Nat → List Nat) :
    ∀ (n : Nat) (A : List Nat),
      (List.range n).foldl (fun a k => f (f a (2 * k)) (2 * k + 1)) A =
      (List.range (2 * n)).foldl f A := by
  intro n
  induction n with
  | zero => intro A; rfl
  | succ m ih =>
    intro A
    rw [List.range_succ, List.foldl_append, ih]
    have h2 : 2 * (m + 1) = (2 * m + 1) + 1 := by ring
    rw [h2, List.range_succ, List.foldl_append, List.range_succ, List.foldl_append]
    simp [List.foldl]

/-! ## Round-level equivalence of the strategies -/

theorem compact_theta_eq (A : List Nat) : compact.theta A = theta A := rfl

theorem compact_rho_pi_eq (A : List Nat) : compact.rho_pi A = rho_pi A := rfl

theorem compact_chi_eq (A : List Nat) : compact.chi A = chi A := rfl

theorem compact_iota_eq (A : List Nat) : ∀ i, compact.iota A i = iota A i
  | 0 => rfl | 1 => rfl | 2 => rfl | 3 => rfl | 4 => rfl | 5 => rfl
  | 6 => rfl | 7 => rfl | 8 => rfl | 9 => rfl | 10 => rfl | 11 => rfl
  | 12 => rfl | 13 => rfl | 14 => rfl | 15 => rfl | 16 => rfl | 17 => rfl
  | 18 => rfl | 19 => rfl | 20 => rfl | 21 => rfl | 22 => rfl | 23 => rfl
  | (n + 24) => by
    have h1 : compact.rc_compressed.getD (n + 24) 0 = 0 :=
      List.getD_eq_default _ _
        (by simp only [compact.rc_compressed, List.length_cons, List.length_nil]; omega)
    have h2 : round_constants.getD (n + 24) 0 = 0 :=
      List.getD_eq_default _ _
        (by simp only [round_constants, List.length_cons, List.length_nil]; omega)
    show compact.iota A (n + 24) = iota A (n + 24)
    unfold compact.iota iota
    rw [h1, h2]
    rfl

theorem compact_round_eq (A : List Nat) (i : Nat) :
    compactRoundStep A i = refRoundStep A i := by
  show compact.iota (compact.chi (compact.rho_pi (compact.theta A))) i = _
  rw [compact_theta_eq, compact_rho_pi_eq, compact_chi_eq, compact_iota_eq]
  rfl

theorem ref_round_eq_inter25
    (a0 a1 a2 a3 a4 a5 a6 a7 a8 a9 a10 a11 a12 a13 a14 a15 a16 a17 a18 a19 a20 a21 a22 a23 a24 i : Nat) :
    refRoundStep [a0, a1, a2, a3, a4, a5, a6, a7, a8, a9, a10, a11, a12,
      a13, a14, a15, a16, a17, a18, a19, a20, a21, a22, a23, a24] i =
    keccakf1600_round_intermediate_unrolled [a0, a1, a2, a3, a4, a5, a6, a7, a8, a9, a10, a11, a12,
      a13, a14, a15, a16, a17, a18, a19, a20, a21, a22, a23, a24] i := rfl

theorem inplace_round_eq_inter25
    (a0 a1 a2 a3 a4 a5 a6 a7 a8 a9 a10 a11 a12 a13 a14 a15 a16 a17 a18 a19 a20 a21 a22 a23 a24 i : Nat) :
    keccakf1600_round_inplace_unrolled [a0, a1, a2, a3, a4, a5, a6, a7, a8, a9, a10, a11, a12,
      a13, a14, a15, a16, a17, a18, a19, a20, a21, a22, a23, a24] i =
    keccakf1600_round_intermediate_unrolled [a0, a1, a2, a3, a4, a5, a6, a7, a8, a9, a10, a11, a12,
      a13, a14, a15, a16, a17, a18, a19, a20, a21, a22, a23, a24] i := rfl

theorem list25_eq (A : List Nat) (h : A.length = 25) :
    A = [lane A 0, lane A 1, lane A 2, lane A 3, lane A 4, lane A 5, lane A 6,
         lane A 7, lane A 8, lane A 9, lane A 10, lane A 11, lane A 12, lane A 13,
         lane A 14, lane A 15, lane A 16, lane A 17, lane A 18, lane A 19, lane A 20,
         lane A 21, lane A 22, lane A 23, lane A 24] := by
  rcases A with _ | ⟨a0, A⟩
  · exact absurd h (by simp only [List.length_nil, List.length_cons]; omega)
  rcases A with _ | ⟨a1, A⟩
  · exact absurd h (by simp only [List.length_nil, List.length_cons]; omega)
  rcases A with _ | ⟨a2, A⟩
  · exact absurd h (by simp only [List.length_nil, List.length_cons]; omega)
  rcases A with _ | ⟨a3, A⟩
  · exact absurd h (by simp only [List.length_nil, List.length_cons]; omega)
  rcases A with _ | ⟨a4, A⟩
  · exact absurd h (by simp only [List.length_nil, List.length_cons]; omega)
  rcases A with _ | ⟨a5, A⟩
  · exact absurd h (by simp only [List.length_nil, List.length_cons]; omega)
  rcases A with _ | ⟨a6, A⟩
  · exact absurd h (by simp only [List.length_nil, List.length_cons]; omega)
  rcases A with _ | ⟨a7, A⟩
  · exact absurd h (by simp only [List.length_nil, List.length_cons]; omega)
  rcases A with _ | ⟨a8, A⟩
  · exact absurd h (by simp only [List.length_nil, List.length_cons]; omega)
  rcases A with _ | ⟨a9, A⟩
  · exact absurd h (by simp only [List.length_nil, List.length_cons]; omega)
  rcases A with _ | ⟨a10, A⟩
  · exact absurd h (by simp only [List.length_nil, List.length_cons]; omega)
  rcases A with _ | ⟨a11, A⟩
  · exact absurd h (by simp only [List.length_nil, List.length_cons]; omega)
  rcases A with _ | ⟨a12, A⟩
  · exact absurd h (by simp only [List.length_nil, List.length_cons]; omega)
  rcases A with _ | ⟨a13, A⟩
  · exact absurd h (by simp only [List.length_nil, List.length_cons]; omega)
  rcases A with _ | ⟨a14, A⟩
  · exact absurd h (by simp only [List.length_nil, List.length_cons]; omega)
  rcases A with _ | ⟨a15, A⟩
  · exact absurd h (by simp only [List.length_nil, List.length_cons]; omega)
  rcases A with _ | ⟨a16, A⟩
  · exact absurd h (by simp only [List.length_nil, List.length_cons]; omega)
  rcases A with _ | ⟨a17, A⟩
  · exact absurd h (by simp only [List.length_nil, List.length_cons]; omega)
  rcases A with _ | ⟨a18, A⟩
  · exact absurd h (by simp only [List.length_nil, List.length_cons]; omega)
  rcases A with _ | ⟨a19, A⟩
  · exact absurd h (by simp only [List.length_nil, List.length_cons]; omega)
  rcases A with _ | ⟨a20, A⟩
  · exact absurd h (by simp only [List.length_nil, List.length_cons]; omega)
  rcases A with _ | ⟨a21, A⟩
  · exact absurd h (by simp only [List.length_nil, List.length_cons]; omega)
  rcases A with _ | ⟨a22, A⟩
  · exact absurd h (by simp only [List.length_nil, List.length_cons]; omega)
  rcases A with _ | ⟨a23, A⟩
  · exact absurd h (by simp only [List.length_nil, List.length_cons]; omega)
  rcases A with _ | ⟨a24, A⟩
  · exact absurd h (by simp only [List.length_nil, List.length_cons]; omega)
  rcases A with _ | ⟨x, A⟩
  · rfl
  · exact absurd h (by simp only [List.length_nil, List.length_cons]; omega)

theorem inter_round_length (A : List Nat) (i : Nat) :
    (keccakf1600_round_intermediate_unrolled A i).length = 25 := rfl

theorem ref_round_eq {A : List Nat} (h : A.length = 25) (i : Nat) :
    refRoundStep A i = keccakf1600_round_intermediate_unrolled A i := by
  rw [list25_eq A h]
  exact ref_round_eq_inter25 (lane A 0) (lane A 1) (lane A 2) (lane A 3) (lane A 4)
    (lane A 5) (lane A 6) (lane A 7) (lane A 8) (lane A 9) (lane A 10) (lane A 11)
    (lane A 12) (lane A 13) (lane A 14) (lane A 15) (lane A 16) (lane A 17) (lane A 18)
    (lane A 19) (lane A 20) (lane A 21) (lane A 22) (lane A 23) (lane A 24) i

theorem inplace_round_eq {A : List Nat} (h : A.length = 25) (i : Nat) :
    keccakf1600_round_inplace_unrolled A i = keccakf1600_round_intermediate_unrolled A i := by
  rw [list25_eq A h]
  exact inplace_round_eq_inter25 (lane A 0) (lane A 1) (lane A 2) (lane A 3) (lane A 4)
    (lane A 5) (lane A 6) (lane A 7) (lane A 8) (lane A 9) (lane A 10) (lane A 11)
    (lane A 12) (lane A 13) (lane A 14) (lane A 15) (lane A 16) (lane A 17) (lane A 18)
    (lane A 19) (lane A 20) (lane A 21) (lane A 22) (lane A 23) (lane A 24) i

/-! ## Permutation-level equivalence of the strategies -/

theorem permute_inter_eq_rounds (st : List Nat) :
    keccakf1600_state_permute_intermediateur st =
    (List.range 24).foldl keccakf1600_round_intermediate_unrolled st :=
  foldl_pair_range keccakf1600_round_intermediate_unrolled 12 st

theorem permute_ref_eq_inter {st : List Nat} (h : st.length = 25) :
    keccakf1600_state_permute_ref st = keccakf1600_state_permute_intermediateur st := by
  rw [permute_inter_eq_rounds]
  exact foldl_congr_inv (fun B => B.length = 25) refRoundStep
    keccakf1600_round_intermediate_unrolled
    (fun B i hB => ref_round_eq hB i)
    (fun B i _ => inter_round_length B i) (List.range 24) st h

theorem permute_inplace_eq_inter {st : List Nat} (h : st.length = 25) :
    keccakf1600_state_permute_inplaceur st = keccakf1600_state_permute_intermediateur st := by
  rw [permute_inter_eq_rounds]
  exact foldl_congr_inv (fun B => B.length = 25) keccakf1600_round_inplace_unrolled
    keccakf1600_round_intermediate_unrolled
    (fun B i hB => inplace_round_eq hB i)
    (fun B i _ => inter_round_length B i) (List.range 24) st h

theorem permute_compact_eq_ref (st : List Nat) :
    keccakf1600_state_permute_compact st = keccakf1600_state_permute_ref st := by
  show (List.range 24).foldl compactRoundStep st = (List.range 24).foldl refRoundStep st
  exact foldl_congr_inv (fun _ => True) compactRoundStep refRoundStep
    (fun B i _ => compact_round_eq B i) (fun _ _ _ => trivial) (List.range 24) st trivial

theorem ep_pair_step_eq (A : List Nat) (k : Nat) :
    epPairStep (A, interC A) k = (interPairStep A k, interC (interPairStep A k)) := rfl

theorem ep_fold_eq : ∀ (n : Nat) (A : List Nat),
    (List.range n).foldl epPairStep (A, interC A) =
    ((List.range n).foldl interPairStep A, interC ((List.range n).foldl interPairStep A)) := by
  intro n
  induction n with
  | zero => intro A; rfl
  | succ m ih =>
    intro A
    rw [List.range_succ, List.foldl_append, List.foldl_append, ih]
    simp only [List.foldl_cons, List.foldl_nil]
    rw [ep_pair_step_eq]

theorem ep_round22_eq (B : List Nat) :
    keccakf1600_round_intermediate_unrolled_ep B (interC B) 22 =
    (keccakf1600_round_intermediate_unrolled B 22,
     interC (keccakf1600_round_intermediate_unrolled B 22)) := rfl

theorem ep_last23_eq (B : List Nat) :
    keccakf1600_round_intermediate_unrolled_ep_last B (interC B) 23 =
    keccakf1600_round_intermediate_unrolled B 23 := rfl

theorem permute_inter_length (st : List Nat) :
    (keccakf1600_state_permute_intermediateur st).length = 25 := by
  rw [permute_inter_eq_rounds, show (24 : Nat) = 23 + 1 from rfl, List.range_succ,
    List.foldl_append]
  simp only [List.foldl_cons, List.foldl_nil]
  exact inter_round_length _ _

theorem permute_ep_eq_inter (st : List Nat) :
    keccakf1600_state_permute_intermediateur_ep st =
    keccakf1600_state_permute_intermediateur st := by
  show keccakf1600_round_intermediate_unrolled_ep_last
      ((keccakf1600_round_intermediate_unrolled_ep
        ((List.range 11).foldl epPairStep (st, interC st)).1
        ((List.range 11).foldl epPairStep (st, interC st)).2 22).1)
      ((keccakf1600_round_intermediate_unrolled_ep
        ((List.range 11).foldl epPairStep (st, interC st)).1
        ((List.range 11).foldl epPairStep (st, interC st)).2 22).2) 23 =
    keccakf1600_state_permute_intermediateur st
  rw [ep_fold_eq 11 st]
  rw [ep_round22_eq, ep_last23_eq]
  show interPairStep ((List.range 11).foldl interPairStep st) 11 = _
  rw [keccakf1600_state_permute_intermediateur,
    show (12 : Nat) = 11 + 1 from rfl, List.range_succ, List.foldl_append]
  simp [List.foldl]

/-! ## Congruence of the sponge in the installed permutation -/

theorem xorByte_length (B : List Nat) (o b : Nat) : (xorByte B o b).length = B.length := by
  simp [xorByte]

theorem absorb_lanes_congr {f g : List Nat → List Nat}
    (hfg : ∀ B, B.length = 25 → f B = g B) (msg : Nat → Nat) (nl off : Nat)
    {st : List Nat} (h : st.length = 25) :
    keccakf1600_absorb_lanes f st msg nl off = keccakf1600_absorb_lanes g st msg nl off := by
  unfold keccakf1600_absorb_lanes
  have hlen := foldl_inv (fun B : List Nat => B.length = 25)
    (fun acc i => acc.set i (lane st i ^^^ loadLane msg (off + 8 * i)))
    (fun B x hB => by simpa using hB) (List.range nl) st h
  simp only []
  rw [hfg _ hlen]

theorem absorb_lanes_length {g : List Nat → List Nat}
    (hg25 : ∀ B, B.length = 25 → (g B).length = 25) (msg : Nat → Nat) (nl off : Nat)
    {st : List Nat} (h : st.length = 25) :
    (keccakf1600_absorb_lanes g st msg nl off).1.length = 25 := by
  unfold keccakf1600_absorb_lanes
  exact hg25 _ (foldl_inv (fun B : List Nat => B.length = 25)
    (fun acc i => acc.set i (lane st i ^^^ loadLane msg (off + 8 * i)))
    (fun B x hB => by simpa using hB) (List.range nl) st h)

theorem absorbBlocks_congr {f g : List Nat → List Nat}
    (hfg : ∀ B, B.length = 25 → f B = g B)
    (hg25 : ∀ B, B.length = 25 → (g B).length = 25) (msg : Nat → Nat) (nb lpb : Nat)
    {st : List Nat} (h : st.length = 25) :
    absorbBlocks f st msg nb lpb = absorbBlocks g st msg nb lpb := by
  unfold absorbBlocks
  exact foldl_congr_inv (fun p : List Nat × Nat => p.1.length = 25) _ _
    (fun p x hp => absorb_lanes_congr hfg msg lpb p.2 hp)
    (fun p x hp => absorb_lanes_length hg25 msg lpb p.2 hp)
    (List.range nb) (st, 0) h

theorem absorbBlocks_length {g : List Nat → List Nat}
    (hg25 : ∀ B, B.length = 25 → (g B).length = 25) (msg : Nat → Nat) (nb lpb : Nat)
    {st : List Nat} (h : st.length = 25) :
    (absorbBlocks g st msg nb lpb).1.length = 25 := by
  unfold absorbBlocks
  exact foldl_inv (fun p : List Nat × Nat => p.1.length = 25) _
    (fun p x hp => absorb_lanes_length hg25 msg lpb p.2 hp) (List.range nb) (st, 0) h

theorem absorbTail_congr {f g : List Nat → List Nat}
    (hfg : ∀ B, B.length = 25 → f B = g B)
    (hg25 : ∀ B, B.length = 25 → (g B).length = 25) (msg : Nat → Nat)
    (moff cnt rate : Nat) {st : List Nat} (h : st.length = 25) :
    absorbTail f st msg moff cnt rate = absorbTail g st msg moff cnt rate := by
  unfold absorbTail
  refine foldl_congr_inv (fun p : List Nat × Nat => p.1.length = 25) _ _
    (fun p x hp => ?_) (fun p x hp => ?_) (List.range cnt) (st, 0) h
  · by_cases hc : p.2 + 1 = rate
    · simp only []
      rw [if_pos hc, if_pos hc, hfg _ (by rw [xorByte_length]; exact hp)]
    · simp only []
      rw [if_neg hc, if_neg hc]
  · by_cases hc : p.2 + 1 = rate
    · simp only []
      rw [if_pos hc]
      exact hg25 _ (by rw [xorByte_length]; exact hp)
    · simp only []
      rw [if_neg hc]
      rw [xorByte_length]
      exact hp

theorem absorbTail_length {g : List Nat → List Nat}
    (hg25 : ∀ B, B.length = 25 → (g B).length = 25) (msg : Nat → Nat)
    (moff cnt rate : Nat) {st : List Nat} (h : st.length = 25) :
    (absorbTail g st msg moff cnt rate).1.length = 25 := by
  unfold absorbTail
  refine foldl_inv (fun p : List Nat × Nat => p.1.length = 25) _
    (fun p x hp => ?_) (List.range cnt) (st, 0) h
  by_cases hc : p.2 + 1 = rate
  · simp only []
    rw [if_pos hc]
    exact hg25 _ (by rw [xorByte_length]; exact hp)
  · simp only []
    rw [if_neg hc]
    rw [xorByte_length]
    exact hp

theorem absorbPad_congr {f g : List Nat → List Nat}
    (hfg : ∀ B, B.length = 25 → f B = g B)
    (hg25 : ∀ B, B.length = 25 → (g B).length = 25)
    (boff rate delim : Nat) {st : List Nat} (h : st.length = 25) :
    absorbPad f st boff rate delim = absorbPad g st boff rate delim := by
  unfold absorbPad
  simp only []
  have h1 : (xorByte st boff delim).length = 25 := by rw [xorByte_length]; exact h
  by_cases hc : delim &&& 0x80 ≠ 0 ∧ boff = rate - 1
  · rw [if_pos hc, if_pos hc, hfg _ h1, hfg _ (by rw [xorByte_length]; exact hg25 _ h1)]
  · rw [if_neg hc, if_neg hc, hfg _ (by rw [xorByte_length]; exact h1)]

theorem absorbPad_length {g : List Nat → List Nat}
    (hg25 : ∀ B, B.length = 25 → (g B).length = 25)
    (boff rate delim : Nat) {st : List Nat} (h : st.length = 25) :
    (absorbPad g st boff rate delim).length = 25 := by
  unfold absorbPad
  simp only []
  have h1 : (xorByte st boff delim).length = 25 := by rw [xorByte_length]; exact h
  by_cases hc : delim &&& 0x80 ≠ 0 ∧ boff = rate - 1
  · rw [if_pos hc]
    exact hg25 _ (by rw [xorByte_length]; exact hg25 _ h1)
  · rw [if_neg hc]
    exact hg25 _ (by rw [xorByte_length]; exact h1)

theorem absorb_congr {f g : List Nat → List Nat}
    (hfg : ∀ B, B.length = 25 → f B = g B)
    (hg25 : ∀ B, B.length = 25 → (g B).length = 25) (msg : Nat → Nat)
    (msg_len md_len delim : Nat) {st : List Nat} (h : st.length = 25) :
    keccakf1600_absorb f st msg msg_len md_len delim =
    keccakf1600_absorb g st msg msg_len md_len delim := by
  unfold keccakf1600_absorb
  simp only []
  rw [absorbBlocks_congr hfg hg25 msg _ _ h]
  rw [absorbTail_congr hfg hg25 msg _ _ _ (absorbBlocks_length hg25 msg _ _ h)]
  exact absorbPad_congr hfg hg25 _ _ _
    (absorbTail_length hg25 msg _ _ _ (absorbBlocks_length hg25 msg _ _ h))

theorem absorb_length {g : List Nat → List Nat}
    (hg25 : ∀ B, B.length = 25 → (g B).length = 25) (msg : Nat → Nat)
    (msg_len md_len delim : Nat) {st : List Nat} (h : st.length = 25) :
    (keccakf1600_absorb g st msg msg_len md_len delim).length = 25 := by
  unfold keccakf1600_absorb
  exact absorbPad_length hg25 _ _ _
    (absorbTail_length hg25 msg _ _ _ (absorbBlocks_length hg25 msg _ _ h))

theorem squeeze_aux_congr {f g : List Nat → List Nat} (lc : Bool)
    (hfg : ∀ B, B.length = 25 → f B = g B)
    (hg25 : ∀ B, B.length = 25 → (g B).length = 25) :
    ∀ (fuel : Nat) (st : List Nat) (rem rate : Nat), st.length = 25 →
      keccakf1600_squeeze_aux f lc fuel st rem rate =
      keccakf1600_squeeze_aux g lc fuel st rem rate := by
  intro fuel
  induction fuel with
  | zero => intro st rem rate _; rfl
  | succ n ih =>
    intro st rem rate h
    unfold keccakf1600_squeeze_aux
    simp only []
    by_cases hr : rem = 0
    · rw [if_pos hr, if_pos hr]
    · rw [if_neg hr, if_neg hr]
      by_cases hrest : rem - min rem rate > 0
      · rw [if_pos hrest, if_pos hrest, hfg st h, ih (g st) _ _ (hg25 st h)]
      · rw [if_neg hrest, if_neg hrest]

theorem oneshot_congr {f g : List Nat → List Nat}
    (hfg : ∀ B, B.length = 25 → f B = g B)
    (hg25 : ∀ B, B.length = 25 → (g B).length = 25) (lc : Bool) (msg : Nat → Nat)
    (msg_len md_len delim : Nat) :
    keccakf1600_oneshot f lc msg msg_len md_len delim =
    keccakf1600_oneshot g lc msg msg_len md_len delim := by
  unfold keccakf1600_oneshot keccakf1600_squeeze
  simp only []
  have h0 : (if lc then
      (((((zeroState.set 1 ones64).set 2 ones64).set 8 ones64).set 12
        ones64).set 17 ones64).set 20 ones64 else zeroState).length = 25 := by
    by_cases hlc : lc <;> simp [hlc, zeroState]
  rw [absorb_congr hfg hg25 msg _ _ _ h0]
  exact squeeze_aux_congr lc hfg hg25 _ _ _ _ (absorb_length hg25 msg _ _ _ h0)

theorem inter_len25 : ∀ B : List Nat, B.length = 25 →
    (keccakf1600_state_permute_intermediateur B).length = 25 :=
  fun B _ => permute_inter_length B

theorem ref_pointwise_inter : ∀ B : List Nat, B.length = 25 →
    keccakf1600_state_permute_ref B = keccakf1600_state_permute_intermediateur B :=
  fun _ h => permute_ref_eq_inter h

theorem compact_pointwise_inter : ∀ B : List Nat, B.length = 25 →
    keccakf1600_state_permute_compact B = keccakf1600_state_permute_intermediateur B :=
  fun B h => (permute_compact_eq_ref B).trans (permute_ref_eq_inter h)

theorem inplace_pointwise_inter : ∀ B : List Nat, B.length = 25 →
    keccakf1600_state_permute_inplaceur B = keccakf1600_state_permute_intermediateur B :=
  fun _ h => permute_inplace_eq_inter h

theorem ep_pointwise_inter : ∀ B : List Nat, B.length = 25 →
    keccakf1600_state_permute_intermediateur_ep B = keccakf1600_state_permute_intermediateur B :=
  fun B _ => permute_ep_eq_inter B

/-- C1: for every initial 25-lane state the reference, compact, in-place
unrolled, intermediate-state unrolled and early-parity strategies produce
bitwise-identical permuted states, and consequently for every message the
SHA3-256 and SHA3-512 digests computed with any of the non-LC strategies
coincide with those computed with the reference strategy. -/
theorem C1_strategy_equivalence :
    (∀ st : List Nat, st.length = 25 →
      keccakf1600_state_permute_ref st = keccakf1600_state_permute_intermediateur st ∧
      keccakf1600_state_permute_compact st = keccakf1600_state_permute_intermediateur st ∧
      keccakf1600_state_permute_inplaceur st = keccakf1600_state_permute_intermediateur st ∧
      keccakf1600_state_permute_intermediateur_ep st =
        keccakf1600_state_permute_intermediateur st) ∧
    (∀ (msg : Nat → Nat) (msg_len : Nat),
      sha3_256_oneshot keccakf1600_state_permute_compact false msg msg_len =
        sha3_256_oneshot keccakf1600_state_permute_ref false msg msg_len ∧
      sha3_256_oneshot keccakf1600_state_permute_inplaceur false msg msg_len =
        sha3_256_oneshot keccakf1600_state_permute_ref false msg msg_len ∧
      sha3_256_oneshot keccakf1600_state_permute_intermediateur false msg msg_len =
        sha3_256_oneshot keccakf1600_state_permute_ref false msg msg_len ∧
      sha3_256_oneshot keccakf1600_state_permute_intermediateur_ep false msg msg_len =
        sha3_256_oneshot keccakf1600_state_permute_ref false msg msg_len ∧
      sha3_512_oneshot keccakf1600_state_permute_compact false msg msg_len =
        sha3_512_oneshot keccakf1600_state_permute_ref false msg msg_len ∧
      sha3_512_oneshot keccakf1600_state_permute_inplaceur false msg msg_len =
        sha3_512_oneshot keccakf1600_state_permute_ref false msg msg_len ∧
      sha3_512_oneshot keccakf1600_state_permute_intermediateur false msg msg_len =
        sha3_512_oneshot keccakf1600_state_permute_ref false msg msg_len ∧
      sha3_512_oneshot keccakf1600_state_permute_intermediateur_ep false msg msg_len =
        sha3_512_oneshot keccakf1600_state_permute_ref false msg msg_len) := by
  constructor
  · intro st h
    exact ⟨ref_pointwise_inter st h, compact_pointwise_inter st h,
      inplace_pointwise_inter st h, ep_pointwise_inter st h⟩
  · intro msg msg_len
    have hR : ∀ md : Nat,
        keccakf1600_oneshot keccakf1600_state_permute_ref false msg msg_len md 0x06 =
        keccakf1600_oneshot keccakf1600_state_permute_intermediateur false msg msg_len md 0x06 :=
      fun md => oneshot_congr ref_pointwise_inter inter_len25 false msg msg_len md 0x06
    have hC : ∀ md : Nat,
        keccakf1600_oneshot keccakf1600_state_permute_compact false msg msg_len md 0x06 =
        keccakf1600_oneshot keccakf1600_state_permute_intermediateur false msg msg_len md 0x06 :=
      fun md => oneshot_congr compact_pointwise_inter inter_len25 false msg msg_len md 0x06
    have hI : ∀ md : Nat,
        keccakf1600_oneshot keccakf1600_state_permute_inplaceur false msg msg_len md 0x06 =
        keccakf1600_oneshot keccakf1600_state_permute_intermediateur false msg msg_len md 0x06 :=
      fun md => oneshot_congr inplace_pointwise_inter inter_len25 false msg msg_len md 0x06
    have hE : ∀ md : Nat,
        keccakf1600_oneshot keccakf1600_state_permute_intermediateur_ep false msg msg_len md 0x06 =
        keccakf1600_oneshot keccakf1600_state_permute_intermediateur false msg msg_len md 0x06 :=
      fun md => oneshot_congr ep_pointwise_inter inter_len25 false msg msg_len md 0x06
    exact ⟨(hC 32).trans (hR 32).symm, (hI 32).trans (hR 32).symm,
      (hR 32).symm, (hE 32).trans (hR 32).symm,
      (hC 64).trans (hR 64).symm, (hI 64).trans (hR 64).symm,
      (hR 64).symm, (hE 64).trans (hR 64).symm⟩

/-- Witness for C1 at the all-zero state and the empty message. -/
theorem C1_strategy_equivalence_witness :
    zeroState.length = 25 ∧
    keccakf1600_state_permute_ref zeroState =
      keccakf1600_state_permute_intermediateur zeroState :=
  ⟨by decide, (C1_strategy_equivalence.1 zeroState (by decide)).1⟩

theorem rotl_lane_zero {x : Nat} (hx : x < two64) : rotl_lane x 0 = x := by
  rw [rotl_lane, Nat.shiftLeft_zero, Nat.shiftRight_eq_div_pow,
    Nat.div_eq_of_lt (by rw [← two64_eq]; exact hx), Nat.or_zero, Nat.mod_eq_of_lt hx]

theorem rotl_lane_64 {x : Nat} (hx : x < two64) : rotl_lane x 64 = x := by
  apply eq64_of_testBit (lt64_rotl x 64) hx
  intro i hi
  rw [rotl_lane, Nat.sub_self, Nat.shiftRight_zero, two64_eq, Nat.testBit_mod_two_pow,
    decide_eq_true hi, Bool.true_and, Nat.testBit_or, Nat.testBit_shiftLeft,
    decide_eq_false (by omega : ¬ i ≥ 64), Bool.false_and, Bool.false_or]

/-- C8: on the RV64 target the rotation helper satisfies rotl_lane(x, 0) = x
and rotl_lane(x, n) = rotl_lane(x, n mod 64) for every rotation amount n,
and for n in [1, 63] — the region where both C shift amounts are in range —
the masked target semantics coincide with the portable `rotl_lane`, whose
right-shift amount is 64 - n. -/
theorem C8_rotl_lane_mod64 (x : Nat) (hx : x < two64) (n : Nat) :
    rotl_lane_rv64 x 0 = x ∧
    rotl_lane_rv64 x n = rotl_lane_rv64 x (n % 64) ∧
    (1 ≤ n → n ≤ 63 → rotl_lane_rv64 x n = rotl_lane x n) := by
  refine ⟨?_, ?_, ?_⟩
  · show (x ||| x) % two64 = x
    rw [Nat.or_self, Nat.mod_eq_of_lt hx]
  · unfold rotl_lane_rv64
    rw [(by omega : n % 64 % 64 = n % 64)]
  · intro h1 h63
    unfold rotl_lane_rv64 rotl_lane
    rw [Nat.mod_eq_of_lt (show n < 64 by omega),
      Nat.mod_eq_of_lt (show 64 - n < 64 by omega)]

/-- Closed-form instance of C8 at x = 1, n = 65: the left shift is by
65 mod 64 = 1 and the right shift by (64 - 65 mod 64) mod 64 = 63, so the
mod-64 identity holds there. -/
theorem C8_rotl_lane_mod64_witness :
    1 < two64 ∧
    (rotl_lane_rv64 1 0 = 1 ∧
      rotl_lane_rv64 1 65 = rotl_lane_rv64 1 (65 % 64) ∧
      (1 ≤ 65 → 65 ≤ 63 → rotl_lane_rv64 1 65 = rotl_lane 1 65)) :=
  ⟨by decide, C8_rotl_lane_mod64 1 (by decide) 65⟩

/-- C3 counterexample: before keccakf1600_set_permutation_function is ever
called the installed strategy is the no-op stub, and the resulting
"digest" of the empty message is not the SHA3-256 digest of the empty
message. -/
theorem C3_default_stub_counterexample :
    sha3_256_oneshot default_state_permute default_use_lc msgEmpty 0 ≠
      kat256_empty := by decide

/-- C3 (amended): the default installed permutation is the stub, which is a
no-op (the identity on the state), with lane-complementing off; a digest
call before any set_permutation_function call therefore returns the bytes
of the padded-but-never-permuted state — for the empty message, the
delimiter byte 0x06 followed by zeros — rather than a SHA-3 digest. -/
theorem C3_default_stub_amended :
    (∀ st : List Nat, stub_state_permute st = st) ∧
    default_state_permute = stub_state_permute ∧
    default_use_lc = false ∧
    sha3_256_oneshot default_state_permute default_use_lc msgEmpty 0 =
      6 :: List.replicate 31 0 :=
  ⟨fun _ => rfl, rfl, rfl, by decide⟩

/-- C9: the SHA-3 delimiter 0x06 has its high bit clear, so the conditional
extra permutation in the padding phase is unreachable through the SHA-3
entry points: for every active permutation f, state, block offset and rate,
padding with delimiter 0x06 is exactly one delimiter XOR, one 0x80 XOR at
byte rate − 1, and one permutation; and both SHA-3 entry points reach the
sponge with delimiter 0x06. -/
theorem C9_delim_branch_unreachable :
    (0x06 &&& 0x80 = 0) ∧
    (∀ (f : List Nat → List Nat) (st : List Nat) (block_off rate_bytes : Nat),
      absorbPad f st block_off rate_bytes 0x06 =
        f (xorByte (xorByte st block_off 0x06) (rate_bytes - 1) 0x80)) ∧
    (∀ (f : List Nat → List Nat) (lc : Bool) (msg : Nat → Nat) (msg_len md_len : Nat),
      sha3_oneshot f lc msg msg_len md_len =
        keccakf1600_oneshot f lc msg msg_len md_len 0x06) := by
  refine ⟨rfl, ?_, fun _ _ _ _ _ => rfl⟩
  intro f st block_off rate_bytes
  unfold absorbPad
  simp only []
  rw [if_neg]
  intro h
  exact h.1 (by decide)


/-! ## Known-answer evaluation scaffolding -/

theorem foldl_range24_chunks {α : Type} (f : α → Nat → α) (st : α) :
    (List.range 24).foldl f st =
    List.foldl f (List.foldl f (List.foldl f (List.foldl f (List.foldl f
      (List.foldl f st [0, 1, 2, 3]) [4, 5, 6, 7]) [8, 9, 10, 11])
      [12, 13, 14, 15]) [16, 17, 18, 19]) [20, 21, 22, 23] := by
  rw [show List.range 24 = [0, 1, 2, 3] ++ ([4, 5, 6, 7] ++ ([8, 9, 10, 11] ++
    ([12, 13, 14, 15] ++ ([16, 17, 18, 19] ++ [20, 21, 22, 23])))) from rfl]
  simp only [List.foldl_append]

theorem absorb_decompose (f : List Nat → List Nat) (st : List Nat)
    (msg : Nat → Nat) (msg_len md_len delim : Nat) :
    keccakf1600_absorb f st msg msg_len md_len delim =
    absorbPad f (absorbPrePad f st msg msg_len md_len).1
      (absorbPrePad f st msg msg_len md_len).2 (200 - 2 * md_len) delim := rfl

theorem absorbPad_delim6 (f : List Nat → List Nat) (st : List Nat)
    (block_off rate_bytes : Nat) :
    absorbPad f st block_off rate_bytes 6 =
    f (xorByte (xorByte st block_off 6) (rate_bytes - 1) 0x80) := by
  unfold absorbPad
  simp only []
  rw [if_neg]
  intro h
  exact h.1 (by decide)

theorem stE256_s1 : List.foldl refRoundStep preE256 [0, 1, 2, 3] =
    [0xd2204351fba621a7, 0x27031b5f86648b57, 0x9a3d378f90a4b5af, 0x66b70ef68af62519, 0x567e276f7b1d6545, 0x3228263f709cb021, 0x4e61bc49f15b2cbd, 0x614568786ee7e2d9, 0x17d39ebd3eb9dff8, 0xc9627d1a1e20d619, 0xd41b76866f72c3d1, 0x8aa16a94c18e2ff0, 0xd0286d51b79fca7, 0x7ca60ec1230e458f, 0x2f007f6a85e3492c, 0x6ade8f9b8210da6, 0x7b4df3abdd4ed69e, 0x6385b7ed461a5fbc, 0x521e438594609401, 0x4e915241d583e1ab, 0x42e7d0870ccd8a88, 0xe5f2fc1edeb005bc, 0x2b7ca707b654ddb5, 0xee0218af0d9558f9, 0x6f789acdf193fa0a] := by decide

theorem stE256_s2 : List.foldl refRoundStep [0xd2204351fba621a7, 0x27031b5f86648b57, 0x9a3d378f90a4b5af, 0x66b70ef68af62519, 0x567e276f7b1d6545, 0x3228263f709cb021, 0x4e61bc49f15b2cbd, 0x614568786ee7e2d9, 0x17d39ebd3eb9dff8, 0xc9627d1a1e20d619, 0xd41b76866f72c3d1, 0x8aa16a94c18e2ff0, 0xd0286d51b79fca7, 0x7ca60ec1230e458f, 0x2f007f6a85e3492c, 0x6ade8f9b8210da6, 0x7b4df3abdd4ed69e, 0x6385b7ed461a5fbc, 0x521e438594609401, 0x4e915241d583e1ab, 0x42e7d0870ccd8a88, 0xe5f2fc1edeb005bc, 0x2b7ca707b654ddb5, 0xee0218af0d9558f9, 0x6f789acdf193fa0a] [4, 5, 6, 7] =
    [0x54db247eb3176f6d, 0xd2aec73baf824a36, 0xf84a423e8b43493e, 0x2360724fd85660b0, 0xf38ddc7c5696af13, 0xc1c58cf32c84acea, 0x90ef7e5d66476482, 0x7734869a0c3d5f10, 0x910fffb8d78c0cca, 0xad766d28438cc285, 0xfef92c55a1a2e9c1, 0x377be4ee281d7e2a, 0xf4dccc1572b77, 0xbfbf1cbc72fd90f2, 0xba1f1402cc94e38f, 0x8a4d0b84953371b0, 0x40a9d00180c75c94, 0x9d41030d672dbcaf, 0xf3b54d8b8f41307d, 0x86f1a4dde76a25d6, 0x3213ddb554ccd22e, 0x38ba882279714526, 0x742b51d5c017429f, 0x7a04d5390ea9afbd, 0xc3dc5440f8c79800] := by decide

theorem stE256_s3 : List.foldl refRoundStep [0x54db247eb3176f6d, 0xd2aec73baf824a36, 0xf84a423e8b43493e, 0x2360724fd85660b0, 0xf38ddc7c5696af13, 0xc1c58cf32c84acea, 0x90ef7e5d66476482, 0x7734869a0c3d5f10, 0x910fffb8d78c0cca, 0xad766d28438cc285, 0xfef92c55a1a2e9c1, 0x377be4ee281d7e2a, 0xf4dccc1572b77, 0xbfbf1cbc72fd90f2, 0xba1f1402cc94e38f, 0x8a4d0b84953371b0, 0x40a9d00180c75c94, 0x9d41030d672dbcaf, 0xf3b54d8b8f41307d, 0x86f1a4dde76a25d6, 0x3213ddb554ccd22e, 0x38ba882279714526, 0x742b51d5c017429f, 0x7a04d5390ea9afbd, 0xc3dc5440f8c79800] [8, 9, 10, 11] =
    [0x41a22e0d267954c8, 0x695b94576c84037a, 0xf37ac6a6ff5c3603, 0x73bbc0e747baa6c2, 0x95174fe810a459ce, 0x245ce012066afcc3, 0x9f1f9b765c5ee370, 0xea4a100ab693ac8, 0x58c363bb7133501b, 0xa019e29af04691bc, 0x133d59e43795fe5c, 0xb752cc66cb2ddc39, 0x94e2bca0de79943f, 0x51bf0b37e0ebb026, 0xf48dc59d84829f76, 0x134c192a6cc9ab99, 0x208db8386052f6e2, 0x7af7d90f7d30db87, 0x9a94a0636b332f69, 0xbc78d1145324b3a3, 0x7adb1cb3ad9dc990, 0x8ea405f44cb9090, 0x806d634e75515ccf, 0x7ec15214c3c63596, 0x9771740ff365eec2] := by decide

theorem stE256_s4 : List.foldl refRoundStep [0x41a22e0d267954c8, 0x695b94576c84037a, 0xf37ac6a6ff5c3603, 0x73bbc0e747baa6c2, 0x95174fe810a459ce, 0x245ce012066afcc3, 0x9f1f9b765c5ee370, 0xea4a100ab693ac8, 0x58c363bb7133501b, 0xa019e29af04691bc, 0x133d59e43795fe5c, 0xb752cc66cb2ddc39, 0x94e2bca0de79943f, 0x51bf0b37e0ebb026, 0xf48dc59d84829f76, 0x134c192a6cc9ab99, 0x208db8386052f6e2, 0x7af7d90f7d30db87, 0x9a94a0636b332f69, 0xbc78d1145324b3a3, 0x7adb1cb3ad9dc990, 0x8ea405f44cb9090, 0x806d634e75515ccf, 0x7ec15214c3c63596, 0x9771740ff365eec2] [12, 13, 14, 15] =
    [0x11fb6ef82465089e, 0xdf438788bae00dd, 0x5945d6f5e05ba218, 0x8c77c62985fb70b6, 0x1fe24674d501efc5, 0x37f72add0803e3ff, 0xfd6fb033d6384d34, 0x356c5a2547b15884, 0x60e9f93c51b4e8de, 0x891299574e96af0c, 0x128fbe0942283bad, 0xa464da76c17ca5b6, 0xc6098210fb199a07, 0x190b10ec0b487e9f, 0x6c3f48b58dbfec05, 0x8f4f0d82659ef9a1, 0x1e78ce5a2d7c4c41, 0x227d772e7ad88f, 0x7f51658caa0def5f, 0xcd4ca313a20c4b59, 0xe7336f3d49eee48f, 0x8311d7d86a64cfd3, 0x67ec265fc449d816, 0xfe85330d8c400429, 0x7211120988f6026b] := by decide

theorem stE256_s5 : List.foldl refRoundStep [0x11fb6ef82465089e, 0xdf438788bae00dd, 0x5945d6f5e05ba218, 0x8c77c62985fb70b6, 0x1fe24674d501efc5, 0x37f72add0803e3ff, 0xfd6fb033d6384d34, 0x356c5a2547b15884, 0x60e9f93c51b4e8de, 0x891299574e96af0c, 0x128fbe0942283bad, 0xa464da76c17ca5b6, 0xc6098210fb199a07, 0x190b10ec0b487e9f, 0x6c3f48b58dbfec05, 0x8f4f0d82659ef9a1, 0x1e78ce5a2d7c4c41, 0x227d772e7ad88f, 0x7f51658caa0def5f, 0xcd4ca313a20c4b59, 0xe7336f3d49eee48f, 0x8311d7d86a64cfd3, 0x67ec265fc449d816, 0xfe85330d8c400429, 0x7211120988f6026b] [16, 17, 18, 19] =
    [0x692d774028a557f8, 0x68e6aa03eed2c60, 0x3c001941f88c34ab, 0x837faa91a4599af, 0x47ca9bd7d9cb9877, 0x9568bead0ccca388, 0xc51eabab0987ab67, 0x4248941238bce4e3, 0x1f2df9a069cbf77e, 0x2d4d0bf9566603, 0x8e0eaabbd690d904, 0xd23e9636a031204e, 0xa3d132e9694dc2e6, 0xc63822db9a379be7, 0x3802288cf910e389, 0xf40c1edcf888324b, 0x6b3e292920d63f93, 0x8190ce3fae26e78c, 0xdf6af1d961a2cac9, 0x68451e1fbdce606a, 0xa8f8241f1cd94a18, 0x6796e7c8eaf712f2, 0x239410fe61d4caa4, 0x1759f46e771ee9cf, 0xfcd67513e412a22d] := by decide

theorem stE256_s6 : List.foldl refRoundStep [0x692d774028a557f8, 0x68e6aa03eed2c60, 0x3c001941f88c34ab, 0x837faa91a4599af, 0x47ca9bd7d9cb9877, 0x9568bead0ccca388, 0xc51eabab0987ab67, 0x4248941238bce4e3, 0x1f2df9a069cbf77e, 0x2d4d0bf9566603, 0x8e0eaabbd690d904, 0xd23e9636a031204e, 0xa3d132e9694dc2e6, 0xc63822db9a379be7, 0x3802288cf910e389, 0xf40c1edcf888324b, 0x6b3e292920d63f93, 0x8190ce3fae26e78c, 0xdf6af1d961a2cac9, 0x68451e1fbdce606a, 0xa8f8241f1cd94a18, 0x6796e7c8eaf712f2, 0x239410fe61d4caa4, 0x1759f46e771ee9cf, 0xfcd67513e412a22d] [20, 21, 22, 23] =
    [0x66d71ebff8c6ffa7, 0x62d661a05647c151, 0xfa493be44dff80f5, 0x4a43f8804b0ad882, 0xe2f36b34b7be6652, 0xff875921cacc9566, 0x80d97b5776b3ba89, 0x28debd55fc6a313b, 0x3ac3d19f1e48ecc, 0x78193aecc1e434e9, 0xc287a923afe81e79, 0x21684ae301601f33, 0x282e7e469e09e75f, 0xd17d1ed2c282b6b8, 0xf050e0d2adaf434e, 0x5375f6fb6aa989b0, 0xc2c6b96032faf11e, 0x63684dd3f055a1b2, 0xd908398b988ec2b2, 0x913f10903e0bd326, 0x33fc34664d479817, 0x2b715c1a078fde58, 0x140b7c9251369779, 0x857343a7aabdeb5e, 0x92136e0efb7b70e5] := by decide

theorem stAbc_s1 : List.foldl refRoundStep preAbc [0, 1, 2, 3] =
    [0x5b60f45ed10e4bee, 0x2c37c8b29e8c4f73, 0x7e7b66e8ab73bd8, 0x8069ec499e32ef10, 0x1d55b3f8ee4800c6, 0xa0be5b06553c7093, 0xe6379f0883be6877, 0x8d03e311bba0dbaf, 0x4ff50c1fd02d5b1c, 0x48501d4592ca785d, 0x9c9b89225417518f, 0x4300c9197462e916, 0x34bd7a7f2002153, 0x7e3b424a68220a40, 0x9d22cb3de7e99ebf, 0xf8a1d37c27665fab, 0x7966c1c60bb8b2f4, 0x1163a41ac593154, 0xc1dd7ee8bd6b645f, 0xc41328d2f6f738f2, 0x11e1cabde4b6d635, 0x7594a4eb426e7684, 0x936073df2bec52b0, 0xb3685a7d459eded4, 0x703d7ad00f8a4de3] := by decide

theorem stAbc_s2 : List.foldl refRoundStep [0x5b60f45ed10e4bee, 0x2c37c8b29e8c4f73, 0x7e7b66e8ab73bd8, 0x8069ec499e32ef10, 0x1d55b3f8ee4800c6, 0xa0be5b06553c7093, 0xe6379f0883be6877, 0x8d03e311bba0dbaf, 0x4ff50c1fd02d5b1c, 0x48501d4592ca785d, 0x9c9b89225417518f, 0x4300c9197462e916, 0x34bd7a7f2002153, 0x7e3b424a68220a40, 0x9d22cb3de7e99ebf, 0xf8a1d37c27665fab, 0x7966c1c60bb8b2f4, 0x1163a41ac593154, 0xc1dd7ee8bd6b645f, 0xc41328d2f6f738f2, 0x11e1cabde4b6d635, 0x7594a4eb426e7684, 0x936073df2bec52b0, 0xb3685a7d459eded4, 0x703d7ad00f8a4de3] [4, 5, 6, 7] =
    [0x1413d15f9a58b82b, 0xc4fdd2a7921ec134, 0x2f9932dec0af2e9b, 0x183b5d8d06a4dfc, 0x2f1855fa0811075f, 0x8c09d244d2002bbd, 0x7085cd5394c2c548, 0x465dc5e266c924bd, 0x505e2a50d8ba041, 0x41b5370db785030, 0xc79032447b5eeab7, 0x64ac5b232326275f, 0x81dc34913cd17dd2, 0x23b46e2ce22fed65, 0xc65ca802a18d4b33, 0x19950427ec010ad2, 0xacf1e6de4cbd920b, 0x834dc60e53987504, 0x239b928e379e876, 0xff3f05911c581b61, 0xb2984c710d48dd4e, 0xc9e17b1ab9fc8a06, 0x2d268a58270e50b0, 0xc611d13d3ecd18ad, 0xfb3e42619b14a0e0] := by decide

theorem stAbc_s3 : List.foldl refRoundStep [0x1413d15f9a58b82b, 0xc4fdd2a7921ec134, 0x2f9932dec0af2e9b, 0x183b5d8d06a4dfc, 0x2f1855fa0811075f, 0x8c09d244d2002bbd, 0x7085cd5394c2c548, 0x465dc5e266c924bd, 0x505e2a50d8ba041, 0x41b5370db785030, 0xc79032447b5eeab7, 0x64ac5b232326275f, 0x81dc34913cd17dd2, 0x23b46e2ce22fed65, 0xc65ca802a18d4b33, 0x19950427ec010ad2, 0xacf1e6de4cbd920b, 0x834dc60e53987504, 0x239b928e379e876, 0xff3f05911c581b61, 0xb2984c710d48dd4e, 0xc9e17b1ab9fc8a06, 0x2d268a58270e50b0, 0xc611d13d3ecd18ad, 0xfb3e42619b14a0e0] [8, 9, 10, 11] =
    [0xed9e52eed7893220, 0x434ceb91a4a4939e, 0x75c58ff8f741ea71, 0xa6e0bbfb5c617e7c, 0x4427b9cc5daec301, 0x67bb83626dc3cd9b, 0x903a914ea43b1400, 0x26698b9de3a74a84, 0xda28946acf148124, 0x15d2b6daee571f07, 0x538691c2cbecba3f, 0x6d1ba46a75eee717, 0x3214e9bcac7d62a3, 0xd704861c0c6e449f, 0xff66946d38333905, 0x12c57eea1229d18, 0x73ea6e7d5c06b7ba, 0x864dbcfabf17dae4, 0xd48430777b794856, 0xf6e95e8709c34cd0, 0xc59ed1156ef2d3ec, 0xd50032c357acef5b, 0xbd6e99b92a5bc6d4, 0x146590e63aabdf5f, 0xc33529da19f0391d] := by decide

theorem stAbc_s4 : List.foldl refRoundStep [0xed9e52eed7893220, 0x434ceb91a4a4939e, 0x75c58ff8f741ea71, 0xa6e0bbfb5c617e7c, 0x4427b9cc5daec301, 0x67bb83626dc3cd9b, 0x903a914ea43b1400, 0x26698b9de3a74a84, 0xda28946acf148124, 0x15d2b6daee571f07, 0x538691c2cbecba3f, 0x6d1ba46a75eee717, 0x3214e9bcac7d62a3, 0xd704861c0c6e449f, 0xff66946d38333905, 0x12c57eea1229d18, 0x73ea6e7d5c06b7ba, 0x864dbcfabf17dae4, 0xd48430777b794856, 0xf6e95e8709c34cd0, 0xc59ed1156ef2d3ec, 0xd50032c357acef5b, 0xbd6e99b92a5bc6d4, 0x146590e63aabdf5f, 0xc33529da19f0391d] [12, 13, 14, 15] =
    [0x2561d669cbfd175f, 0x54c328db6f932645, 0xe25fe700735dc055, 0xf9845f6100bf7b79, 0x48b0ef2c936b5d14, 0xf8ff30f7babfca67, 0xf2ba793cf7d32f53, 0xe0b87689229e06cc, 0xab34df0da9df820b, 0xdb325dc864df8c75, 0x1486502d5ad90af5, 0x1e203cc9a1b66b61, 0x5507b00402134959, 0xa93ea3a807c549a, 0x84957f47f2cee731, 0x9b1477858718f4a9, 0xb08fe9c600238724, 0x4a30560e61131d47, 0xebe0460231d9df3, 0x5f0c333e06d147f6, 0xd9c37cca4869d762, 0x946204dd2699418d, 0x59dbe098b5c1548b, 0x2d659f24432552fa, 0x2d622fadac0d3afd] := by decide

theorem stAbc_s5 : List.foldl refRoundStep [0x2561d669cbfd175f, 0x54c328db6f932645, 0xe25fe700735dc055, 0xf9845f6100bf7b79, 0x48b0ef2c936b5d14, 0xf8ff30f7babfca67, 0xf2ba793cf7d32f53, 0xe0b87689229e06cc, 0xab34df0da9df820b, 0xdb325dc864df8c75, 0x1486502d5ad90af5, 0x1e203cc9a1b66b61, 0x5507b00402134959, 0xa93ea3a807c549a, 0x84957f47f2cee731, 0x9b1477858718f4a9, 0xb08fe9c600238724, 0x4a30560e61131d47, 0xebe0460231d9df3, 0x5f0c333e06d147f6, 0xd9c37cca4869d762, 0x946204dd2699418d, 0x59dbe098b5c1548b, 0x2d659f24432552fa, 0x2d622fadac0d3afd] [16, 17, 18, 19] =
    [0xdd73c60ed316443c, 0x2f7c0e64f9859858, 0x6693488740c17d4c, 0xd60d41cc38d0009e, 0xf2a912fb65ed096d, 0x5b5b53069d0a7e34, 0x93b0e74e85d5b6c7, 0xf0209fafcd4cc60b, 0x6fa64bea6a946324, 0x38a74f786f62b63f, 0x6125f311be0d27c8, 0x198bfc540380890f, 0x6de4520db1e61fff, 0xd9915227348b89fa, 0x138c22f4c431a5f, 0x252ee81a894a7fd2, 0xee9fb9c4fe0edf36, 0x34d69f09a64a627b, 0x9f39d5ac23c845ee, 0xa22655f0bb1f44d4, 0xa6587a6910080924, 0x40c3846182c45e6a, 0xa2381c408d15cfbc, 0xe8fd374b6a887d71, 0xfaee27b42651c3ac] := by decide

theorem stAbc_s6 : List.foldl refRoundStep [0xdd73c60ed316443c, 0x2f7c0e64f9859858, 0x6693488740c17d4c, 0xd60d41cc38d0009e, 0xf2a912fb65ed096d, 0x5b5b53069d0a7e34, 0x93b0e74e85d5b6c7, 0xf0209fafcd4cc60b, 0x6fa64bea6a946324, 0x38a74f786f62b63f, 0x6125f311be0d27c8, 0x198bfc540380890f, 0x6de4520db1e61fff, 0xd9915227348b89fa, 0x138c22f4c431a5f, 0x252ee81a894a7fd2, 0xee9fb9c4fe0edf36, 0x34d69f09a64a627b, 0x9f39d5ac23c845ee, 0xa22655f0bb1f44d4, 0xa6587a6910080924, 0x40c3846182c45e6a, 0xa2381c408d15cfbc, 0xe8fd374b6a887d71, 0xfaee27b42651c3ac] [20, 21, 22, 23] =
    [0xb225e24fa75d983a, 0xbd90d36b2d175c04, 0x5b529d3e6e085f85, 0x3215431145e2bf46, 0xf81092fb22f636d1, 0x2097c8aad6603e27, 0x31f2c561623fb1f7, 0x8fdf74f3f204df9c, 0x9f5e838db186c4ac, 0xa80a1c04bc11baa2, 0xbf130581a54ef742, 0x3092fccecda9f8bf, 0x1a8b8b2a4af00862, 0x60c4cc90d90ca705, 0x1f24793254851e4e, 0x631239dca84621ef, 0x4b3f7866395fe1bd, 0x30bef91bffc67d8a, 0xd272513dd6dd06c9, 0x25a3af600aecb585, 0x5fc53e5cb938bec8, 0x2fc22dcacbc3cc1, 0x668094928c4b6cc3, 0xd5c25129ae161a7d, 0xb5d89c9e96e91041] := by decide

theorem stE512_s1 : List.foldl refRoundStep preE512 [0, 1, 2, 3] =
    [0x1b5987c233e51db2, 0x71a543dace654e5f, 0xe963b9215caeed87, 0x1a8e5a83171119c8, 0x4d000fc2c3c69514, 0xd62fd9930eb2897, 0xf3f9cb25e6d520fa, 0xf013606caecd1024, 0xf9506f53e66cab45, 0x22f09026aa99dc60, 0xb1ad09b245fa4f00, 0x392b7402f048967b, 0xc96bef2766a3a8e5, 0x89546486c9508cbd, 0x5a2a7119fc693815, 0xcffd422654742f5e, 0x68102e42850746cf, 0x39ad1667c7a5143, 0x6cc907a27084c791, 0xd17130dc35b0f220, 0xa278dcbffe6c124c, 0xb5c385519aa3eaf9, 0x585c1cd80acbaf6f, 0x55b17f1f014c9f9f, 0x51857d8b12c49875] := by decide

theorem stE512_s2 : List.foldl refRoundStep [0x1b5987c233e51db2, 0x71a543dace654e5f, 0xe963b9215caeed87, 0x1a8e5a83171119c8, 0x4d000fc2c3c69514, 0xd62fd9930eb2897, 0xf3f9cb25e6d520fa, 0xf013606caecd1024, 0xf9506f53e66cab45, 0x22f09026aa99dc60, 0xb1ad09b245fa4f00, 0x392b7402f048967b, 0xc96bef2766a3a8e5, 0x89546486c9508cbd, 0x5a2a7119fc693815, 0xcffd422654742f5e, 0x68102e42850746cf, 0x39ad1667c7a5143, 0x6cc907a27084c791, 0xd17130dc35b0f220, 0xa278dcbffe6c124c, 0xb5c385519aa3eaf9, 0x585c1cd80acbaf6f, 0x55b17f1f014c9f9f, 0x51857d8b12c49875] [4, 5, 6, 7] =
    [0x465d3ba2da27c672, 0xaf86bd38986ceb0e, 0xb302820bf0d8d486, 0x91916a5039f8cf6e, 0xf9564b096a4ab096, 0x3a590b6b22e0bd5b, 0xdcc180f11caab62b, 0xd05f0811f31ceef9, 0x564e1ec4b0022c8b, 0xb9bec7fa62958679, 0xd435080d0031c68, 0x1d396abd0f22aaa, 0x4d680cecc45ff8fd, 0x79a6f0b569df50e7, 0x2078efe07311e5ea, 0x7180fcf16789107c, 0xa3b45b841baaafac, 0x4c9b33dbdcd46756, 0x829a6c4b05c60345, 0xf22c7a7f1f21c32f, 0xc421c118373abe48, 0xe8d2914944a9d628, 0x64dd6be1e152e4e2, 0x2840bf56ff371a60, 0x3f0e030542f694e7] := by decide

theorem stE512_s3 : List.foldl refRoundStep [0x465d3ba2da27c672, 0xaf86bd38986ceb0e, 0xb302820bf0d8d486, 0x91916a5039f8cf6e, 0xf9564b096a4ab096, 0x3a590b6b22e0bd5b, 0xdcc180f11caab62b, 0xd05f0811f31ceef9, 0x564e1ec4b0022c8b, 0xb9bec7fa62958679, 0xd435080d0031c68, 0x1d396abd0f22aaa, 0x4d680cecc45ff8fd, 0x79a6f0b569df50e7, 0x2078efe07311e5ea, 0x7180fcf16789107c, 0xa3b45b841baaafac, 0x4c9b33dbdcd46756, 0x829a6c4b05c60345, 0xf22c7a7f1f21c32f, 0xc421c118373abe48, 0xe8d2914944a9d628, 0x64dd6be1e152e4e2, 0x2840bf56ff371a60, 0x3f0e030542f694e7] [8, 9, 10, 11] =
    [0xca4b1da70524e1b5, 0x142a3fef048313d0, 0xd484472dd3f73eb7, 0x622c272e0685e1c8, 0x7678335b8da6ed28, 0x19f3e562f5649085, 0x148643b2df2e6fca, 0xb621b47fc93272a6, 0x6d40a9e20c7c7e8f, 0xf55d6f40446d3a7, 0x61176a621d841c0a, 0xa0727b0c4fe60917, 0xc49faf2f03d67a02, 0x8614e5fd94a367c7, 0x68cebd8dfb75aedc, 0x36faa284e51e14e0, 0xcbf0b03e9416d3c2, 0xa6d156f40f0e8235, 0x65abcce25e95069a, 0x60aa33ec332bf908, 0x2335df33f9272c0, 0xeb3e5adb72ddaa5d, 0x2dacd95c435983f3, 0x8d6545580d4c4e43, 0xe6133347e637f8e8] := by decide

theorem stE512_s4 : List.foldl refRoundStep [0xca4b1da70524e1b5, 0x142a3fef048313d0, 0xd484472dd3f73eb7, 0x622c272e0685e1c8, 0x7678335b8da6ed28, 0x19f3e562f5649085, 0x148643b2df2e6fca, 0xb621b47fc93272a6, 0x6d40a9e20c7c7e8f, 0xf55d6f40446d3a7, 0x61176a621d841c0a, 0xa0727b0c4fe60917, 0xc49faf2f03d67a02, 0x8614e5fd94a367c7, 0x68cebd8dfb75aedc, 0x36faa284e51e14e0, 0xcbf0b03e9416d3c2, 0xa6d156f40f0e8235, 0x65abcce25e95069a, 0x60aa33ec332bf908, 0x2335df33f9272c0, 0xeb3e5adb72ddaa5d, 0x2dacd95c435983f3, 0x8d6545580d4c4e43, 0xe6133347e637f8e8] [12, 13, 14, 15] =
    [0xdd0460ad064b76c1, 0x592afa467aecf37b, 0x41f2770b50b7a314, 0xc0ff39ed7b68e6a5, 0xa15f7357822dca2a, 0xfaecc8362930865b, 0x92e6cf8d79092fbc, 0x905a3f31e19eade6, 0x615db25667da99d6, 0xd7ace172bc6b02fa, 0xd2e7b7635a73dfc9, 0x1e675a3d6c455f27, 0xa56ed1e62c2f7b7e, 0x4cb4ad93940b029d, 0x7ae13654f0f90104, 0xe41464695c4d3905, 0x4a61a904e635a87b, 0x3f668148ed33600d, 0x2494e318b13e6215, 0x5cb68a7cd502f9a1, 0x4544bae99a75a984, 0xe2c66ae6edf82b4, 0xb08d9580f68180c2, 0x8a80b967f03416d7, 0xccf73da3d45b209e] := by decide

theorem stE512_s5 : List.foldl refRoundStep [0xdd0460ad064b76c1, 0x592afa467aecf37b, 0x41f2770b50b7a314, 0xc0ff39ed7b68e6a5, 0xa15f7357822dca2a, 0xfaecc8362930865b, 0x92e6cf8d79092fbc, 0x905a3f31e19eade6, 0x615db25667da99d6, 0xd7ace172bc6b02fa, 0xd2e7b7635a73dfc9, 0x1e675a3d6c455f27, 0xa56ed1e62c2f7b7e, 0x4cb4ad93940b029d, 0x7ae13654f0f90104, 0xe41464695c4d3905, 0x4a61a904e635a87b, 0x3f668148ed33600d, 0x2494e318b13e6215, 0x5cb68a7cd502f9a1, 0x4544bae99a75a984, 0xe2c66ae6edf82b4, 0xb08d9580f68180c2, 0x8a80b967f03416d7, 0xccf73da3d45b209e] [16, 17, 18, 19] =
    [0x34f81f1e48c7b6b7, 0xff08e754ecf397d7, 0x960eaebd123a9fc9, 0x210e8e3273bd0364, 0x55d8210093c151aa, 0x45d6e189b0841805, 0x81b82aa5252fc7c7, 0xdb7f2aa0d5aab609, 0x9402bda43807f06d, 0x7a87613267f28dc0, 0xeede2fcd1e3941c5, 0xdc5aaae0db673f89, 0x7d69daa21c076190, 0x35b21e73a886ace1, 0x167063eee9dfd1f6, 0xbba6221645c70d61, 0xee9629f7544c16e2, 0x870804e0162cf367, 0x62965ac77e32b4dc, 0x9ac9190a31a8d658, 0x284422d77b954bd4, 0xd662a1959cb9edd1, 0xc5383251962741b2, 0x97b1a8164f9d5b04, 0x38ea18dd15a5115a] := by decide

theorem stE512_s6 : List.foldl refRoundStep [0x34f81f1e48c7b6b7, 0xff08e754ecf397d7, 0x960eaebd123a9fc9, 0x210e8e3273bd0364, 0x55d8210093c151aa, 0x45d6e189b0841805, 0x81b82aa5252fc7c7, 0xdb7f2aa0d5aab609, 0x9402bda43807f06d, 0x7a87613267f28dc0, 0xeede2fcd1e3941c5, 0xdc5aaae0db673f89, 0x7d69daa21c076190, 0x35b21e73a886ace1, 0x167063eee9dfd1f6, 0xbba6221645c70d61, 0xee9629f7544c16e2, 0x870804e0162cf367, 0x62965ac77e32b4dc, 0x9ac9190a31a8d658, 0x284422d77b954bd4, 0xd662a1959cb9edd1, 0xc5383251962741b2, 0x97b1a8164f9d5b04, 0x38ea18dd15a5115a] [20, 21, 22, 23] =
    [0xc59a3aa2cc739fa6, 0x6e755a18dc67b5c8, 0x5958e24f1682c997, 0xa6805c47c1dcd1e0, 0x4cf9f5f13a12b215, 0x58c53a2c40e9e311, 0xe3d3b6959d1900f5, 0x26cd1d2886857501, 0xb8538fe7b8c54b36, 0xad9fdef4a7dd23, 0xcea9f9f2fb77de6, 0xc5ad765af1fec9e3, 0x65fb8711fd2eeb85, 0xe367513173a2c9f9, 0x7d422a3b668fa14, 0x888ceccd2a505d01, 0x946d0ce84774f5c, 0x564b48964a1535bb, 0xcd7a60887c41d325, 0x9edf5eae9bc9c2e4, 0x1826a255fbd02aea, 0x2b3e436049d2119e, 0x76970973a445e00e, 0x19a89bdb39e75ddd, 0xeed7a5a703b94cd5] := by decide

theorem stA135_s1 : List.foldl refRoundStep preA135 [0, 1, 2, 3] =
    [0x11ebf96b3e2cc876, 0x3ea5367d8a211343, 0xee5ad135218d4995, 0x458b53f18a1b94d8, 0xc07b3ebbf4225ea7, 0x8bd1c5a8b6cc9054, 0x9226b4529bed2edf, 0x3a62ab8701fec58e, 0x55cd3d3adf23b278, 0x969ab6e13c3ad74, 0x86810394a760f7da, 0xd7cb921dcbab75f2, 0x5da76730b985485d, 0x5078a917ee91611f, 0xd72761dd92a94c95, 0x33ee896e9c068e3a, 0x3a12cc24d6097dc8, 0xe3987a76d2cf6d5c, 0xbeef10b3007b1f9d, 0xa171b15b694c318f, 0x17b11e0054b9d17c, 0xa5be09410b384500, 0x8af172d846d4b6ba, 0xe3580fb720d40eb7, 0x5890165d47c24429] := by decide

theorem stA135_s2 : List.foldl refRoundStep [0x11ebf96b3e2cc876, 0x3ea5367d8a211343, 0xee5ad135218d4995, 0x458b53f18a1b94d8, 0xc07b3ebbf4225ea7, 0x8bd1c5a8b6cc9054, 0x9226b4529bed2edf, 0x3a62ab8701fec58e, 0x55cd3d3adf23b278, 0x969ab6e13c3ad74, 0x86810394a760f7da, 0xd7cb921dcbab75f2, 0x5da76730b985485d, 0x5078a917ee91611f, 0xd72761dd92a94c95, 0x33ee896e9c068e3a, 0x3a12cc24d6097dc8, 0xe3987a76d2cf6d5c, 0xbeef10b3007b1f9d, 0xa171b15b694c318f, 0x17b11e0054b9d17c, 0xa5be09410b384500, 0x8af172d846d4b6ba, 0xe3580fb720d40eb7, 0x5890165d47c24429] [4, 5, 6, 7] =
    [0x5dd4ca3e8cd6924f, 0x66f93ba8fe495394, 0x3ecf02bc129c4f83, 0x7264d1b0446ffaad, 0x1e3a2e887bc72f63, 0x7faebf88328ceff9, 0x3e338456e8350721, 0x874a386f44f18d8e, 0xdfefa2ea049e2cb9, 0x10dad5d85c410bee, 0x82c98040552b952c, 0xb9d1dc998afa9555, 0xfea37bb03b928d0a, 0xab185800cf0b249a, 0x2da5f02c44b66246, 0x73922f0bfa448260, 0xaceb01200f581da, 0x1cd136cbda503049, 0x98ed23bc43fc7f5d, 0xeb61934401c5b702, 0xaa05f0aedf9d4a32, 0x124de7772e895bcc, 0x32eef8fb2ff57a3d, 0xf7a80debe356af0e, 0x4142cfc9ea144929] := by decide

theorem stA135_s3 : List.foldl refRoundStep [0x5dd4ca3e8cd6924f, 0x66f93ba8fe495394, 0x3ecf02bc129c4f83, 0x7264d1b0446ffaad, 0x1e3a2e887bc72f63, 0x7faebf88328ceff9, 0x3e338456e8350721, 0x874a386f44f18d8e, 0xdfefa2ea049e2cb9, 0x10dad5d85c410bee, 0x82c98040552b952c, 0xb9d1dc998afa9555, 0xfea37bb03b928d0a, 0xab185800cf0b249a, 0x2da5f02c44b66246, 0x73922f0bfa448260, 0xaceb01200f581da, 0x1cd136cbda503049, 0x98ed23bc43fc7f5d, 0xeb61934401c5b702, 0xaa05f0aedf9d4a32, 0x124de7772e895bcc, 0x32eef8fb2ff57a3d, 0xf7a80debe356af0e, 0x4142cfc9ea144929] [8, 9, 10, 11] =
    [0x9f0f96413c1fcdf8, 0xbbefa74e25d077ff, 0xbcc23dd69c944772, 0xef39493ebc523476, 0x95ad1d966ed8fb13, 0x7a051e74700ee1bb, 0x468bb6fb7dfcace4, 0xc3d6942677148cc2, 0xcc239056fb37415a, 0xfe203d48eed69abf, 0xd5e5b2e0fed4007c, 0x958ea29729f2206b, 0x55fc5a4898fa51bd, 0xb9ad9c84965c646a, 0xd4f5845e0ace02, 0xf4da694741ca3f63, 0x7ccf824dfa1a352a, 0x2eb57dc7d561c05a, 0x9f57830ad09adda2, 0xcc0117f1e7b21aa8, 0xb495c87f15c60e2f, 0x7c0cc7df04b2ff7a, 0xf7ab017f9d9d188a, 0x7694619692033dd6, 0x5f79a37afdc5757b] := by decide

theorem stA135_s4 : List.foldl refRoundStep [0x9f0f96413c1fcdf8, 0xbbefa74e25d077ff, 0xbcc23dd69c944772, 0xef39493ebc523476, 0x95ad1d966ed8fb13, 0x7a051e74700ee1bb, 0x468bb6fb7dfcace4, 0xc3d6942677148cc2, 0xcc239056fb37415a, 0xfe203d48eed69abf, 0xd5e5b2e0fed4007c, 0x958ea29729f2206b, 0x55fc5a4898fa51bd, 0xb9ad9c84965c646a, 0xd4f5845e0ace02, 0xf4da694741ca3f63, 0x7ccf824dfa1a352a, 0x2eb57dc7d561c05a, 0x9f57830ad09adda2, 0xcc0117f1e7b21aa8, 0xb495c87f15c60e2f, 0x7c0cc7df04b2ff7a, 0xf7ab017f9d9d188a, 0x7694619692033dd6, 0x5f79a37afdc5757b] [12, 13, 14, 15] =
    [0xed494a464dcd6130, 0xff6efd55eea68d7e, 0xc364af9f42200be8, 0xf217a3e8e6e72cff, 0x39330bc3c6aba0a7, 0x1e1127ab998e9f37, 0x243121217865bf2b, 0x2aa8b0c990d5f517, 0x6db5c7bf12635ab8, 0x1e231146615280d9, 0x78e46a422fb6ed07, 0xd2c06ff69d4a22c5, 0x2d505b7d304b6c38, 0x5e7efcf02de6c903, 0x846407e27e5ea80f, 0xf20390811bb11923, 0x3baaca1ec0948059, 0x85fc5c490934503e, 0x25b211d712a745a1, 0x5eb7b6228df66e61, 0xff5f7566904b072f, 0x80f85693c4274775, 0xedefd1814b261dca, 0x17363fb8b0b98ab5, 0x8aade6f4654be87d] := by decide

theorem stA135_s5 : List.foldl refRoundStep [0xed494a464dcd6130, 0xff6efd55eea68d7e, 0xc364af9f42200be8, 0xf217a3e8e6e72cff, 0x39330bc3c6aba0a7, 0x1e1127ab998e9f37, 0x243121217865bf2b, 0x2aa8b0c990d5f517, 0x6db5c7bf12635ab8, 0x1e231146615280d9, 0x78e46a422fb6ed07, 0xd2c06ff69d4a22c5, 0x2d505b7d304b6c38, 0x5e7efcf02de6c903, 0x846407e27e5ea80f, 0xf20390811bb11923, 0x3baaca1ec0948059, 0x85fc5c490934503e, 0x25b211d712a745a1, 0x5eb7b6228df66e61, 0xff5f7566904b072f, 0x80f85693c4274775, 0xedefd1814b261dca, 0x17363fb8b0b98ab5, 0x8aade6f4654be87d] [16, 17, 18, 19] =
    [0x74cba7313e3f832c, 0x551fa5b4352cd3d3, 0x843258aba37b0815, 0xdd785df2db0add47, 0x7ebf77a294ced564, 0x72ff40ad129c98bc, 0x990ecda82e146f64, 0x34e5273538cc86c6, 0x7b566b548a5487b7, 0x505347cfb346ef85, 0x9455d372970a7570, 0xb97afc72b4b4686e, 0x5957b93fe3fb3642, 0xe6ee1743f2617283, 0x10ec80282311febd, 0x2e05fdc83bbc82e4, 0x8a735ae1d0a7b5d2, 0xd25df771cf18473, 0x1e99b47ee932b4, 0xe58d2067a8ad2da, 0x6d2dc12322819cb9, 0xeab6349895631c12, 0x4be0ca5675c1e885, 0x74d218dd7bebab90, 0xf0a3f2cf2df762ba] := by decide

theorem stA135_s6 : List.foldl refRoundStep [0x74cba7313e3f832c, 0x551fa5b4352cd3d3, 0x843258aba37b0815, 0xdd785df2db0add47, 0x7ebf77a294ced564, 0x72ff40ad129c98bc, 0x990ecda82e146f64, 0x34e5273538cc86c6, 0x7b566b548a5487b7, 0x505347cfb346ef85, 0x9455d372970a7570, 0xb97afc72b4b4686e, 0x5957b93fe3fb3642, 0xe6ee1743f2617283, 0x10ec80282311febd, 0x2e05fdc83bbc82e4, 0x8a735ae1d0a7b5d2, 0xd25df771cf18473, 0x1e99b47ee932b4, 0xe58d2067a8ad2da, 0x6d2dc12322819cb9, 0xeab6349895631c12, 0x4be0ca5675c1e885, 0x74d218dd7bebab90, 0xf0a3f2cf2df762ba] [20, 21, 22, 23] =
    [0x1efb4cc453bb9480, 0xc3a1f94704c3b767, 0x9c1dcc3e46d29636, 0xc943283913895392, 0x8d62523adb83c327, 0xf03ccd37064822b7, 0x22ab4cf5b3efcc6a, 0x184e8b81c34dcd9d, 0x59e4ca1502e46c00, 0xedb733ee83c3a0f9, 0x628fb2d7a324ca53, 0x89ad2ce341d2bd73, 0xea629cfcbd5a343, 0x3e2a10461df13e4d, 0xd53054be33324b74, 0x5f1e794920b5b3f2, 0xd52cac55d7ad4907, 0x48af8ae2407dece6, 0xc4ed9629718bfd6d, 0xb71b36efff53643b, 0x85e44b1f069ed939, 0x876cce685f9e05b2, 0xe1acf32fca827911, 0xaa900fcf53f9de62, 0x6834dbf2f5020047] := by decide

theorem stBlockA_s1 : List.foldl refRoundStep preBlockA [0, 1, 2, 3] =
    [0x69fa0d01925d4b66, 0x3ee14ee2f1f8ce9a, 0xef611f25a6df8dc3, 0x7ff3d9dbf6fa59f8, 0x1e1395ee5dbed644, 0xbcc16b52672b6bbd, 0x154ea2cc62dfa719, 0x128cd737b464f6f9, 0x6f94f31cb256c5ec, 0x6c9012f1ac49611f, 0x580bd4acb5abb16c, 0x7afef84973c39f06, 0xd4ce25c31e87cd89, 0xd635deb9d89f1f02, 0x96b002ff1ef4b3fc, 0x727efea90ebfb259, 0xf89de47b323d7834, 0x64000160ddeed9c0, 0x1c16de17fde50147, 0xf62f4a0634d2ec38, 0xfc8e30cc963621c1, 0x43aabc2797dd61b9, 0xb1fe5b727a6a14af, 0x52283dbcbe1af6be, 0xb023750543211540] := by decide

theorem stBlockA_s2 : List.foldl refRoundStep [0x69fa0d01925d4b66, 0x3ee14ee2f1f8ce9a, 0xef611f25a6df8dc3, 0x7ff3d9dbf6fa59f8, 0x1e1395ee5dbed644, 0xbcc16b52672b6bbd, 0x154ea2cc62dfa719, 0x128cd737b464f6f9, 0x6f94f31cb256c5ec, 0x6c9012f1ac49611f, 0x580bd4acb5abb16c, 0x7afef84973c39f06, 0xd4ce25c31e87cd89, 0xd635deb9d89f1f02, 0x96b002ff1ef4b3fc, 0x727efea90ebfb259, 0xf89de47b323d7834, 0x64000160ddeed9c0, 0x1c16de17fde50147, 0xf62f4a0634d2ec38, 0xfc8e30cc963621c1, 0x43aabc2797dd61b9, 0xb1fe5b727a6a14af, 0x52283dbcbe1af6be, 0xb023750543211540] [4, 5, 6, 7] =
    [0xaa2a3b8dfbc67d9c, 0x5d217302794755b, 0x3390f6ec92497ea2, 0x950efe03ada562a5, 0x9af6687b2726a9a, 0xcad508a883bf173b, 0xe782be2fcab0af2d, 0x782c90020108d2c7, 0xf00a80daca9a6d48, 0xbb94301e56038440, 0xe9c13e3279747209, 0xbd3b34231312dd98, 0xd4a8d340289a40dd, 0xbbeda7de569860ce, 0xe4e0d014105fb117, 0xe36eaebc626b6112, 0x10ada19d7258875e, 0xc2c11a6033eaa275, 0x19b7935c82cf108c, 0x1ec7c71b1e5e598d, 0xa4054a9875165105, 0xaca56d6002208531, 0x70a130b5f1529250, 0xfc028ebdef53e63e, 0xd6e69474c11ffc79] := by decide

theorem stBlockA_s3 : List.foldl refRoundStep [0xaa2a3b8dfbc67d9c, 0x5d217302794755b, 0x3390f6ec92497ea2, 0x950efe03ada562a5, 0x9af6687b2726a9a, 0xcad508a883bf173b, 0xe782be2fcab0af2d, 0x782c90020108d2c7, 0xf00a80daca9a6d48, 0xbb94301e56038440, 0xe9c13e3279747209, 0xbd3b34231312dd98, 0xd4a8d340289a40dd, 0xbbeda7de569860ce, 0xe4e0d014105fb117, 0xe36eaebc626b6112, 0x10ada19d7258875e, 0xc2c11a6033eaa275, 0x19b7935c82cf108c, 0x1ec7c71b1e5e598d, 0xa4054a9875165105, 0xaca56d6002208531, 0x70a130b5f1529250, 0xfc028ebdef53e63e, 0xd6e69474c11ffc79] [8, 9, 10, 11] =
    [0xa6758c1f54cf3787, 0x64f380b28700b300, 0xcdfaa1ac5a24debd, 0xbc4cba43292a5e3, 0xaef12ed489fafb74, 0x21a53cffb047bd63, 0xa0e0f1ba13ebd4f, 0x81d45f8217763fae, 0x48f05c8ee3fc91d, 0x8a0b43f29b2b882e, 0x8147a752a9eb0acf, 0x3ebbdac3bbb3bab0, 0x7635db4064423d4d, 0x30bce6d3494c3098, 0xe87bde3fd17c18af, 0x91d2f23f314d1e9, 0xcfa6398f2f53fbc2, 0x7323d852c8b65426, 0x6bfb63f9315e20bd, 0x3e11af14d980adae, 0xd6845820a8442075, 0x69fb487b646ea390, 0xc51266da879f9bb6, 0x63f9b357adb05ef9, 0xb4e03bcce978a1f3] := by decide

theorem stBlockA_s4 : List.foldl refRoundStep [0xa6758c1f54cf3787, 0x64f380b28700b300, 0xcdfaa1ac5a24debd, 0xbc4cba43292a5e3, 0xaef12ed489fafb74, 0x21a53cffb047bd63, 0xa0e0f1ba13ebd4f, 0x81d45f8217763fae, 0x48f05c8ee3fc91d, 0x8a0b43f29b2b882e, 0x8147a752a9eb0acf, 0x3ebbdac3bbb3bab0, 0x7635db4064423d4d, 0x30bce6d3494c3098, 0xe87bde3fd17c18af, 0x91d2f23f314d1e9, 0xcfa6398f2f53fbc2, 0x7323d852c8b65426, 0x6bfb63f9315e20bd, 0x3e11af14d980adae, 0xd6845820a8442075, 0x69fb487b646ea390, 0xc51266da879f9bb6, 0x63f9b357adb05ef9, 0xb4e03bcce978a1f3] [12, 13, 14, 15] =
    [0xb327463eb78cb655, 0x4415e61e23ee55a6, 0x1412b21118bd4076, 0x39e2b634a4396fe9, 0x9c3eee4c51c175d2, 0xd057315f4cea0d6c, 0xffc16ceefc186aae, 0xb59f2f7f34b99b29, 0x2ae9c6546c8d375c, 0x540e3fe5d0f36e51, 0x8d5089c8643b21ae, 0x3046c884348d9180, 0xe296bbb874cc2916, 0x5f83496cc98f93cb, 0x1a66e585df0bbd7, 0xf5800056943d784f, 0x360f08a529c63fa4, 0x47bea3e8c2e05450, 0x8cc7bfec2482cf5a, 0x9200cc9888ab047d, 0x16258d6c894cf4dc, 0x4a7f01af11ffb41f, 0xdb64e3bc80b02691, 0x40b0b3ef521b1657, 0x4e7a161dddf1d0c1] := by decide

theorem stBlockA_s5 : List.foldl refRoundStep [0xb327463eb78cb655, 0x4415e61e23ee55a6, 0x1412b21118bd4076, 0x39e2b634a4396fe9, 0x9c3eee4c51c175d2, 0xd057315f4cea0d6c, 0xffc16ceefc186aae, 0xb59f2f7f34b99b29, 0x2ae9c6546c8d375c, 0x540e3fe5d0f36e51, 0x8d5089c8643b21ae, 0x3046c884348d9180, 0xe296bbb874cc2916, 0x5f83496cc98f93cb, 0x1a66e585df0bbd7, 0xf5800056943d784f, 0x360f08a529c63fa4, 0x47bea3e8c2e05450, 0x8cc7bfec2482cf5a, 0x9200cc9888ab047d, 0x16258d6c894cf4dc, 0x4a7f01af11ffb41f, 0xdb64e3bc80b02691, 0x40b0b3ef521b1657, 0x4e7a161dddf1d0c1] [16, 17, 18, 19] =
    [0x1480df86995e3176, 0xbbd9167159757fc8, 0xa7032e23a0b8ccb4, 0x6e4b106a0586144, 0x38ed3944326e2d93, 0xdc7a707661ebb51e, 0xc13127ec28f1f348, 0x24324ea012d2e59c, 0x13fa8f14d113d729, 0xa0e330223d4b2030, 0xe9c87238d761b7e, 0xacfd10aae5caffec, 0x3db921097a0224eb, 0x4fe21c6cf16a7f8c, 0x14ecff62c84c51a0, 0xeb45fabb74abe720, 0x37837f3c2f571e54, 0xe18c4a2feabc7f00, 0x28cfb00e43094dbf, 0xb3fb783d29f3ce26, 0xcc8d3fea5e2186b1, 0x85118dcfc5f7783b, 0xb30d7383700dcd3c, 0x98ea1ab6cfa89616, 0xeb21212d683e2315] := by decide

theorem stBlockA_s6 : List.foldl refRoundStep [0x1480df86995e3176, 0xbbd9167159757fc8, 0xa7032e23a0b8ccb4, 0x6e4b106a0586144, 0x38ed3944326e2d93, 0xdc7a707661ebb51e, 0xc13127ec28f1f348, 0x24324ea012d2e59c, 0x13fa8f14d113d729, 0xa0e330223d4b2030, 0xe9c87238d761b7e, 0xacfd10aae5caffec, 0x3db921097a0224eb, 0x4fe21c6cf16a7f8c, 0x14ecff62c84c51a0, 0xeb45fabb74abe720, 0x37837f3c2f571e54, 0xe18c4a2feabc7f00, 0x28cfb00e43094dbf, 0xb3fb783d29f3ce26, 0xcc8d3fea5e2186b1, 0x85118dcfc5f7783b, 0xb30d7383700dcd3c, 0x98ea1ab6cfa89616, 0xeb21212d683e2315] [20, 21, 22, 23] =
    [0xd498ec4c50d2e1f1, 0xf6998ae6c59e8574, 0x263aca0c5bafa4bf, 0xbae3c19ac8f814af, 0xdce614ab37078be4, 0x654ebe24fdaf5394, 0x73f522e1465cebca, 0x4703ad8e1fa34dd8, 0x62f13e6595b6b003, 0xb4612aebbfc3cb35, 0x27ddb9ec16622fd3, 0xf2d9657c38c08e9b, 0x3a4ed730f5883b65, 0x9aec4def2f00711, 0x6c42ad2013f0e844, 0x5c92b40273f042cb, 0x89d82f1902910fb5, 0xa14bfa300feff0ef, 0x7faf2c2662e2e66d, 0xe8fd30ad7d4031a8, 0x7de652c2538c8cd9, 0xe46508dd90553752, 0xc5b0be1407d0d0b0, 0x9735b888850d69e4, 0x2bab2ce9edd14d81] := by decide

theorem stA136p2_s1 : List.foldl refRoundStep preA136p2 [0, 1, 2, 3] =
    [0xc1a55fe5d2f2b771, 0xc409c3af4236c198, 0x75eb86f8c176aa58, 0x41ea1fbced35a764, 0x93215129e5905888, 0xf9bf8562dbc2d7, 0xc804ed97469f50d, 0xcc263b683a508cc3, 0x9a5e355270d6755, 0x8c379a7e9ff21356, 0xede8283731fb7d7f, 0xba3db38c0bce28da, 0x8f909e49dbc86daf, 0xbe6c603a1f5ba13e, 0x700565419696fafa, 0xe2b71438305f170c, 0xd6fbebbd7a8e366c, 0x83d4468a00fdf17e, 0xa06cd7bc3747ba2a, 0x9171a91936e67f55, 0xfd6d56219f07fcc9, 0x890944cd95ae684, 0xc7b057fac130160d, 0xb5260a6ec1960c02, 0x4f14e9421a24ddd] := by decide

theorem stA136p2_s2 : List.foldl refRoundStep [0xc1a55fe5d2f2b771, 0xc409c3af4236c198, 0x75eb86f8c176aa58, 0x41ea1fbced35a764, 0x93215129e5905888, 0xf9bf8562dbc2d7, 0xc804ed97469f50d, 0xcc263b683a508cc3, 0x9a5e355270d6755, 0x8c379a7e9ff21356, 0xede8283731fb7d7f, 0xba3db38c0bce28da, 0x8f909e49dbc86daf, 0xbe6c603a1f5ba13e, 0x700565419696fafa, 0xe2b71438305f170c, 0xd6fbebbd7a8e366c, 0x83d4468a00fdf17e, 0xa06cd7bc3747ba2a, 0x9171a91936e67f55, 0xfd6d56219f07fcc9, 0x890944cd95ae684, 0xc7b057fac130160d, 0xb5260a6ec1960c02, 0x4f14e9421a24ddd] [4, 5, 6, 7] =
    [0xa75145fb592ecc51, 0xf0bd8c08ab0d7e5d, 0x8ee586927f06c56f, 0x4065eae90ce4fb5b, 0x1265be834ef222f1, 0xd5e82eb509ccbce4, 0x984f72b05c2ed080, 0x65bd5164869571cf, 0x3b721a00dbec2679, 0xfb2f0f276c160640, 0x2c5ffe900e5033b, 0xcfe604645d207908, 0x29b1194e897994c8, 0x467bfe545e35c03, 0x944c764f7fc5960f, 0xafe647d11ffd6eb3, 0x827c9788927915d9, 0xd7b929575877a218, 0xec1031412de170c, 0x19b44f4195ef6fe7, 0x20a6fa0a5f82f2aa, 0x5943e270081de1, 0x6784b19e599b0ada, 0xc5926f0e3266e082, 0x1d9943c97ac3bb4] := by decide

theorem stA136p2_s3 : List.foldl refRoundStep [0xa75145fb592ecc51, 0xf0bd8c08ab0d7e5d, 0x8ee586927f06c56f, 0x4065eae90ce4fb5b, 0x1265be834ef222f1, 0xd5e82eb509ccbce4, 0x984f72b05c2ed080, 0x65bd5164869571cf, 0x3b721a00dbec2679, 0xfb2f0f276c160640, 0x2c5ffe900e5033b, 0xcfe604645d207908, 0x29b1194e897994c8, 0x467bfe545e35c03, 0x944c764f7fc5960f, 0xafe647d11ffd6eb3, 0x827c9788927915d9, 0xd7b929575877a218, 0xec1031412de170c, 0x19b44f4195ef6fe7, 0x20a6fa0a5f82f2aa, 0x5943e270081de1, 0x6784b19e599b0ada, 0xc5926f0e3266e082, 0x1d9943c97ac3bb4] [8, 9, 10, 11] =
    [0x9d03d450f316a93e, 0xc67e948cfbab5324, 0x6f271bbc19c6452a, 0xef3025fd0d705f2f, 0x86cc55bf97ce2e34, 0x6bb3a40355000945, 0x5af54c2ea92c209c, 0xfd929cd04537761, 0xf3f9ea3169bd0a3, 0x833410891c004410, 0x22a9dd88ee2b93d0, 0x3a9c6d59aea0a0a8, 0x4db51b33cadf4959, 0x463508350d32dec6, 0x3d9e214ac19b780a, 0xd0c96f457b11f6c, 0x65acc08c4e518802, 0xcaa702a788ac6f8f, 0xab309ef6531a39d5, 0x15ebde442e87fb32, 0x2c78880060919067, 0x2e49030d8bbe6ed6, 0x49be04e2f10c67c9, 0xd192709c68c58a11, 0x2e90e9214d3cb497] := by decide

theorem stA136p2_s4 : List.foldl refRoundStep [0x9d03d450f316a93e, 0xc67e948cfbab5324, 0x6f271bbc19c6452a, 0xef3025fd0d705f2f, 0x86cc55bf97ce2e34, 0x6bb3a40355000945, 0x5af54c2ea92c209c, 0xfd929cd04537761, 0xf3f9ea3169bd0a3, 0x833410891c004410, 0x22a9dd88ee2b93d0, 0x3a9c6d59aea0a0a8, 0x4db51b33cadf4959, 0x463508350d32dec6, 0x3d9e214ac19b780a, 0xd0c96f457b11f6c, 0x65acc08c4e518802, 0xcaa702a788ac6f8f, 0xab309ef6531a39d5, 0x15ebde442e87fb32, 0x2c78880060919067, 0x2e49030d8bbe6ed6, 0x49be04e2f10c67c9, 0xd192709c68c58a11, 0x2e90e9214d3cb497] [12, 13, 14, 15] =
    [0xeecde42f1d12af51, 0x12a3872b7b13b6a1, 0x25a2131b16d79027, 0x95f6e55119b928f5, 0x71bae1d42b6b3de7, 0xe9e8a9fc55841090, 0xeea1dee88e37f0ce, 0x2bdac6bc892f6a33, 0x8a9815daf251d7c9, 0x3ab0601e14382ada, 0x94eed0a7c0264502, 0x9c7fcd1b05aa8a7a, 0x78729ca4b733558b, 0x7689148a1125669e, 0x57da5434d49581fa, 0x3f076ceed1c40fe, 0x88e273a1a133a478, 0x423dab34e3b9775a, 0x290c556a9465d0a5, 0xdba742f78a63a2b6, 0x28088c9e10cc0658, 0x853af25a461e6c78, 0xf0eae0d235c7369c, 0x995917178896f75, 0x22aebeab399090aa] := by decide

theorem stA136p2_s5 : List.foldl refRoundStep [0xeecde42f1d12af51, 0x12a3872b7b13b6a1, 0x25a2131b16d79027, 0x95f6e55119b928f5, 0x71bae1d42b6b3de7, 0xe9e8a9fc55841090, 0xeea1dee88e37f0ce, 0x2bdac6bc892f6a33, 0x8a9815daf251d7c9, 0x3ab0601e14382ada, 0x94eed0a7c0264502, 0x9c7fcd1b05aa8a7a, 0x78729ca4b733558b, 0x7689148a1125669e, 0x57da5434d49581fa, 0x3f076ceed1c40fe, 0x88e273a1a133a478, 0x423dab34e3b9775a, 0x290c556a9465d0a5, 0xdba742f78a63a2b6, 0x28088c9e10cc0658, 0x853af25a461e6c78, 0xf0eae0d235c7369c, 0x995917178896f75, 0x22aebeab399090aa] [16, 17, 18, 19] =
    [0x40d6813a3dfc6bd0, 0xeb5b351a090cb2a8, 0xddae32629877045a, 0x42f3bfdb0dddf221, 0xb6e65056bf1f4543, 0xfd8c86fe07b5530d, 0x66cacc49d5356245, 0xc5302983f97204b3, 0x3893c4aa372b7da8, 0x8fc80045f2f9705c, 0x50cf2ca94ba96415, 0xe1ac38deafd023cb, 0xef78a2d40bc34003, 0xc42e1aeb2a7986eb, 0x305bf3674026980, 0xa6d913e14e831a59, 0xa19ea5b7de08bd1, 0xfe50bb7ead60afa0, 0xd468a6c6fd0b476, 0x2db66354d8a486b7, 0xf251af66c37e5bd8, 0x58a34b4771b4d0cf, 0xad8b7088767d10b9, 0x7821c6f2f5d6716b, 0xe59c2a90b5a24562] := by decide

theorem stA136p2_s6 : List.foldl refRoundStep [0x40d6813a3dfc6bd0, 0xeb5b351a090cb2a8, 0xddae32629877045a, 0x42f3bfdb0dddf221, 0xb6e65056bf1f4543, 0xfd8c86fe07b5530d, 0x66cacc49d5356245, 0xc5302983f97204b3, 0x3893c4aa372b7da8, 0x8fc80045f2f9705c, 0x50cf2ca94ba96415, 0xe1ac38deafd023cb, 0xef78a2d40bc34003, 0xc42e1aeb2a7986eb, 0x305bf3674026980, 0xa6d913e14e831a59, 0xa19ea5b7de08bd1, 0xfe50bb7ead60afa0, 0xd468a6c6fd0b476, 0x2db66354d8a486b7, 0xf251af66c37e5bd8, 0x58a34b4771b4d0cf, 0xad8b7088767d10b9, 0x7821c6f2f5d6716b, 0xe59c2a90b5a24562] [20, 21, 22, 23] =
    [0x458edb149f55c53f, 0xc22bbded91300a3a, 0xa56fc6818d52115e, 0xe15e69c2dcefa470, 0xcd58449e51d4aaf3, 0xc2e76c7496b5c343, 0x5ece4a0e2143dd16, 0x2866db7335659fba, 0x837129aacf0d169d, 0x40fcedf594ae0729, 0x57584366da6b6e50, 0x6cb39a964d0c776a, 0xc42a29154372d882, 0x889f421502740cfe, 0x736ebd7581cc265a, 0x97485f16c80f7b72, 0xab7a09c604427856, 0x55f6de611d53b44e, 0xc990f4ff624c36a1, 0xbb6a99172f72f345, 0xf71e9ab00e88475a, 0x96d79c6f9f63b772, 0x886619ee264a5f4e, 0x3ff1972aa00f6d79, 0x42ca6a37f8bf3e8d] := by decide

theorem stA137p2_s1 : List.foldl refRoundStep preA137p2 [0, 1, 2, 3] =
    [0x1fa0ab89336ab491, 0x266845de38260872, 0x2e6eed0adad16bbe, 0xd4d706e362b97e13, 0x89b9637a561b9254, 0xe9f0e1760f4b32df, 0x79b52d426b232552, 0xc08258cb2dc08d87, 0x971d495c2f0db75f, 0xdd562576881f1fa6, 0x20251b196f8faa13, 0xbbb1b70d5c753b21, 0x1f87c4acc494bc62, 0x9e73184bfbdcc62d, 0xfb6fe17b7161cf87, 0x3fe918e715c5e116, 0xee4f8f30dbbc35a9, 0xd72e570e58e050c4, 0x5ad92c773c353583, 0x25e49a3337f456fc, 0xa5f73d375eddc78b, 0x3ef7695f2b9b426f, 0xa3fe1a2bff289da0, 0x49a0500953f3356f, 0x933ef4c7d0324016] := by decide

theorem stA137p2_s2 : List.foldl refRoundStep [0x1fa0ab89336ab491, 0x266845de38260872, 0x2e6eed0adad16bbe, 0xd4d706e362b97e13, 0x89b9637a561b9254, 0xe9f0e1760f4b32df, 0x79b52d426b232552, 0xc08258cb2dc08d87, 0x971d495c2f0db75f, 0xdd562576881f1fa6, 0x20251b196f8faa13, 0xbbb1b70d5c753b21, 0x1f87c4acc494bc62, 0x9e73184bfbdcc62d, 0xfb6fe17b7161cf87, 0x3fe918e715c5e116, 0xee4f8f30dbbc35a9, 0xd72e570e58e050c4, 0x5ad92c773c353583, 0x25e49a3337f456fc, 0xa5f73d375eddc78b, 0x3ef7695f2b9b426f, 0xa3fe1a2bff289da0, 0x49a0500953f3356f, 0x933ef4c7d0324016] [4, 5, 6, 7] =
    [0xc0c3bab6281494e0, 0x8921e6d6b909643a, 0x81e9546a7b2f1cc4, 0xfad15ff4f2ad8135, 0xe3a1d59d04c8550, 0x8f6e9fa871240f3a, 0x22027c921cf7d535, 0xa34e5a734c1a7843, 0x97af056ee235eab, 0x52e5929ad8982b47, 0x96dd7d48ee18f07c, 0xc53b0e8088dca2d5, 0xf112ee4f76fdc529, 0x86677ba52f6ea9b1, 0xaa1b2c4a07d7426d, 0x27848cc5760f089b, 0x224c471ea8df0b45, 0xf4ada5c23cbfc685, 0x2677708e82be0d5c, 0x8f8d9215e63c366a, 0xa1c10ce282ee2939, 0x54ed02ef94463e2a, 0xc169eeb8d4b24a33, 0x74975b64039752ce, 0xef1c61fc06150eb0] := by decide

theorem stA137p2_s3 : List.foldl refRoundStep [0xc0c3bab6281494e0, 0x8921e6d6b909643a, 0x81e9546a7b2f1cc4, 0xfad15ff4f2ad8135, 0xe3a1d59d04c8550, 0x8f6e9fa871240f3a, 0x22027c921cf7d535, 0xa34e5a734c1a7843, 0x97af056ee235eab, 0x52e5929ad8982b47, 0x96dd7d48ee18f07c, 0xc53b0e8088dca2d5, 0xf112ee4f76fdc529, 0x86677ba52f6ea9b1, 0xaa1b2c4a07d7426d, 0x27848cc5760f089b, 0x224c471ea8df0b45, 0xf4ada5c23cbfc685, 0x2677708e82be0d5c, 0x8f8d9215e63c366a, 0xa1c10ce282ee2939, 0x54ed02ef94463e2a, 0xc169eeb8d4b24a33, 0x74975b64039752ce, 0xef1c61fc06150eb0] [8, 9, 10, 11] =
    [0xefb9a035fb055010, 0xacff1844646c9641, 0xfda75ede63045f36, 0xc572fd023c2e963f, 0x4f83c7f825ce9623, 0xd9553fde9d965129, 0xad2ed8c3684e21a5, 0xdbc0cf3fe6dbf21b, 0x72ce61830e396ae4, 0x7a3f9839651865f3, 0xc96bbe2ffedb2b0e, 0x17f6180b2e52f07b, 0xe51b07bd1c7b2a6c, 0x947cc06706e83d55, 0xd3f74fb5c9efcdf2, 0xcb76e30bb4ef7936, 0xdf7f5a9a7d1ba9e0, 0xf57dd4067b151d7f, 0x119c6bbcd013541, 0x17d971375a29d56f, 0x50fd10ce325efee0, 0x2d67a57457eb9474, 0x7b7d5821040e2bda, 0x76f9827d2c0ea099, 0xb9552858c2ccf48b] := by decide

theorem stA137p2_s4 : List.foldl refRoundStep [0xefb9a035fb055010, 0xacff1844646c9641, 0xfda75ede63045f36, 0xc572fd023c2e963f, 0x4f83c7f825ce9623, 0xd9553fde9d965129, 0xad2ed8c3684e21a5, 0xdbc0cf3fe6dbf21b, 0x72ce61830e396ae4, 0x7a3f9839651865f3, 0xc96bbe2ffedb2b0e, 0x17f6180b2e52f07b, 0xe51b07bd1c7b2a6c, 0x947cc06706e83d55, 0xd3f74fb5c9efcdf2, 0xcb76e30bb4ef7936, 0xdf7f5a9a7d1ba9e0, 0xf57dd4067b151d7f, 0x119c6bbcd013541, 0x17d971375a29d56f, 0x50fd10ce325efee0, 0x2d67a57457eb9474, 0x7b7d5821040e2bda, 0x76f9827d2c0ea099, 0xb9552858c2ccf48b] [12, 13, 14, 15] =
    [0x392f66227a9c86b7, 0xbd3b53f52cf2f970, 0x586c2b7c227b007a, 0x905dece4b6b7e2b0, 0x98027f2e79aa50bf, 0x8a52b6786e3aade8, 0x226059b3d373d00, 0x51fcbaab63c0ed13, 0xb6e71b130ec838c7, 0xcc536701d0502699, 0xa2cbc2507ddf7f17, 0x2224823e77e71756, 0xc8496d4b158b995b, 0x78b2212b3860706f, 0x33bb8e00c19ea0cf, 0xf806c7a1d8bf2e99, 0x936b775546a82bb3, 0xfb9407b7a5ebc855, 0xdf92953ce824b17a, 0xab5e73549a89d948, 0x6f637728130175dd, 0xc2f33da88ff51727, 0xadff99e1a3658340, 0xea80ce3cc90e6abb, 0xe3e6fe267380567] := by decide

theorem stA137p2_s5 : List.foldl refRoundStep [0x392f66227a9c86b7, 0xbd3b53f52cf2f970, 0x586c2b7c227b007a, 0x905dece4b6b7e2b0, 0x98027f2e79aa50bf, 0x8a52b6786e3aade8, 0x226059b3d373d00, 0x51fcbaab63c0ed13, 0xb6e71b130ec838c7, 0xcc536701d0502699, 0xa2cbc2507ddf7f17, 0x2224823e77e71756, 0xc8496d4b158b995b, 0x78b2212b3860706f, 0x33bb8e00c19ea0cf, 0xf806c7a1d8bf2e99, 0x936b775546a82bb3, 0xfb9407b7a5ebc855, 0xdf92953ce824b17a, 0xab5e73549a89d948, 0x6f637728130175dd, 0xc2f33da88ff51727, 0xadff99e1a3658340, 0xea80ce3cc90e6abb, 0xe3e6fe267380567] [16, 17, 18, 19] =
    [0x4a3d8c75bca7a198, 0xc9521be3cccdd520, 0xee6e0962af79c21, 0x1025e10e876aa0fc, 0xcd35eedaa2f86c23, 0xb985840f5071e46f, 0xe881f256ae6e35c5, 0x6136d61d799a800e, 0x1317de1c49eb816c, 0xb138ec4054bbafa5, 0x9188798f1efd7e18, 0xda4c384c497cfe17, 0x9724601e2b195fb5, 0x96d43ab9cbafc10d, 0xb35bf8cd0edd2322, 0xc2fe41618e618b0, 0x8090359780a84fb0, 0x29752f8e83f5d19a, 0xb135e2283367450d, 0x5c3b7ef4f719500e, 0x395b17730fb4a616, 0x34c1dbdccbc6ecbf, 0x1d9b07c4d5c23c9b, 0x1124d573d2d6f8c, 0x102d7c3cf5644d7f] := by decide

theorem stA137p2_s6 : List.foldl refRoundStep [0x4a3d8c75bca7a198, 0xc9521be3cccdd520, 0xee6e0962af79c21, 0x1025e10e876aa0fc, 0xcd35eedaa2f86c23, 0xb985840f5071e46f, 0xe881f256ae6e35c5, 0x6136d61d799a800e, 0x1317de1c49eb816c, 0xb138ec4054bbafa5, 0x9188798f1efd7e18, 0xda4c384c497cfe17, 0x9724601e2b195fb5, 0x96d43ab9cbafc10d, 0xb35bf8cd0edd2322, 0xc2fe41618e618b0, 0x8090359780a84fb0, 0x29752f8e83f5d19a, 0xb135e2283367450d, 0x5c3b7ef4f719500e, 0x395b17730fb4a616, 0x34c1dbdccbc6ecbf, 0x1d9b07c4d5c23c9b, 0x1124d573d2d6f8c, 0x102d7c3cf5644d7f] [20, 21, 22, 23] =
    [0xfaccd2ed6c84d6f8, 0xf75af99e87c515df, 0xb11f39d7ee99d724, 0x1486734e34951fc9, 0xd1819d2e2e600c85, 0xe539b7011e481c72, 0x7f9fd11c4dfcc4e5, 0x6b95a4b4028158b3, 0xe5cab38717250b62, 0xf7654df95abc331, 0x493dc9f2e5743f58, 0x38d69f18f4d8b15d, 0xd8e5b2c852b5ffb1, 0x87dbd5afb6974989, 0x215404dcb377b161, 0x2de0fa587216d6c2, 0x3f99f41f3fb74894, 0xd3b41ef871c7b7ff, 0xbea059993e14452, 0x24a9b443d5c0e805, 0xe4a4187c1812dab8, 0x8fb166221708c2d9, 0xf73b64a037204a7f, 0x27ddaf430643775f, 0x710c745106278ef2] := by decide

theorem stE256_perm : keccakf1600_state_permute_ref preE256 =
    [0x66d71ebff8c6ffa7, 0x62d661a05647c151, 0xfa493be44dff80f5, 0x4a43f8804b0ad882, 0xe2f36b34b7be6652, 0xff875921cacc9566, 0x80d97b5776b3ba89, 0x28debd55fc6a313b, 0x3ac3d19f1e48ecc, 0x78193aecc1e434e9, 0xc287a923afe81e79, 0x21684ae301601f33, 0x282e7e469e09e75f, 0xd17d1ed2c282b6b8, 0xf050e0d2adaf434e, 0x5375f6fb6aa989b0, 0xc2c6b96032faf11e, 0x63684dd3f055a1b2, 0xd908398b988ec2b2, 0x913f10903e0bd326, 0x33fc34664d479817, 0x2b715c1a078fde58, 0x140b7c9251369779, 0x857343a7aabdeb5e, 0x92136e0efb7b70e5] := by
  rw [keccakf1600_state_permute_ref, foldl_range24_chunks, stE256_s1, stE256_s2, stE256_s3, stE256_s4, stE256_s5, stE256_s6]

theorem stAbc_perm : keccakf1600_state_permute_ref preAbc =
    [0xb225e24fa75d983a, 0xbd90d36b2d175c04, 0x5b529d3e6e085f85, 0x3215431145e2bf46, 0xf81092fb22f636d1, 0x2097c8aad6603e27, 0x31f2c561623fb1f7, 0x8fdf74f3f204df9c, 0x9f5e838db186c4ac, 0xa80a1c04bc11baa2, 0xbf130581a54ef742, 0x3092fccecda9f8bf, 0x1a8b8b2a4af00862, 0x60c4cc90d90ca705, 0x1f24793254851e4e, 0x631239dca84621ef, 0x4b3f7866395fe1bd, 0x30bef91bffc67d8a, 0xd272513dd6dd06c9, 0x25a3af600aecb585, 0x5fc53e5cb938bec8, 0x2fc22dcacbc3cc1, 0x668094928c4b6cc3, 0xd5c25129ae161a7d, 0xb5d89c9e96e91041] := by
  rw [keccakf1600_state_permute_ref, foldl_range24_chunks, stAbc_s1, stAbc_s2, stAbc_s3, stAbc_s4, stAbc_s5, stAbc_s6]

theorem stE512_perm : keccakf1600_state_permute_ref preE512 =
    [0xc59a3aa2cc739fa6, 0x6e755a18dc67b5c8, 0x5958e24f1682c997, 0xa6805c47c1dcd1e0, 0x4cf9f5f13a12b215, 0x58c53a2c40e9e311, 0xe3d3b6959d1900f5, 0x26cd1d2886857501, 0xb8538fe7b8c54b36, 0xad9fdef4a7dd23, 0xcea9f9f2fb77de6, 0xc5ad765af1fec9e3, 0x65fb8711fd2eeb85, 0xe367513173a2c9f9, 0x7d422a3b668fa14, 0x888ceccd2a505d01, 0x946d0ce84774f5c, 0x564b48964a1535bb, 0xcd7a60887c41d325, 0x9edf5eae9bc9c2e4, 0x1826a255fbd02aea, 0x2b3e436049d2119e, 0x76970973a445e00e, 0x19a89bdb39e75ddd, 0xeed7a5a703b94cd5] := by
  rw [keccakf1600_state_permute_ref, foldl_range24_chunks, stE512_s1, stE512_s2, stE512_s3, stE512_s4, stE512_s5, stE512_s6]

theorem stA135_perm : keccakf1600_state_permute_ref preA135 =
    [0x1efb4cc453bb9480, 0xc3a1f94704c3b767, 0x9c1dcc3e46d29636, 0xc943283913895392, 0x8d62523adb83c327, 0xf03ccd37064822b7, 0x22ab4cf5b3efcc6a, 0x184e8b81c34dcd9d, 0x59e4ca1502e46c00, 0xedb733ee83c3a0f9, 0x628fb2d7a324ca53, 0x89ad2ce341d2bd73, 0xea629cfcbd5a343, 0x3e2a10461df13e4d, 0xd53054be33324b74, 0x5f1e794920b5b3f2, 0xd52cac55d7ad4907, 0x48af8ae2407dece6, 0xc4ed9629718bfd6d, 0xb71b36efff53643b, 0x85e44b1f069ed939, 0x876cce685f9e05b2, 0xe1acf32fca827911, 0xaa900fcf53f9de62, 0x6834dbf2f5020047] := by
  rw [keccakf1600_state_permute_ref, foldl_range24_chunks, stA135_s1, stA135_s2, stA135_s3, stA135_s4, stA135_s5, stA135_s6]

theorem stBlockA_perm : keccakf1600_state_permute_ref preBlockA =
    [0xd498ec4c50d2e1f1, 0xf6998ae6c59e8574, 0x263aca0c5bafa4bf, 0xbae3c19ac8f814af, 0xdce614ab37078be4, 0x654ebe24fdaf5394, 0x73f522e1465cebca, 0x4703ad8e1fa34dd8, 0x62f13e6595b6b003, 0xb4612aebbfc3cb35, 0x27ddb9ec16622fd3, 0xf2d9657c38c08e9b, 0x3a4ed730f5883b65, 0x9aec4def2f00711, 0x6c42ad2013f0e844, 0x5c92b40273f042cb, 0x89d82f1902910fb5, 0xa14bfa300feff0ef, 0x7faf2c2662e2e66d, 0xe8fd30ad7d4031a8, 0x7de652c2538c8cd9, 0xe46508dd90553752, 0xc5b0be1407d0d0b0, 0x9735b888850d69e4, 0x2bab2ce9edd14d81] := by
  rw [keccakf1600_state_permute_ref, foldl_range24_chunks, stBlockA_s1, stBlockA_s2, stBlockA_s3, stBlockA_s4, stBlockA_s5, stBlockA_s6]

theorem stA136p2_perm : keccakf1600_state_permute_ref preA136p2 =
    [0x458edb149f55c53f, 0xc22bbded91300a3a, 0xa56fc6818d52115e, 0xe15e69c2dcefa470, 0xcd58449e51d4aaf3, 0xc2e76c7496b5c343, 0x5ece4a0e2143dd16, 0x2866db7335659fba, 0x837129aacf0d169d, 0x40fcedf594ae0729, 0x57584366da6b6e50, 0x6cb39a964d0c776a, 0xc42a29154372d882, 0x889f421502740cfe, 0x736ebd7581cc265a, 0x97485f16c80f7b72, 0xab7a09c604427856, 0x55f6de611d53b44e, 0xc990f4ff624c36a1, 0xbb6a99172f72f345, 0xf71e9ab00e88475a, 0x96d79c6f9f63b772, 0x886619ee264a5f4e, 0x3ff1972aa00f6d79, 0x42ca6a37f8bf3e8d] := by
  rw [keccakf1600_state_permute_ref, foldl_range24_chunks, stA136p2_s1, stA136p2_s2, stA136p2_s3, stA136p2_s4, stA136p2_s5, stA136p2_s6]

theorem stA137p2_perm : keccakf1600_state_permute_ref preA137p2 =
    [0xfaccd2ed6c84d6f8, 0xf75af99e87c515df, 0xb11f39d7ee99d724, 0x1486734e34951fc9, 0xd1819d2e2e600c85, 0xe539b7011e481c72, 0x7f9fd11c4dfcc4e5, 0x6b95a4b4028158b3, 0xe5cab38717250b62, 0xf7654df95abc331, 0x493dc9f2e5743f58, 0x38d69f18f4d8b15d, 0xd8e5b2c852b5ffb1, 0x87dbd5afb6974989, 0x215404dcb377b161, 0x2de0fa587216d6c2, 0x3f99f41f3fb74894, 0xd3b41ef871c7b7ff, 0xbea059993e14452, 0x24a9b443d5c0e805, 0xe4a4187c1812dab8, 0x8fb166221708c2d9, 0xf73b64a037204a7f, 0x27ddaf430643775f, 0x710c745106278ef2] := by
  rw [keccakf1600_state_permute_ref, foldl_range24_chunks, stA137p2_s1, stA137p2_s2, stA137p2_s3, stA137p2_s4, stA137p2_s5, stA137p2_s6]

/-! ## Pre-padding states and offsets for the boundary messages -/

theorem prepad_e256 :
    absorbPrePad keccakf1600_state_permute_ref zeroState msgEmpty 0 32 =
      (zeroState, 0) := rfl

theorem prepad_abc :
    absorbPrePad keccakf1600_state_permute_ref zeroState msgAbc 3 32 =
      ([0x636261, 0x0, 0x0, 0x0, 0x0, 0x0, 0x0, 0x0, 0x0, 0x0, 0x0, 0x0, 0x0, 0x0, 0x0, 0x0, 0x0, 0x0, 0x0, 0x0, 0x0, 0x0, 0x0, 0x0, 0x0], 3) := by decide

theorem prepad_e512 :
    absorbPrePad keccakf1600_state_permute_ref zeroState msgEmpty 0 64 =
      (zeroState, 0) := rfl

theorem prepad_a135 :
    absorbPrePad keccakf1600_state_permute_ref zeroState (msgAs 135) 135 32 =
      ([0x6161616161616161, 0x6161616161616161, 0x6161616161616161, 0x6161616161616161, 0x6161616161616161, 0x6161616161616161, 0x6161616161616161, 0x6161616161616161, 0x6161616161616161, 0x6161616161616161, 0x6161616161616161, 0x6161616161616161, 0x6161616161616161, 0x6161616161616161, 0x6161616161616161, 0x6161616161616161, 0x61616161616161, 0x0, 0x0, 0x0, 0x0, 0x0, 0x0, 0x0, 0x0], 135) := by decide

theorem prepad_a136 :
    absorbPrePad keccakf1600_state_permute_ref zeroState (msgAs 136) 136 32 =
      (keccakf1600_state_permute_ref preBlockA, 0) := rfl

theorem prepad_a137 :
    absorbPrePad keccakf1600_state_permute_ref zeroState (msgAs 137) 137 32 =
      (xorByte (keccakf1600_state_permute_ref preBlockA) 0 0x61, 1) := rfl

/-! ## Absorb results for the test messages -/

theorem habs_e256 :
    keccakf1600_absorb keccakf1600_state_permute_ref zeroState msgEmpty 0 32 6 =
      keccakf1600_state_permute_ref preE256 := by
  rw [absorb_decompose, prepad_e256, absorbPad_delim6]
  congr 1

theorem habs_abc :
    keccakf1600_absorb keccakf1600_state_permute_ref zeroState msgAbc 3 32 6 =
      keccakf1600_state_permute_ref preAbc := by
  rw [absorb_decompose, prepad_abc, absorbPad_delim6]
  congr 1

theorem habs_e512 :
    keccakf1600_absorb keccakf1600_state_permute_ref zeroState msgEmpty 0 64 6 =
      keccakf1600_state_permute_ref preE512 := by
  rw [absorb_decompose, prepad_e512, absorbPad_delim6]
  congr 1

theorem habs_a135 :
    keccakf1600_absorb keccakf1600_state_permute_ref zeroState (msgAs 135) 135 32 6 =
      keccakf1600_state_permute_ref preA135 := by
  rw [absorb_decompose, prepad_a135, absorbPad_delim6]
  congr 1

theorem habs_a136 :
    keccakf1600_absorb keccakf1600_state_permute_ref zeroState (msgAs 136) 136 32 6 =
      keccakf1600_state_permute_ref preA136p2 := by
  rw [absorb_decompose, prepad_a136, absorbPad_delim6, stBlockA_perm]
  congr 1

theorem habs_a137 :
    keccakf1600_absorb keccakf1600_state_permute_ref zeroState (msgAs 137) 137 32 6 =
      keccakf1600_state_permute_ref preA137p2 := by
  rw [absorb_decompose, prepad_a137, absorbPad_delim6, stBlockA_perm]
  congr 1

/-! ## Digests of the test messages with the reference strategy -/

theorem digest_e256 :
    sha3_256_oneshot keccakf1600_state_permute_ref false msgEmpty 0 =
      kat256_empty := by
  show keccakf1600_squeeze keccakf1600_state_permute_ref false
    (keccakf1600_absorb keccakf1600_state_permute_ref zeroState msgEmpty 0 32 6) 32 =
    kat256_empty
  rw [habs_e256, stE256_perm]
  decide

theorem digest_abc :
    sha3_256_oneshot keccakf1600_state_permute_ref false msgAbc 3 =
      kat256_abc := by
  show keccakf1600_squeeze keccakf1600_state_permute_ref false
    (keccakf1600_absorb keccakf1600_state_permute_ref zeroState msgAbc 3 32 6) 32 =
    kat256_abc
  rw [habs_abc, stAbc_perm]
  decide

theorem digest_e512_first32 :
    (sha3_512_oneshot keccakf1600_state_permute_ref false msgEmpty 0).take 32 =
      kat512_empty_first32 := by
  show (keccakf1600_squeeze keccakf1600_state_permute_ref false
    (keccakf1600_absorb keccakf1600_state_permute_ref zeroState msgEmpty 0 64 6) 64).take 32 =
    kat512_empty_first32
  rw [habs_e512, stE512_perm]
  decide

theorem digest_a135 :
    sha3_256_oneshot keccakf1600_state_permute_ref false (msgAs 135) 135 =
      [0x80, 0x94, 0xbb, 0x53, 0xc4, 0x4c, 0xfb, 0x1e, 0x67, 0xb7, 0xc3, 0x4, 0x47, 0xf9, 0xa1, 0xc3, 0x36, 0x96, 0xd2, 0x46, 0x3e, 0xcc, 0x1d, 0x9c, 0x92, 0x53, 0x89, 0x13, 0x39, 0x28, 0x43, 0xc9] := by
  show keccakf1600_squeeze keccakf1600_state_permute_ref false
    (keccakf1600_absorb keccakf1600_state_permute_ref zeroState (msgAs 135) 135 32 6) 32 = _
  rw [habs_a135, stA135_perm]
  decide

theorem digest_a136 :
    sha3_256_oneshot keccakf1600_state_permute_ref false (msgAs 136) 136 =
      [0x3f, 0xc5, 0x55, 0x9f, 0x14, 0xdb, 0x8e, 0x45, 0x3a, 0xa, 0x30, 0x91, 0xed, 0xbd, 0x2b, 0xc2, 0x5e, 0x11, 0x52, 0x8d, 0x81, 0xc6, 0x6f, 0xa5, 0x70, 0xa4, 0xef, 0xdc, 0xc2, 0x69, 0x5e, 0xe1] := by
  show keccakf1600_squeeze keccakf1600_state_permute_ref false
    (keccakf1600_absorb keccakf1600_state_permute_ref zeroState (msgAs 136) 136 32 6) 32 = _
  rw [habs_a136, stA136p2_perm]
  decide

theorem digest_a137 :
    sha3_256_oneshot keccakf1600_state_permute_ref false (msgAs 137) 137 =
      [0xf8, 0xd6, 0x84, 0x6c, 0xed, 0xd2, 0xcc, 0xfa, 0xdf, 0x15, 0xc5, 0x87, 0x9e, 0xf9, 0x5a, 0xf7, 0x24, 0xd7, 0x99, 0xee, 0xd7, 0x39, 0x1f, 0xb1, 0xc9, 0x1f, 0x95, 0x34, 0x4e, 0x73, 0x86, 0x14] := by
  show keccakf1600_squeeze keccakf1600_state_permute_ref false
    (keccakf1600_absorb keccakf1600_state_permute_ref zeroState (msgAs 137) 137 32 6) 32 = _
  rw [habs_a137, stA137p2_perm]
  decide

/-- C2: with the reference strategy installed, SHA3-256 of the empty message
is a7ffc6f8bf1ed76651c14756a061d662f580ff4de43b49fa82d80a4b80f8434a, SHA3-256
of "abc" is 3a985da74fe225b2045c172d6bd390bd855f086e3e9d525b46bfe24511431532,
and the first 32 bytes of SHA3-512 of the empty message are
a69f73cca23a9ac5c8b567dc185a756e97c982164fe25859e0d1dcc1475c80a6. -/
theorem C2_known_answer_tests :
    sha3_256_oneshot keccakf1600_state_permute_ref false msgEmpty 0 = kat256_empty ∧
    sha3_256_oneshot keccakf1600_state_permute_ref false msgAbc 3 = kat256_abc ∧
    (sha3_512_oneshot keccakf1600_state_permute_ref false msgEmpty 0).take 32 =
      kat512_empty_first32 :=
  ⟨digest_e256, digest_abc, digest_e512_first32⟩

/-- C5: the padding phase XORs the delimiter at the current block offset,
permutes once more exactly when the delimiter has its high bit set and the
offset is rate − 1, then XORs 0x80 at byte rate − 1 and permutes exactly
once; for SHA3-256 (rate 136) the messages of 135, 136 and 137 bytes of
0x61 reach the padding phase at the pairwise-distinct block offsets 135,
0 and 1, and all three are digested to their known SHA3-256 values. -/
theorem C5_padding_boundary :
    (∀ (f : List Nat → List Nat) (st : List Nat) (block_off rate_bytes delim : Nat),
      absorbPad f st block_off rate_bytes delim =
        if delim &&& 0x80 ≠ 0 ∧ block_off = rate_bytes - 1 then
          f (xorByte (f (xorByte st block_off delim)) (rate_bytes - 1) 0x80)
        else
          f (xorByte (xorByte st block_off delim) (rate_bytes - 1) 0x80)) ∧
    ((absorbPrePad keccakf1600_state_permute_ref zeroState (msgAs 135) 135 32).2 = 135 ∧
     (absorbPrePad keccakf1600_state_permute_ref zeroState (msgAs 136) 136 32).2 = 0 ∧
     (absorbPrePad keccakf1600_state_permute_ref zeroState (msgAs 137) 137 32).2 = 1) ∧
    (sha3_256_oneshot keccakf1600_state_permute_ref false (msgAs 135) 135 =
       [0x80, 0x94, 0xbb, 0x53, 0xc4, 0x4c, 0xfb, 0x1e, 0x67, 0xb7, 0xc3, 0x4, 0x47, 0xf9, 0xa1, 0xc3, 0x36, 0x96, 0xd2, 0x46, 0x3e, 0xcc, 0x1d, 0x9c, 0x92, 0x53, 0x89, 0x13, 0x39, 0x28, 0x43, 0xc9] ∧
     sha3_256_oneshot keccakf1600_state_permute_ref false (msgAs 136) 136 =
       [0x3f, 0xc5, 0x55, 0x9f, 0x14, 0xdb, 0x8e, 0x45, 0x3a, 0xa, 0x30, 0x91, 0xed, 0xbd, 0x2b, 0xc2, 0x5e, 0x11, 0x52, 0x8d, 0x81, 0xc6, 0x6f, 0xa5, 0x70, 0xa4, 0xef, 0xdc, 0xc2, 0x69, 0x5e, 0xe1] ∧
     sha3_256_oneshot keccakf1600_state_permute_ref false (msgAs 137) 137 =
       [0xf8, 0xd6, 0x84, 0x6c, 0xed, 0xd2, 0xcc, 0xfa, 0xdf, 0x15, 0xc5, 0x87, 0x9e, 0xf9, 0x5a, 0xf7, 0x24, 0xd7, 0x99, 0xee, 0xd7, 0x39, 0x1f, 0xb1, 0xc9, 0x1f, 0x95, 0x34, 0x4e, 0x73, 0x86, 0x14]) := by
  refine ⟨?_, ⟨?_, ?_, ?_⟩, digest_a135, digest_a136, digest_a137⟩
  · intro f st block_off rate_bytes delim
    unfold absorbPad
    simp only []
    by_cases h : delim &&& 0x80 ≠ 0 ∧ block_off = rate_bytes - 1
    · rw [if_pos h, if_pos h]
    · rw [if_neg h, if_neg h]
  · rw [prepad_a135]
  · rw [prepad_a136]
  · rw [prepad_a137]


/-! ## Squeeze structure (development) -/

theorem getD_set (l : List Nat) (p v i : Nat) :
    (l.set p v).getD i 0 = if p = i ∧ p < l.length then v else l.getD i 0 := by
  induction l generalizing p i with
  | nil =>
    rw [List.set_nil, if_neg]
    rintro ⟨-, h2⟩
    simp at h2
  | cons a t ih =>
    cases p with
    | zero =>
      cases i with
      | zero =>
        rw [List.set_cons_zero, List.getD_cons_zero, List.getD_cons_zero,
          if_pos ⟨rfl, by simp⟩]
      | succ i' =>
        rw [List.set_cons_zero, List.getD_cons_succ, List.getD_cons_succ, if_neg]
        rintro ⟨h1, -⟩
        exact Nat.succ_ne_zero i' h1.symm
    | succ p' =>
      cases i with
      | zero =>
        rw [List.set_cons_succ, List.getD_cons_zero, List.getD_cons_zero, if_neg]
        rintro ⟨h1, -⟩
        exact Nat.succ_ne_zero p' h1
      | succ i' =>
        rw [List.set_cons_succ, List.getD_cons_succ, List.getD_cons_succ, ih]
        simp only [List.length_cons]
        split_ifs with h1 h2 <;> first | rfl | omega

theorem length_setFold (ps : List Nat) (out : List Nat) :
    (ps.foldl (fun o p => o.set p (o.getD p 0 ^^^ 0xFF)) out).length = out.length := by
  induction ps generalizing out with
  | nil => rfl
  | cons p ps ih =>
    rw [List.foldl_cons, ih, List.length_set]

theorem getD_setFold_not_mem (ps : List Nat) (out : List Nat) (i : Nat)
    (hmem : i ∉ ps) :
    (ps.foldl (fun o p => o.set p (o.getD p 0 ^^^ 0xFF)) out).getD i 0 =
      out.getD i 0 := by
  induction ps generalizing out with
  | nil => rfl
  | cons p ps ih =>
    rw [List.foldl_cons, ih _ (fun h => hmem (List.mem_cons_of_mem p h)), getD_set,
      if_neg]
    rintro ⟨h1, -⟩
    exact hmem (h1 ▸ List.mem_cons_self p ps)

theorem getD_setFold_mem (ps : List Nat) (out : List Nat) (i : Nat)
    (hnd : ps.Nodup) (hi : i ∈ ps) (hlen : i < out.length) :
    (ps.foldl (fun o p => o.set p (o.getD p 0 ^^^ 0xFF)) out).getD i 0 =
      out.getD i 0 ^^^ 0xFF := by
  induction ps generalizing out with
  | nil => exact absurd hi (List.not_mem_nil i)
  | cons p ps ih =>
    rw [List.foldl_cons]
    rcases List.mem_cons.1 hi with h | h
    · subst h
      rw [getD_setFold_not_mem _ _ _ (List.Nodup.not_mem hnd), getD_set,
        if_pos ⟨rfl, hlen⟩]
    · have hne : p ≠ i := by
        intro he
        exact (List.Nodup.not_mem hnd) (he ▸ h)
      rw [ih _ (List.Nodup.of_cons hnd) h (by rw [List.length_set]; exact hlen),
        getD_set, if_neg]
      rintro ⟨h1, -⟩
      exact hne h1

theorem invertOutLane_as_setFold (out : List Nat) (k : Nat) :
    invertOutLane out k =
      ((List.range 8).map (fun j => 8 * k + j)).foldl
        (fun o p => o.set p (o.getD p 0 ^^^ 0xFF)) out := by
  rw [List.foldl_map]
  rfl

theorem length_invertOutLane (out : List Nat) (k : Nat) :
    (invertOutLane out k).length = out.length := by
  rw [invertOutLane_as_setFold, length_setFold]

theorem getD_invertOutLane (out : List Nat) (k i : Nat) :
    (invertOutLane out k).getD i 0 =
      if 8 * k ≤ i ∧ i < 8 * k + 8 ∧ i < out.length
      then out.getD i 0 ^^^ 0xFF else out.getD i 0 := by
  rw [invertOutLane_as_setFold]
  by_cases h : 8 * k ≤ i ∧ i < 8 * k + 8 ∧ i < out.length
  · rw [if_pos h]
    apply getD_setFold_mem
    · exact List.Nodup.map (fun a b hab => by omega) (List.nodup_range 8)
    · simp only [List.mem_map, List.mem_range]
      exact ⟨i - 8 * k, by omega, by omega⟩
    · exact h.2.2
  · rw [if_neg h]
    by_cases hw : 8 * k ≤ i ∧ i < 8 * k + 8
    · have hlen : out.length ≤ i := by omega
      rw [List.getD_eq_default _ _ (by rw [length_setFold]; exact hlen),
        List.getD_eq_default _ _ hlen]
    · apply getD_setFold_not_mem
      simp only [List.mem_map, List.mem_range]
      rintro ⟨j, hj, hji⟩
      exact hw ⟨by omega, by omega⟩

theorem applyPmask_as_maskSteps (out : List Nat) (L : Nat) :
    applyPmaskOut out L =
      maskStep L (maskStep L (maskStep L (maskStep L (maskStep L
        (maskStep L out 1) 2) 8) 12) 17) 20 := rfl

theorem length_maskStep (L : Nat) (out : List Nat) (k : Nat) :
    (maskStep L out k).length = out.length := by
  unfold maskStep
  by_cases h : L > k
  · rw [if_pos h, length_invertOutLane]
  · rw [if_neg h]

theorem getD_maskStep (L : Nat) (out : List Nat) (k i : Nat) :
    (maskStep L out k).getD i 0 =
      if i / 8 = k ∧ k < L ∧ i < out.length
      then out.getD i 0 ^^^ 0xFF else out.getD i 0 := by
  unfold maskStep
  by_cases h : L > k
  · rw [if_pos h, getD_invertOutLane]
    split_ifs with h1 h2 <;> first | rfl | omega
  · rw [if_neg h, if_neg]
    rintro ⟨-, h2, -⟩
    exact h h2

theorem getD_applyPmaskOut (out : List Nat) (L i : Nat) :
    (applyPmaskOut out L).getD i 0 =
      if i / 8 ∈ pSet ∧ i / 8 < L ∧ i < out.length
      then out.getD i 0 ^^^ 0xFF else out.getD i 0 := by
  rw [applyPmask_as_maskSteps]
  simp only [getD_maskStep, length_maskStep, pSet, List.mem_cons,
    List.not_mem_nil, or_false]
  split_ifs <;> first | rfl | omega

theorem getD_map_range (g : Nat → Nat) (n i : Nat) :
    ((List.range n).map g).getD i 0 = if i < n then g i else 0 := by
  by_cases h : i < n
  · rw [if_pos h, List.getD_eq_getElem _ _ (by simp [h])]
    simp
  · rw [if_neg h, List.getD_eq_default _ _ (by simp; omega)]

theorem squeezeBlock_length (lc : Bool) (st : List Nat) (block_len : Nat) :
    (squeezeBlock lc st block_len).length = block_len := by
  cases lc with
  | false => simp [squeezeBlock]
  | true =>
    show (applyPmaskOut ((List.range block_len).map (getByte st)) (block_len / 8)).length
      = block_len
    rw [applyPmask_as_maskSteps]
    simp only [length_maskStep, List.length_map, List.length_range]

theorem squeezeBlock_lc_getD (st : List Nat) (block_len i : Nat) :
    (squeezeBlock true st block_len).getD i 0 =
      if i / 8 ∈ pSet ∧ i / 8 < block_len / 8 ∧ i < block_len
      then getByte st i ^^^ 0xFF
      else if i < block_len then getByte st i else 0 := by
  show (applyPmaskOut ((List.range block_len).map (getByte st)) (block_len / 8)).getD i 0 = _
  rw [getD_applyPmaskOut]
  simp only [List.length_map, List.length_range, getD_map_range]
  split_ifs <;> first | rfl | omega

theorem squeeze_aux_step (f : List Nat → List Nat) (lc : Bool) (st : List Nat)
    (remaining rate_bytes fuel : Nat) (h : remaining ≠ 0) :
    keccakf1600_squeeze_aux f lc (fuel + 1) st remaining rate_bytes =
      squeezeBlock lc st (min remaining rate_bytes) ++
      (if remaining - min remaining rate_bytes > 0 then
        keccakf1600_squeeze_aux f lc fuel (f st)
          (remaining - min remaining rate_bytes) rate_bytes
      else []) := by
  rw [keccakf1600_squeeze_aux, if_neg h]

theorem squeeze_aux_single (f : List Nat → List Nat) (lc : Bool) (st : List Nat)
    (remaining rate_bytes fuel : Nat) (h0 : remaining ≠ 0)
    (hle : remaining ≤ rate_bytes) :
    keccakf1600_squeeze_aux f lc (fuel + 1) st remaining rate_bytes =
      squeezeBlock lc st remaining := by
  rw [squeeze_aux_step f lc st remaining rate_bytes fuel h0]
  rw [min_eq_left hle, Nat.sub_self, if_neg (by omega), List.append_nil]

theorem squeeze_single_32 (f : List Nat → List Nat) (lc : Bool) (st : List Nat) :
    keccakf1600_squeeze f lc st 32 = squeezeBlock lc st 32 :=
  squeeze_aux_single f lc st 32 (200 - 2 * 32) 31 (by omega) (by omega)

theorem squeeze_single_64 (f : List Nat → List Nat) (lc : Bool) (st : List Nat) :
    keccakf1600_squeeze f lc st 64 = squeezeBlock lc st 64 :=
  squeeze_aux_single f lc st 64 (200 - 2 * 64) 63 (by omega) (by omega)

/-- C6: per squeeze iteration the sponge emits min(remaining, rate) bytes of
the state (a block of exactly that length), permuting between iterations
when more output is needed; for digest lengths 32 and 64 a single block
suffices, so the result does not depend on the installed permutation; and
with lane-complementing active exactly the output bytes of the P-lanes
{1, 2, 8, 12, 17, 20} that fall fully inside the emitted block are
inverted. -/
theorem C6_squeeze_structure :
    (∀ (f : List Nat → List Nat) (lc : Bool) (st : List Nat)
       (remaining rate_bytes fuel : Nat), remaining ≠ 0 →
      keccakf1600_squeeze_aux f lc (fuel + 1) st remaining rate_bytes =
        squeezeBlock lc st (min remaining rate_bytes) ++
        (if remaining - min remaining rate_bytes > 0 then
          keccakf1600_squeeze_aux f lc fuel (f st)
            (remaining - min remaining rate_bytes) rate_bytes
        else [])) ∧
    (∀ (lc : Bool) (st : List Nat) (block_len : Nat),
      (squeezeBlock lc st block_len).length = block_len) ∧
    (∀ (f g : List Nat → List Nat) (lc : Bool) (st : List Nat),
      keccakf1600_squeeze f lc st 32 = squeezeBlock lc st 32 ∧
      keccakf1600_squeeze f lc st 64 = squeezeBlock lc st 64 ∧
      keccakf1600_squeeze f lc st 32 = keccakf1600_squeeze g lc st 32 ∧
      keccakf1600_squeeze f lc st 64 = keccakf1600_squeeze g lc st 64) ∧
    (∀ (st : List Nat) (block_len i : Nat),
      (squeezeBlock true st block_len).getD i 0 =
        if i / 8 ∈ pSet ∧ i / 8 < block_len / 8 ∧ i < block_len
        then getByte st i ^^^ 0xFF
        else if i < block_len then getByte st i else 0) := by
  refine ⟨squeeze_aux_step, squeezeBlock_length, fun f g lc st => ?_,
    squeezeBlock_lc_getD⟩
  exact ⟨squeeze_single_32 f lc st, squeeze_single_64 f lc st,
    (squeeze_single_32 f lc st).trans (squeeze_single_32 g lc st).symm,
    (squeeze_single_64 f lc st).trans (squeeze_single_64 g lc st).symm⟩

/-- Witness for C6 with one remaining byte and rate 1. -/
theorem C6_squeeze_structure_witness :
    (1 : Nat) ≠ 0 ∧
    keccakf1600_squeeze_aux stub_state_permute false (0 + 1) zeroState 1 1 =
      squeezeBlock false zeroState (min 1 1) ++
      (if 1 - min 1 1 > 0 then
        keccakf1600_squeeze_aux stub_state_permute false 0
          (stub_state_permute zeroState) (1 - min 1 1) 1
      else []) :=
  ⟨by decide,
    C6_squeeze_structure.1 stub_state_permute false zeroState 1 1 0 (by decide)⟩

/-! ## Message-dependence of the sponge (development) -/

theorem loadLane_congr {msg1 msg2 : Nat → Nat} {msg_len : Nat}
    (h : ∀ i, i < msg_len → msg1 i = msg2 i) (off : Nat)
    (hoff : off + 8 ≤ msg_len) :
    loadLane msg1 off = loadLane msg2 off := by
  unfold loadLane
  rw [h off (by omega), h (off + 1) (by omega), h (off + 2) (by omega),
    h (off + 3) (by omega), h (off + 4) (by omega), h (off + 5) (by omega),
    h (off + 6) (by omega), h (off + 7) (by omega)]

theorem absorb_lanes_snd (f : List Nat → List Nat) (st : List Nat)
    (msg : Nat → Nat) (num_lanes msg_off : Nat) :
    (keccakf1600_absorb_lanes f st msg num_lanes msg_off).2 =
      msg_off + 8 * num_lanes := rfl

theorem absorb_lanes_msg_congr (f : List Nat → List Nat) (st : List Nat)
    {msg1 msg2 : Nat → Nat} {msg_len : Nat}
    (h : ∀ i, i < msg_len → msg1 i = msg2 i) (num_lanes msg_off : Nat)
    (hb : msg_off + 8 * num_lanes ≤ msg_len) :
    keccakf1600_absorb_lanes f st msg1 num_lanes msg_off =
      keccakf1600_absorb_lanes f st msg2 num_lanes msg_off := by
  unfold keccakf1600_absorb_lanes
  simp only []
  congr 2
  apply List.foldl_ext
  intro acc i hi
  rw [loadLane_congr h (msg_off + 8 * i)
    (by rw [List.mem_range] at hi; omega)]

theorem absorbBlocks_msg_congr (f : List Nat → List Nat) (st : List Nat)
    {msg1 msg2 : Nat → Nat} {msg_len : Nat}
    (h : ∀ i, i < msg_len → msg1 i = msg2 i) (lanes_per_block : Nat) :
    ∀ n, 8 * lanes_per_block * n ≤ msg_len →
      absorbBlocks f st msg1 n lanes_per_block =
        absorbBlocks f st msg2 n lanes_per_block ∧
      (absorbBlocks f st msg1 n lanes_per_block).2 = 8 * lanes_per_block * n := by
  intro n
  induction n with
  | zero =>
    intro _
    exact ⟨rfl, by rw [Nat.mul_zero]; rfl⟩
  | succ k ih =>
    intro hb
    have hk8 : 8 * lanes_per_block * k + 8 * lanes_per_block ≤ msg_len := by
      rw [← Nat.mul_succ]
      exact hb
    obtain ⟨heq, hsnd⟩ := ih (by omega)
    unfold absorbBlocks at *
    simp only [List.range_succ, List.foldl_append, List.foldl_cons, List.foldl_nil]
    rw [← heq, hsnd]
    constructor
    · exact absorb_lanes_msg_congr f _ h lanes_per_block _ (by omega)
    · rw [absorb_lanes_snd, Nat.mul_succ]

theorem absorbTail_msg_congr (f : List Nat → List Nat) (st : List Nat)
    {msg1 msg2 : Nat → Nat} {msg_len : Nat}
    (h : ∀ i, i < msg_len → msg1 i = msg2 i) (msg_off count rate_bytes : Nat)
    (hb : msg_off + count ≤ msg_len) :
    absorbTail f st msg1 msg_off count rate_bytes =
      absorbTail f st msg2 msg_off count rate_bytes := by
  unfold absorbTail
  apply List.foldl_ext
  intro q k hk
  rw [h (msg_off + k) (by rw [List.mem_range] at hk; omega)]

theorem absorb_msg_congr (f : List Nat → List Nat) (st : List Nat)
    {msg1 msg2 : Nat → Nat} (msg_len md_len delim : Nat)
    (h : ∀ i, i < msg_len → msg1 i = msg2 i) :
    keccakf1600_absorb f st msg1 msg_len md_len delim =
      keccakf1600_absorb f st msg2 msg_len md_len delim := by
  unfold keccakf1600_absorb
  simp only []
  have hlpb : 8 * ((200 - 2 * md_len) / 8) ≤ 200 - 2 * md_len := by
    rw [Nat.mul_comm]
    exact Nat.div_mul_le_self _ 8
  have hblocks : 8 * ((200 - 2 * md_len) / 8) * (msg_len / (200 - 2 * md_len)) ≤
      msg_len := by
    calc 8 * ((200 - 2 * md_len) / 8) * (msg_len / (200 - 2 * md_len))
        ≤ (200 - 2 * md_len) * (msg_len / (200 - 2 * md_len)) :=
          Nat.mul_le_mul_right _ hlpb
      _ = msg_len / (200 - 2 * md_len) * (200 - 2 * md_len) := Nat.mul_comm _ _
      _ ≤ msg_len := Nat.div_mul_le_self _ _
  obtain ⟨heq, hsnd⟩ := absorbBlocks_msg_congr f st h ((200 - 2 * md_len) / 8)
    (msg_len / (200 - 2 * md_len)) hblocks
  rw [← heq, absorbTail_msg_congr f _ h _ _ _ (by omega)]

/-- C10: for a fixed installed permutation and lane-complement flag, the
one-shot digest starts from a freshly constructed state (the zero state,
with the P-lanes pre-inverted when lane-complementing is active) and its
output depends only on the first msg_len bytes of the message, the digest
length and the delimiter: two calls whose messages agree below msg_len
return identical digests, and no call's result can depend on any earlier
call. -/
theorem C10_oneshot_deterministic :
    (∀ (f : List Nat → List Nat) (lc : Bool) (msg1 msg2 : Nat → Nat)
       (msg_len md_len delim : Nat),
      (∀ i, i < msg_len → msg1 i = msg2 i) →
      keccakf1600_oneshot f lc msg1 msg_len md_len delim =
        keccakf1600_oneshot f lc msg2 msg_len md_len delim) ∧
    (∀ (f : List Nat → List Nat) (lc : Bool) (msg : Nat → Nat)
       (msg_len md_len delim : Nat),
      keccakf1600_oneshot f lc msg msg_len md_len delim =
        keccakf1600_squeeze f lc
          (keccakf1600_absorb f
            (if lc then
              (((((zeroState.set 1 ones64).set 2 ones64).set 8
                ones64).set 12 ones64).set 17 ones64).set 20 ones64
            else zeroState) msg msg_len md_len delim) md_len) := by
  constructor
  · intro f lc msg1 msg2 msg_len md_len delim h
    unfold keccakf1600_oneshot
    simp only []
    rw [absorb_msg_congr f _ msg_len md_len delim h]
  · intro f lc msg msg_len md_len delim
    rfl

/-- Witness for C10: the empty message and "abc" agree below length 0. -/
theorem C10_oneshot_deterministic_witness :
    (∀ i, i < 0 → msgEmpty i = msgAbc i) ∧
    keccakf1600_oneshot stub_state_permute false msgEmpty 0 32 6 =
      keccakf1600_oneshot stub_state_permute false msgAbc 0 32 6 :=
  ⟨fun i hi => absurd hi (by omega),
    C10_oneshot_deterministic.1 stub_state_permute false msgEmpty msgAbc 0 32 6
      (fun i hi => absurd hi (by omega))⟩


/-! ## Inverse-round machinery for the permutation bijection -/



theorem lane_lt {st : List Nat} (hB : Bounded st) (i : Nat) : lane st i < two64 := by
  unfold lane
  rcases Nat.lt_or_ge i st.length with h | h
  · rw [List.getD_eq_getElem st 0 h]
    exact hB _ (st.getElem_mem h)
  · rw [List.getD_eq_default st 0 h]
    exact two64_pos

theorem rotl_rotl_cancel {v : Nat} (hv : v < two64) {n m : Nat} (hnm : n + m = 64) :
    rotl_lane (rotl_lane v n) m = v := by
  apply eq64_of_testBit (lt64_rotl _ _) hv
  intro i hi
  rw [testBit_rotl_lane (lt64_rotl v n) (show m + n = 64 by omega) hi,
    testBit_rotl_lane hv hnm (Nat.mod_lt _ (by omega))]
  have he : ((i + n) % 64 + m) % 64 = i % 64 := by omega
  rw [he, Nat.mod_eq_of_lt hi]

theorem lt64_applyP (p : List (Nat × Nat)) (C : Nat → Nat)
    (hC : ∀ k, C k < two64) (x : Nat) : applyP p C x < two64 := by
  unfold applyP
  induction p with
  | nil =>
    simp only [List.map_nil, List.foldr_nil]
    exact two64_pos
  | cons t ts ih =>
    simp only [List.map_cons, List.foldr_cons]
    exact lt64_xor (lt64_rotl _ _) ih

theorem testBit_applyP (p : List (Nat × Nat)) (C : Nat → Nat)
    (hC : ∀ k, C k < two64) (hp : ∀ t ∈ p, t.2 ≤ 64) (x j : Nat) :
    (applyP p C x).testBit (j % 64) =
      (p.map fun t => (C ((x + t.1) % 5)).testBit ((j + 64 - t.2) % 64)).foldr
        (fun a b => xor a b) false := by
  unfold applyP
  induction p with
  | nil =>
    simp only [List.map_nil, List.foldr_nil]
    exact Nat.zero_testBit _
  | cons t ts ih =>
    simp only [List.map_cons, List.foldr_cons]
    rw [Nat.testBit_xor, ih (fun s hs => hp s (List.mem_cons_of_mem t hs))]
    have ht := hp t (List.mem_cons_self t ts)
    rw [testBit_rotl_lane (hC _) (show t.2 + (64 - t.2) = 64 by omega)
      (Nat.mod_lt _ (by omega))]
    have he : (j % 64 + (64 - t.2)) % 64 = (j + 64 - t.2) % 64 := by omega
    rw [he]

theorem applyP_congr (p : List (Nat × Nat)) {C1 C2 : Nat → Nat}
    (h : ∀ k, C1 k = C2 k) (x : Nat) : applyP p C1 x = applyP p C2 x := by
  unfold applyP
  induction p with
  | nil => rfl
  | cons t ts ih =>
    simp only [List.map_cons, List.foldr_cons]
    rw [h, ih]

theorem gInv_congr {C1 C2 : Nat → Nat} (h : ∀ k, C1 k = C2 k) (x : Nat) :
    gInv C1 x = gInv C2 x := by
  unfold gInv
  exact applyP_congr _ (fun y1 => applyP_congr _ (fun y2 => applyP_congr _
    (fun y3 => applyP_congr _ (fun y4 => applyP_congr _ (fun y5 =>
    applyP_congr _ (fun y6 => applyP_congr _ (fun y7 => applyP_congr _ h y7)
    y6) y5) y4) y3) y2) y1) x

theorem applyP_pp (C : Nat → Nat) (hC : ∀ k, C k < two64) (x : Nat) :
    applyP pTheta (applyP pTheta C) x = applyP pTheta2 C x := by
  have hC2 : ∀ k, applyP pTheta C k < two64 := fun k => lt64_applyP _ _ hC k
  apply eq64_of_testBit (lt64_applyP _ _ hC2 x) (lt64_applyP _ _ hC x)
  intro i hi
  rw [show i = i % 64 from (Nat.mod_eq_of_lt hi).symm]
  rw [testBit_applyP pTheta (applyP pTheta C) hC2 (by decide) x i,
    testBit_applyP pTheta2 C hC (by decide) x i]
  simp only [pTheta, pTheta2, List.map_cons, List.map_nil, List.foldr_cons,
    List.foldr_nil]
  rw [testBit_applyP [(0, 0), (4, 0), (1, 1)] C hC (by decide) ((x + 0) % 5) (i + 64 - 0),
    testBit_applyP [(0, 0), (4, 0), (1, 1)] C hC (by decide) ((x + 4) % 5) (i + 64 - 0),
    testBit_applyP [(0, 0), (4, 0), (1, 1)] C hC (by decide) ((x + 1) % 5) (i + 64 - 1)]
  simp only [List.map_cons, List.map_nil, List.foldr_cons,
    List.foldr_nil]
  simp only [Nat.mod_add_mod]
  have e1 : (x + 0 + 0) % 5 = (x + 0) % 5 := by omega
  rw [e1]
  have e2 : (i + 64 - 0 + 64 - 0) % 64 = (i + 64 - 0) % 64 := by omega
  rw [e2]
  have e3 : (x + 0 + 4) % 5 = (x + 4) % 5 := by omega
  rw [e3]
  have e4 : (x + 0 + 1) % 5 = (x + 1) % 5 := by omega
  rw [e4]
  have e5 : (i + 64 - 0 + 64 - 1) % 64 = (i + 64 - 1) % 64 := by omega
  rw [e5]
  have e6 : (x + 4 + 4) % 5 = (x + 3) % 5 := by omega
  rw [e6]
  have e7 : (x + 4 + 1) % 5 = (x + 0) % 5 := by omega
  rw [e7]
  have e8 : (i + 64 - 1 + 64 - 0) % 64 = (i + 64 - 1) % 64 := by omega
  rw [e8]
  have e9 : (x + 1 + 1) % 5 = (x + 2) % 5 := by omega
  rw [e9]
  have e10 : (i + 64 - 1 + 64 - 1) % 64 = (i + 64 - 2) % 64 := by omega
  rw [e10]
  generalize (C ((x + 0) % 5)).testBit ((i + 64 - 0) % 64) = a0_0
  generalize (C ((x + 0) % 5)).testBit ((i + 64 - 1) % 64) = a0_1
  generalize (C ((x + 1) % 5)).testBit ((i + 64 - 1) % 64) = a1_1
  generalize (C ((x + 2) % 5)).testBit ((i + 64 - 2) % 64) = a2_2
  generalize (C ((x + 3) % 5)).testBit ((i + 64 - 0) % 64) = a3_0
  generalize (C ((x + 4) % 5)).testBit ((i + 64 - 0) % 64) = a4_0
  revert a0_0 a0_1 a1_1 a2_2 a3_0 a4_0
  decide

theorem applyP_p2p2 (C : Nat → Nat) (hC : ∀ k, C k < two64) (x : Nat) :
    applyP pTheta2 (applyP pTheta2 C) x = applyP pTheta4 C x := by
  have hC2 : ∀ k, applyP pTheta2 C k < two64 := fun k => lt64_applyP _ _ hC k
  apply eq64_of_testBit (lt64_applyP _ _ hC2 x) (lt64_applyP _ _ hC x)
  intro i hi
  rw [show i = i % 64 from (Nat.mod_eq_of_lt hi).symm]
  rw [testBit_applyP pTheta2 (applyP pTheta2 C) hC2 (by decide) x i,
    testBit_applyP pTheta4 C hC (by decide) x i]
  simp only [pTheta2, pTheta4, List.map_cons, List.map_nil, List.foldr_cons,
    List.foldr_nil]
  rw [testBit_applyP [(0, 0), (2, 2), (3, 0)] C hC (by decide) ((x + 0) % 5) (i + 64 - 0),
    testBit_applyP [(0, 0), (2, 2), (3, 0)] C hC (by decide) ((x + 2) % 5) (i + 64 - 2),
    testBit_applyP [(0, 0), (2, 2), (3, 0)] C hC (by decide) ((x + 3) % 5) (i + 64 - 0)]
  simp only [List.map_cons, List.map_nil, List.foldr_cons,
    List.foldr_nil]
  simp only [Nat.mod_add_mod]
  have e1 : (x + 0 + 0) % 5 = (x + 0) % 5 := by omega
  rw [e1]
  have e2 : (i + 64 - 0 + 64 - 0) % 64 = (i + 64 - 0) % 64 := by omega
  rw [e2]
  have e3 : (x + 0 + 2) % 5 = (x + 2) % 5 := by omega
  rw [e3]
  have e4 : (i + 64 - 0 + 64 - 2) % 64 = (i + 64 - 2) % 64 := by omega
  rw [e4]
  have e5 : (x + 0 + 3) % 5 = (x + 3) % 5 := by omega
  rw [e5]
  have e6 : (i + 64 - 2 + 64 - 0) % 64 = (i + 64 - 2) % 64 := by omega
  rw [e6]
  have e7 : (x + 2 + 2) % 5 = (x + 4) % 5 := by omega
  rw [e7]
  have e8 : (i + 64 - 2 + 64 - 2) % 64 = (i + 64 - 4) % 64 := by omega
  rw [e8]
  have e9 : (x + 2 + 3) % 5 = (x + 0) % 5 := by omega
  rw [e9]
  have e10 : (x + 3 + 3) % 5 = (x + 1) % 5 := by omega
  rw [e10]
  generalize (C ((x + 0) % 5)).testBit ((i + 64 - 0) % 64) = a0_0
  generalize (C ((x + 0) % 5)).testBit ((i + 64 - 2) % 64) = a0_2
  generalize (C ((x + 1) % 5)).testBit ((i + 64 - 0) % 64) = a1_0
  generalize (C ((x + 2) % 5)).testBit ((i + 64 - 2) % 64) = a2_2
  generalize (C ((x + 3) % 5)).testBit ((i + 64 - 0) % 64) = a3_0
  generalize (C ((x + 4) % 5)).testBit ((i + 64 - 4) % 64) = a4_4
  revert a0_0 a0_2 a1_0 a2_2 a3_0 a4_4
  decide

theorem applyP_p4p4 (C : Nat → Nat) (hC : ∀ k, C k < two64) (x : Nat) :
    applyP pTheta4 (applyP pTheta4 C) x = applyP pTheta8 C x := by
  have hC2 : ∀ k, applyP pTheta4 C k < two64 := fun k => lt64_applyP _ _ hC k
  apply eq64_of_testBit (lt64_applyP _ _ hC2 x) (lt64_applyP _ _ hC x)
  intro i hi
  rw [show i = i % 64 from (Nat.mod_eq_of_lt hi).symm]
  rw [testBit_applyP pTheta4 (applyP pTheta4 C) hC2 (by decide) x i,
    testBit_applyP pTheta8 C hC (by decide) x i]
  simp only [pTheta4, pTheta8, List.map_cons, List.map_nil, List.foldr_cons,
    List.foldr_nil]
  rw [testBit_applyP [(0, 0), (1, 0), (4, 4)] C hC (by decide) ((x + 0) % 5) (i + 64 - 0),
    testBit_applyP [(0, 0), (1, 0), (4, 4)] C hC (by decide) ((x + 1) % 5) (i + 64 - 0),
    testBit_applyP [(0, 0), (1, 0), (4, 4)] C hC (by decide) ((x + 4) % 5) (i + 64 - 4)]
  simp only [List.map_cons, List.map_nil, List.foldr_cons,
    List.foldr_nil]
  simp only [Nat.mod_add_mod]
  have e1 : (x + 0 + 0) % 5 = (x + 0) % 5 := by omega
  rw [e1]
  have e2 : (i + 64 - 0 + 64 - 0) % 64 = (i + 64 - 0) % 64 := by omega
  rw [e2]
  have e3 : (x + 0 + 1) % 5 = (x + 1) % 5 := by omega
  rw [e3]
  have e4 : (x + 0 + 4) % 5 = (x + 4) % 5 := by omega
  rw [e4]
  have e5 : (i + 64 - 0 + 64 - 4) % 64 = (i + 64 - 4) % 64 := by omega
  rw [e5]
  have e6 : (x + 1 + 1) % 5 = (x + 2) % 5 := by omega
  rw [e6]
  have e7 : (x + 1 + 4) % 5 = (x + 0) % 5 := by omega
  rw [e7]
  have e8 : (i + 64 - 4 + 64 - 0) % 64 = (i + 64 - 4) % 64 := by omega
  rw [e8]
  have e9 : (x + 4 + 4) % 5 = (x + 3) % 5 := by omega
  rw [e9]
  have e10 : (i + 64 - 4 + 64 - 4) % 64 = (i + 64 - 8) % 64 := by omega
  rw [e10]
  generalize (C ((x + 0) % 5)).testBit ((i + 64 - 0) % 64) = a0_0
  generalize (C ((x + 0) % 5)).testBit ((i + 64 - 4) % 64) = a0_4
  generalize (C ((x + 1) % 5)).testBit ((i + 64 - 0) % 64) = a1_0
  generalize (C ((x + 2) % 5)).testBit ((i + 64 - 0) % 64) = a2_0
  generalize (C ((x + 3) % 5)).testBit ((i + 64 - 8) % 64) = a3_8
  generalize (C ((x + 4) % 5)).testBit ((i + 64 - 4) % 64) = a4_4
  revert a0_0 a0_4 a1_0 a2_0 a3_8 a4_4
  decide

theorem applyP_p8p8 (C : Nat → Nat) (hC : ∀ k, C k < two64) (x : Nat) :
    applyP pTheta8 (applyP pTheta8 C) x = applyP pTheta16 C x := by
  have hC2 : ∀ k, applyP pTheta8 C k < two64 := fun k => lt64_applyP _ _ hC k
  apply eq64_of_testBit (lt64_applyP _ _ hC2 x) (lt64_applyP _ _ hC x)
  intro i hi
  rw [show i = i % 64 from (Nat.mod_eq_of_lt hi).symm]
  rw [testBit_applyP pTheta8 (applyP pTheta8 C) hC2 (by decide) x i,
    testBit_applyP pTheta16 C hC (by decide) x i]
  simp only [pTheta8, pTheta16, List.map_cons, List.map_nil, List.foldr_cons,
    List.foldr_nil]
  rw [testBit_applyP [(0, 0), (2, 0), (3, 8)] C hC (by decide) ((x + 0) % 5) (i + 64 - 0),
    testBit_applyP [(0, 0), (2, 0), (3, 8)] C hC (by decide) ((x + 2) % 5) (i + 64 - 0),
    testBit_applyP [(0, 0), (2, 0), (3, 8)] C hC (by decide) ((x + 3) % 5) (i + 64 - 8)]
  simp only [List.map_cons, List.map_nil, List.foldr_cons,
    List.foldr_nil]
  simp only [Nat.mod_add_mod]
  have e1 : (x + 0 + 0) % 5 = (x + 0) % 5 := by omega
  rw [e1]
  have e2 : (i + 64 - 0 + 64 - 0) % 64 = (i + 64 - 0) % 64 := by omega
  rw [e2]
  have e3 : (x + 0 + 2) % 5 = (x + 2) % 5 := by omega
  rw [e3]
  have e4 : (x + 0 + 3) % 5 = (x + 3) % 5 := by omega
  rw [e4]
  have e5 : (i + 64 - 0 + 64 - 8) % 64 = (i + 64 - 8) % 64 := by omega
  rw [e5]
  have e6 : (x + 2 + 2) % 5 = (x + 4) % 5 := by omega
  rw [e6]
  have e7 : (x + 2 + 3) % 5 = (x + 0) % 5 := by omega
  rw [e7]
  have e8 : (i + 64 - 8 + 64 - 0) % 64 = (i + 64 - 8) % 64 := by omega
  rw [e8]
  have e9 : (x + 3 + 3) % 5 = (x + 1) % 5 := by omega
  rw [e9]
  have e10 : (i + 64 - 8 + 64 - 8) % 64 = (i + 64 - 16) % 64 := by omega
  rw [e10]
  generalize (C ((x + 0) % 5)).testBit ((i + 64 - 0) % 64) = a0_0
  generalize (C ((x + 0) % 5)).testBit ((i + 64 - 8) % 64) = a0_8
  generalize (C ((x + 1) % 5)).testBit ((i + 64 - 16) % 64) = a1_16
  generalize (C ((x + 2) % 5)).testBit ((i + 64 - 0) % 64) = a2_0
  generalize (C ((x + 3) % 5)).testBit ((i + 64 - 8) % 64) = a3_8
  generalize (C ((x + 4) % 5)).testBit ((i + 64 - 0) % 64) = a4_0
  revert a0_0 a0_8 a1_16 a2_0 a3_8 a4_0
  decide

theorem applyP_p16p16 (C : Nat → Nat) (hC : ∀ k, C k < two64) (x : Nat) :
    applyP pTheta16 (applyP pTheta16 C) x = applyP pTheta32 C x := by
  have hC2 : ∀ k, applyP pTheta16 C k < two64 := fun k => lt64_applyP _ _ hC k
  apply eq64_of_testBit (lt64_applyP _ _ hC2 x) (lt64_applyP _ _ hC x)
  intro i hi
  rw [show i = i % 64 from (Nat.mod_eq_of_lt hi).symm]
  rw [testBit_applyP pTheta16 (applyP pTheta16 C) hC2 (by decide) x i,
    testBit_applyP pTheta32 C hC (by decide) x i]
  simp only [pTheta16, pTheta32, List.map_cons, List.map_nil, List.foldr_cons,
    List.foldr_nil]
  rw [testBit_applyP [(0, 0), (1, 16), (4, 0)] C hC (by decide) ((x + 0) % 5) (i + 64 - 0),
    testBit_applyP [(0, 0), (1, 16), (4, 0)] C hC (by decide) ((x + 1) % 5) (i + 64 - 16),
    testBit_applyP [(0, 0), (1, 16), (4, 0)] C hC (by decide) ((x + 4) % 5) (i + 64 - 0)]
  simp only [List.map_cons, List.map_nil, List.foldr_cons,
    List.foldr_nil]
  simp only [Nat.mod_add_mod]
  have e1 : (x + 0 + 0) % 5 = (x + 0) % 5 := by omega
  rw [e1]
  have e2 : (i + 64 - 0 + 64 - 0) % 64 = (i + 64 - 0) % 64 := by omega
  rw [e2]
  have e3 : (x + 0 + 1) % 5 = (x + 1) % 5 := by omega
  rw [e3]
  have e4 : (i + 64 - 0 + 64 - 16) % 64 = (i + 64 - 16) % 64 := by omega
  rw [e4]
  have e5 : (x + 0 + 4) % 5 = (x + 4) % 5 := by omega
  rw [e5]
  have e6 : (i + 64 - 16 + 64 - 0) % 64 = (i + 64 - 16) % 64 := by omega
  rw [e6]
  have e7 : (x + 1 + 1) % 5 = (x + 2) % 5 := by omega
  rw [e7]
  have e8 : (i + 64 - 16 + 64 - 16) % 64 = (i + 64 - 32) % 64 := by omega
  rw [e8]
  have e9 : (x + 1 + 4) % 5 = (x + 0) % 5 := by omega
  rw [e9]
  have e10 : (x + 4 + 4) % 5 = (x + 3) % 5 := by omega
  rw [e10]
  generalize (C ((x + 0) % 5)).testBit ((i + 64 - 0) % 64) = a0_0
  generalize (C ((x + 0) % 5)).testBit ((i + 64 - 16) % 64) = a0_16
  generalize (C ((x + 1) % 5)).testBit ((i + 64 - 16) % 64) = a1_16
  generalize (C ((x + 2) % 5)).testBit ((i + 64 - 32) % 64) = a2_32
  generalize (C ((x + 3) % 5)).testBit ((i + 64 - 0) % 64) = a3_0
  generalize (C ((x + 4) % 5)).testBit ((i + 64 - 0) % 64) = a4_0
  revert a0_0 a0_16 a1_16 a2_32 a3_0 a4_0
  decide

theorem applyP_p32p32 (C : Nat → Nat) (hC : ∀ k, C k < two64) (x : Nat) :
    applyP pTheta32 (applyP pTheta32 C) x = applyP pTheta64 C x := by
  have hC2 : ∀ k, applyP pTheta32 C k < two64 := fun k => lt64_applyP _ _ hC k
  apply eq64_of_testBit (lt64_applyP _ _ hC2 x) (lt64_applyP _ _ hC x)
  intro i hi
  rw [show i = i % 64 from (Nat.mod_eq_of_lt hi).symm]
  rw [testBit_applyP pTheta32 (applyP pTheta32 C) hC2 (by decide) x i,
    testBit_applyP pTheta64 C hC (by decide) x i]
  simp only [pTheta32, pTheta64, List.map_cons, List.map_nil, List.foldr_cons,
    List.foldr_nil]
  rw [testBit_applyP [(0, 0), (2, 32), (3, 0)] C hC (by decide) ((x + 0) % 5) (i + 64 - 0),
    testBit_applyP [(0, 0), (2, 32), (3, 0)] C hC (by decide) ((x + 2) % 5) (i + 64 - 32),
    testBit_applyP [(0, 0), (2, 32), (3, 0)] C hC (by decide) ((x + 3) % 5) (i + 64 - 0)]
  simp only [List.map_cons, List.map_nil, List.foldr_cons,
    List.foldr_nil]
  simp only [Nat.mod_add_mod]
  have e1 : (x + 0 + 0) % 5 = (x + 0) % 5 := by omega
  rw [e1]
  have e2 : (i + 64 - 0 + 64 - 0) % 64 = (i + 64 - 0) % 64 := by omega
  rw [e2]
  have e3 : (x + 0 + 2) % 5 = (x + 2) % 5 := by omega
  rw [e3]
  have e4 : (i + 64 - 0 + 64 - 32) % 64 = (i + 64 - 32) % 64 := by omega
  rw [e4]
  have e5 : (x + 0 + 3) % 5 = (x + 3) % 5 := by omega
  rw [e5]
  have e6 : (i + 64 - 32 + 64 - 0) % 64 = (i + 64 - 32) % 64 := by omega
  rw [e6]
  have e7 : (x + 2 + 2) % 5 = (x + 4) % 5 := by omega
  rw [e7]
  have e8 : (i + 64 - 32 + 64 - 32) % 64 = (i + 64 - 0) % 64 := by omega
  rw [e8]
  have e9 : (x + 2 + 3) % 5 = (x + 0) % 5 := by omega
  rw [e9]
  have e10 : (x + 3 + 3) % 5 = (x + 1) % 5 := by omega
  rw [e10]
  generalize (C ((x + 0) % 5)).testBit ((i + 64 - 0) % 64) = a0_0
  generalize (C ((x + 0) % 5)).testBit ((i + 64 - 32) % 64) = a0_32
  generalize (C ((x + 1) % 5)).testBit ((i + 64 - 0) % 64) = a1_0
  generalize (C ((x + 2) % 5)).testBit ((i + 64 - 32) % 64) = a2_32
  generalize (C ((x + 3) % 5)).testBit ((i + 64 - 0) % 64) = a3_0
  generalize (C ((x + 4) % 5)).testBit ((i + 64 - 0) % 64) = a4_0
  revert a0_0 a0_32 a1_0 a2_32 a3_0 a4_0
  decide

theorem applyP_p64p64 (C : Nat → Nat) (hC : ∀ k, C k < two64) (x : Nat) :
    applyP pTheta64 (applyP pTheta64 C) x = applyP pTheta128 C x := by
  have hC2 : ∀ k, applyP pTheta64 C k < two64 := fun k => lt64_applyP _ _ hC k
  apply eq64_of_testBit (lt64_applyP _ _ hC2 x) (lt64_applyP _ _ hC x)
  intro i hi
  rw [show i = i % 64 from (Nat.mod_eq_of_lt hi).symm]
  rw [testBit_applyP pTheta64 (applyP pTheta64 C) hC2 (by decide) x i,
    testBit_applyP pTheta128 C hC (by decide) x i]
  simp only [pTheta64, pTheta128, List.map_cons, List.map_nil, List.foldr_cons,
    List.foldr_nil]
  rw [testBit_applyP [(0, 0), (1, 0), (4, 0)] C hC (by decide) ((x + 0) % 5) (i + 64 - 0),
    testBit_applyP [(0, 0), (1, 0), (4, 0)] C hC (by decide) ((x + 1) % 5) (i + 64 - 0),
    testBit_applyP [(0, 0), (1, 0), (4, 0)] C hC (by decide) ((x + 4) % 5) (i + 64 - 0)]
  simp only [List.map_cons, List.map_nil, List.foldr_cons,
    List.foldr_nil]
  simp only [Nat.mod_add_mod]
  have e1 : (x + 0 + 0) % 5 = (x + 0) % 5 := by omega
  rw [e1]
  have e2 : (i + 64 - 0 + 64 - 0) % 64 = (i + 64 - 0) % 64 := by omega
  rw [e2]
  have e3 : (x + 0 + 1) % 5 = (x + 1) % 5 := by omega
  rw [e3]
  have e4 : (x + 0 + 4) % 5 = (x + 4) % 5 := by omega
  rw [e4]
  have e5 : (x + 1 + 1) % 5 = (x + 2) % 5 := by omega
  rw [e5]
  have e6 : (x + 1 + 4) % 5 = (x + 0) % 5 := by omega
  rw [e6]
  have e7 : (x + 4 + 4) % 5 = (x + 3) % 5 := by omega
  rw [e7]
  generalize (C ((x + 0) % 5)).testBit ((i + 64 - 0) % 64) = a0_0
  generalize (C ((x + 1) % 5)).testBit ((i + 64 - 0) % 64) = a1_0
  generalize (C ((x + 2) % 5)).testBit ((i + 64 - 0) % 64) = a2_0
  generalize (C ((x + 3) % 5)).testBit ((i + 64 - 0) % 64) = a3_0
  generalize (C ((x + 4) % 5)).testBit ((i + 64 - 0) % 64) = a4_0
  revert a0_0 a1_0 a2_0 a3_0 a4_0
  decide

theorem applyP_p64p128 (C : Nat → Nat) (hC : ∀ k, C k < two64) (x : Nat) :
    applyP pTheta64 (applyP pTheta128 C) x = applyP pTheta192 C x := by
  have hC2 : ∀ k, applyP pTheta128 C k < two64 := fun k => lt64_applyP _ _ hC k
  apply eq64_of_testBit (lt64_applyP _ _ hC2 x) (lt64_applyP _ _ hC x)
  intro i hi
  rw [show i = i % 64 from (Nat.mod_eq_of_lt hi).symm]
  rw [testBit_applyP pTheta64 (applyP pTheta128 C) hC2 (by decide) x i,
    testBit_applyP pTheta192 C hC (by decide) x i]
  simp only [pTheta64, pTheta128, pTheta192, List.map_cons, List.map_nil, List.foldr_cons,
    List.foldr_nil]
  rw [testBit_applyP [(0, 0), (2, 0), (3, 0)] C hC (by decide) ((x + 0) % 5) (i + 64 - 0),
    testBit_applyP [(0, 0), (2, 0), (3, 0)] C hC (by decide) ((x + 1) % 5) (i + 64 - 0),
    testBit_applyP [(0, 0), (2, 0), (3, 0)] C hC (by decide) ((x + 4) % 5) (i + 64 - 0)]
  simp only [List.map_cons, List.map_nil, List.foldr_cons,
    List.foldr_nil]
  simp only [Nat.mod_add_mod]
  have e1 : (x + 0 + 0) % 5 = (x + 0) % 5 := by omega
  rw [e1]
  have e2 : (i + 64 - 0 + 64 - 0) % 64 = (i + 64 - 0) % 64 := by omega
  rw [e2]
  have e3 : (x + 0 + 2) % 5 = (x + 2) % 5 := by omega
  rw [e3]
  have e4 : (x + 0 + 3) % 5 = (x + 3) % 5 := by omega
  rw [e4]
  have e5 : (x + 1 + 0) % 5 = (x + 1) % 5 := by omega
  rw [e5]
  have e6 : (x + 1 + 3) % 5 = (x + 4) % 5 := by omega
  rw [e6]
  have e7 : (x + 4 + 2) % 5 = (x + 1) % 5 := by omega
  rw [e7]
  have e8 : (x + 4 + 3) % 5 = (x + 2) % 5 := by omega
  rw [e8]
  generalize (C ((x + 0) % 5)).testBit ((i + 64 - 0) % 64) = a0_0
  generalize (C ((x + 1) % 5)).testBit ((i + 64 - 0) % 64) = a1_0
  generalize (C ((x + 2) % 5)).testBit ((i + 64 - 0) % 64) = a2_0
  generalize (C ((x + 3) % 5)).testBit ((i + 64 - 0) % 64) = a3_0
  generalize (C ((x + 4) % 5)).testBit ((i + 64 - 0) % 64) = a4_0
  revert a0_0 a1_0 a2_0 a3_0 a4_0
  decide

theorem applyP_pTheta192_eval (C : Nat → Nat) (hC : ∀ k, C k < two64) (x : Nat) :
    applyP pTheta192 C x = C (x % 5) := by
  unfold applyP
  simp only [pTheta192, List.map_cons, List.map_nil, List.foldr_cons, List.foldr_nil]
  rw [Nat.xor_zero, rotl_lane_zero (hC _)]
  have h : (x + 0) % 5 = x % 5 := by omega
  rw [h]

theorem gInv_g (C : Nat → Nat) (hC : ∀ k, C k < two64) (x : Nat) :
    gInv (applyP pTheta C) x = C (x % 5) := by
  have h1 : ∀ y, applyP pTheta (applyP pTheta C) y = applyP pTheta2 C y :=
    applyP_pp C hC
  have h2 : ∀ y, applyP pTheta2 (applyP pTheta (applyP pTheta C)) y =
      applyP pTheta4 C y := by
    intro y
    rw [applyP_congr pTheta2 h1 y]
    exact applyP_p2p2 C hC y
  have h3 : ∀ y, applyP pTheta4 (applyP pTheta2 (applyP pTheta (applyP pTheta C))) y =
      applyP pTheta8 C y := by
    intro y
    rw [applyP_congr pTheta4 h2 y]
    exact applyP_p4p4 C hC y
  have h4 : ∀ y, applyP pTheta8 (applyP pTheta4 (applyP pTheta2 (applyP pTheta
      (applyP pTheta C)))) y = applyP pTheta16 C y := by
    intro y
    rw [applyP_congr pTheta8 h3 y]
    exact applyP_p8p8 C hC y
  have h5 : ∀ y, applyP pTheta16 (applyP pTheta8 (applyP pTheta4 (applyP pTheta2
      (applyP pTheta (applyP pTheta C))))) y = applyP pTheta32 C y := by
    intro y
    rw [applyP_congr pTheta16 h4 y]
    exact applyP_p16p16 C hC y
  have h6 : ∀ y, applyP pTheta32 (applyP pTheta16 (applyP pTheta8 (applyP pTheta4
      (applyP pTheta2 (applyP pTheta (applyP pTheta C)))))) y =
      applyP pTheta64 C y := by
    intro y
    rw [applyP_congr pTheta32 h5 y]
    exact applyP_p32p32 C hC y
  have h7 : ∀ y, applyP pTheta64 (applyP pTheta32 (applyP pTheta16 (applyP pTheta8
      (applyP pTheta4 (applyP pTheta2 (applyP pTheta (applyP pTheta C))))))) y =
      applyP pTheta128 C y := by
    intro y
    rw [applyP_congr pTheta64 h6 y]
    exact applyP_p64p64 C hC y
  have h8 : ∀ y, applyP pTheta64 (applyP pTheta64 (applyP pTheta32 (applyP pTheta16
      (applyP pTheta8 (applyP pTheta4 (applyP pTheta2 (applyP pTheta
      (applyP pTheta C)))))))) y = applyP pTheta192 C y := by
    intro y
    rw [applyP_congr pTheta64 h7 y]
    exact applyP_p64p128 C hC y
  unfold gInv
  rw [h8 x]
  exact applyP_pTheta192_eval C hC x

theorem chiPlane_inv (T : Nat × Nat × Nat × Nat × Nat)
    (h0 : T.1 < two64) (h1 : T.2.1 < two64) (h2 : T.2.2.1 < two64)
    (h3 : T.2.2.2.1 < two64) (h4 : T.2.2.2.2 < two64) :
    chiInvPlane (chiPlane T) = T := by
  obtain ⟨t0, t1, t2, t3, t4⟩ := T
  unfold chiPlane chiInvPlane
  simp only [Prod.mk.injEq]
  refine ⟨?_, ?_, ?_, ?_, ?_⟩ <;>
  · apply eq64_of_testBit
      (by repeat first
            | exact h0 | exact h1 | exact h2 | exact h3 | exact h4
            | apply lt64_xor | apply lt64_and | apply lt64_cnot)
      (by repeat first
            | exact h0 | exact h1 | exact h2 | exact h3 | exact h4)
    intro i hi
    simp only [Nat.testBit_xor, Nat.testBit_and, testBit_cnot _ hi]
    generalize t0.testBit i = b0
    generalize t1.testBit i = b1
    generalize t2.testBit i = b2
    generalize t3.testBit i = b3
    generalize t4.testBit i = b4
    revert b0 b1 b2 b3 b4
    decide

/-! ### bounds -/

theorem bounded5_interC {A : List Nat} (hB : Bounded A) :
    (interC A).1 < two64 ∧ (interC A).2.1 < two64 ∧ (interC A).2.2.1 < two64 ∧
    (interC A).2.2.2.1 < two64 ∧ (interC A).2.2.2.2 < two64 := by
  refine ⟨?_, ?_, ?_, ?_, ?_⟩ <;>
    exact lt64_xor (lt64_xor (lt64_xor (lt64_xor (lane_lt hB _) (lane_lt hB _))
      (lane_lt hB _)) (lane_lt hB _)) (lane_lt hB _)

theorem interClist_lt {A : List Nat} (hB : Bounded A) (j : Nat) :
    (interClist A).getD j 0 < two64 := by
  obtain ⟨hc0, hc1, hc2, hc3, hc4⟩ := bounded5_interC hB
  rcases j with _ | _ | _ | _ | _ | j
  · exact hc0
  · exact hc1
  · exact hc2
  · exact hc3
  · exact hc4
  · rw [List.getD_eq_default _ _ (by
      show (interClist A).length ≤ j + 1 + 1 + 1 + 1 + 1
      rw [show (interClist A).length = 5 from rfl]
      omega)]
    exact two64_pos

theorem interDlist_lt {A : List Nat} (hB : Bounded A) (j : Nat) :
    (interDlist A).getD j 0 < two64 := by
  obtain ⟨hc0, hc1, hc2, hc3, hc4⟩ := bounded5_interC hB
  rcases j with _ | _ | _ | _ | _ | j
  · exact lt64_xor hc4 (lt64_rotl _ _)
  · exact lt64_xor hc0 (lt64_rotl _ _)
  · exact lt64_xor hc1 (lt64_rotl _ _)
  · exact lt64_xor hc2 (lt64_rotl _ _)
  · exact lt64_xor hc3 (lt64_rotl _ _)
  · rw [List.getD_eq_default _ _ (by
      show (interDlist A).length ≤ j + 1 + 1 + 1 + 1 + 1
      rw [show (interDlist A).length = 5 from rfl]
      omega)]
    exact two64_pos

theorem rc_lt (r : Nat) : round_constants.getD r 0 < two64 := by
  rcases Nat.lt_or_ge r 24 with h | h
  · rw [List.getD_eq_getElem round_constants 0
      (by rw [show round_constants.length = 24 from rfl]; exact h)]
    have hall : ∀ x ∈ round_constants, x < two64 := by decide
    exact hall _ (round_constants.getElem_mem _)
  · rw [List.getD_eq_default round_constants 0
      (by rw [show round_constants.length = 24 from rfl]; exact h)]
    exact two64_pos

theorem chiInv_plane2 (A : List Nat) (hB : Bounded A) (r : Nat) :
    chiInvPlane (lane (keccakf1600_round_intermediate_unrolled A r) 5, lane (keccakf1600_round_intermediate_unrolled A r) 6, lane (keccakf1600_round_intermediate_unrolled A r) 7, lane (keccakf1600_round_intermediate_unrolled A r) 8, lane (keccakf1600_round_intermediate_unrolled A r) 9) =
    interT2 A (interD (interC A)) := by
  show chiInvPlane (chiPlane (interT2 A (interD (interC A)))) =
    interT2 A (interD (interC A))
  exact chiPlane_inv _ (lt64_rotl _ _) (lt64_rotl _ _) (lt64_rotl _ _)
    (lt64_rotl _ _) (lt64_rotl _ _)

theorem chiInv_plane3 (A : List Nat) (hB : Bounded A) (r : Nat) :
    chiInvPlane (lane (keccakf1600_round_intermediate_unrolled A r) 10, lane (keccakf1600_round_intermediate_unrolled A r) 11, lane (keccakf1600_round_intermediate_unrolled A r) 12, lane (keccakf1600_round_intermediate_unrolled A r) 13, lane (keccakf1600_round_intermediate_unrolled A r) 14) =
    interT3 A (interD (interC A)) := by
  show chiInvPlane (chiPlane (interT3 A (interD (interC A)))) =
    interT3 A (interD (interC A))
  exact chiPlane_inv _ (lt64_rotl _ _) (lt64_rotl _ _) (lt64_rotl _ _)
    (lt64_rotl _ _) (lt64_rotl _ _)

theorem chiInv_plane4 (A : List Nat) (hB : Bounded A) (r : Nat) :
    chiInvPlane (lane (keccakf1600_round_intermediate_unrolled A r) 15, lane (keccakf1600_round_intermediate_unrolled A r) 16, lane (keccakf1600_round_intermediate_unrolled A r) 17, lane (keccakf1600_round_intermediate_unrolled A r) 18, lane (keccakf1600_round_intermediate_unrolled A r) 19) =
    interT4 A (interD (interC A)) := by
  show chiInvPlane (chiPlane (interT4 A (interD (interC A)))) =
    interT4 A (interD (interC A))
  exact chiPlane_inv _ (lt64_rotl _ _) (lt64_rotl _ _) (lt64_rotl _ _)
    (lt64_rotl _ _) (lt64_rotl _ _)

theorem chiInv_plane5 (A : List Nat) (hB : Bounded A) (r : Nat) :
    chiInvPlane (lane (keccakf1600_round_intermediate_unrolled A r) 20, lane (keccakf1600_round_intermediate_unrolled A r) 21, lane (keccakf1600_round_intermediate_unrolled A r) 22, lane (keccakf1600_round_intermediate_unrolled A r) 23, lane (keccakf1600_round_intermediate_unrolled A r) 24) =
    interT5 A (interD (interC A)) := by
  show chiInvPlane (chiPlane (interT5 A (interD (interC A)))) =
    interT5 A (interD (interC A))
  exact chiPlane_inv _ (lt64_rotl _ _) (lt64_rotl _ _) (lt64_rotl _ _)
    (lt64_rotl _ _) (lt64_rotl _ _)

theorem rhoPiInv_interT (A : List Nat) (hB : Bounded A) :
    rhoPiInv (interTstate A) = thetaImage A := by
  have h0 : lane (interTstate A) 0 = lane A 0 ^^^ (interDlist A).getD 0 0 := rfl
  have h1 : rotl_lane (lane (interTstate A) 10) 63 =
      lane A 1 ^^^ (interDlist A).getD 1 0 := by
    show rotl_lane (rotl_lane (lane A 1 ^^^ (interDlist A).getD 1 0) 1) 63 = _
    exact rotl_rotl_cancel
      (lt64_xor (lane_lt hB 1) (interDlist_lt hB 1)) (by omega)
  have h2 : rotl_lane (lane (interTstate A) 20) 2 =
      lane A 2 ^^^ (interDlist A).getD 2 0 := by
    show rotl_lane (rotl_lane (lane A 2 ^^^ (interDlist A).getD 2 0) 62) 2 = _
    exact rotl_rotl_cancel
      (lt64_xor (lane_lt hB 2) (interDlist_lt hB 2)) (by omega)
  have h3 : rotl_lane (lane (interTstate A) 5) 36 =
      lane A 3 ^^^ (interDlist A).getD 3 0 := by
    show rotl_lane (rotl_lane (lane A 3 ^^^ (interDlist A).getD 3 0) 28) 36 = _
    exact rotl_rotl_cancel
      (lt64_xor (lane_lt hB 3) (interDlist_lt hB 3)) (by omega)
  have h4 : rotl_lane (lane (interTstate A) 15) 37 =
      lane A 4 ^^^ (interDlist A).getD 4 0 := by
    show rotl_lane (rotl_lane (lane A 4 ^^^ (interDlist A).getD 4 0) 27) 37 = _
    exact rotl_rotl_cancel
      (lt64_xor (lane_lt hB 4) (interDlist_lt hB 4)) (by omega)
  have h5 : rotl_lane (lane (interTstate A) 16) 28 =
      lane A 5 ^^^ (interDlist A).getD 0 0 := by
    show rotl_lane (rotl_lane (lane A 5 ^^^ (interDlist A).getD 0 0) 36) 28 = _
    exact rotl_rotl_cancel
      (lt64_xor (lane_lt hB 5) (interDlist_lt hB 0)) (by omega)
  have h6 : rotl_lane (lane (interTstate A) 1) 20 =
      lane A 6 ^^^ (interDlist A).getD 1 0 := by
    show rotl_lane (rotl_lane (lane A 6 ^^^ (interDlist A).getD 1 0) 44) 20 = _
    exact rotl_rotl_cancel
      (lt64_xor (lane_lt hB 6) (interDlist_lt hB 1)) (by omega)
  have h7 : rotl_lane (lane (interTstate A) 11) 58 =
      lane A 7 ^^^ (interDlist A).getD 2 0 := by
    show rotl_lane (rotl_lane (lane A 7 ^^^ (interDlist A).getD 2 0) 6) 58 = _
    exact rotl_rotl_cancel
      (lt64_xor (lane_lt hB 7) (interDlist_lt hB 2)) (by omega)
  have h8 : rotl_lane (lane (interTstate A) 21) 9 =
      lane A 8 ^^^ (interDlist A).getD 3 0 := by
    show rotl_lane (rotl_lane (lane A 8 ^^^ (interDlist A).getD 3 0) 55) 9 = _
    exact rotl_rotl_cancel
      (lt64_xor (lane_lt hB 8) (interDlist_lt hB 3)) (by omega)
  have h9 : rotl_lane (lane (interTstate A) 6) 44 =
      lane A 9 ^^^ (interDlist A).getD 4 0 := by
    show rotl_lane (rotl_lane (lane A 9 ^^^ (interDlist A).getD 4 0) 20) 44 = _
    exact rotl_rotl_cancel
      (lt64_xor (lane_lt hB 9) (interDlist_lt hB 4)) (by omega)
  have h10 : rotl_lane (lane (interTstate A) 7) 61 =
      lane A 10 ^^^ (interDlist A).getD 0 0 := by
    show rotl_lane (rotl_lane (lane A 10 ^^^ (interDlist A).getD 0 0) 3) 61 = _
    exact rotl_rotl_cancel
      (lt64_xor (lane_lt hB 10) (interDlist_lt hB 0)) (by omega)
  have h11 : rotl_lane (lane (interTstate A) 17) 54 =
      lane A 11 ^^^ (interDlist A).getD 1 0 := by
    show rotl_lane (rotl_lane (lane A 11 ^^^ (interDlist A).getD 1 0) 10) 54 = _
    exact rotl_rotl_cancel
      (lt64_xor (lane_lt hB 11) (interDlist_lt hB 1)) (by omega)
  have h12 : rotl_lane (lane (interTstate A) 2) 21 =
      lane A 12 ^^^ (interDlist A).getD 2 0 := by
    show rotl_lane (rotl_lane (lane A 12 ^^^ (interDlist A).getD 2 0) 43) 21 = _
    exact rotl_rotl_cancel
      (lt64_xor (lane_lt hB 12) (interDlist_lt hB 2)) (by omega)
  have h13 : rotl_lane (lane (interTstate A) 12) 39 =
      lane A 13 ^^^ (interDlist A).getD 3 0 := by
    show rotl_lane (rotl_lane (lane A 13 ^^^ (interDlist A).getD 3 0) 25) 39 = _
    exact rotl_rotl_cancel
      (lt64_xor (lane_lt hB 13) (interDlist_lt hB 3)) (by omega)
  have h14 : rotl_lane (lane (interTstate A) 22) 25 =
      lane A 14 ^^^ (interDlist A).getD 4 0 := by
    show rotl_lane (rotl_lane (lane A 14 ^^^ (interDlist A).getD 4 0) 39) 25 = _
    exact rotl_rotl_cancel
      (lt64_xor (lane_lt hB 14) (interDlist_lt hB 4)) (by omega)
  have h15 : rotl_lane (lane (interTstate A) 23) 23 =
      lane A 15 ^^^ (interDlist A).getD 0 0 := by
    show rotl_lane (rotl_lane (lane A 15 ^^^ (interDlist A).getD 0 0) 41) 23 = _
    exact rotl_rotl_cancel
      (lt64_xor (lane_lt hB 15) (interDlist_lt hB 0)) (by omega)
  have h16 : rotl_lane (lane (interTstate A) 8) 19 =
      lane A 16 ^^^ (interDlist A).getD 1 0 := by
    show rotl_lane (rotl_lane (lane A 16 ^^^ (interDlist A).getD 1 0) 45) 19 = _
    exact rotl_rotl_cancel
      (lt64_xor (lane_lt hB 16) (interDlist_lt hB 1)) (by omega)
  have h17 : rotl_lane (lane (interTstate A) 18) 49 =
      lane A 17 ^^^ (interDlist A).getD 2 0 := by
    show rotl_lane (rotl_lane (lane A 17 ^^^ (interDlist A).getD 2 0) 15) 49 = _
    exact rotl_rotl_cancel
      (lt64_xor (lane_lt hB 17) (interDlist_lt hB 2)) (by omega)
  have h18 : rotl_lane (lane (interTstate A) 3) 43 =
      lane A 18 ^^^ (interDlist A).getD 3 0 := by
    show rotl_lane (rotl_lane (lane A 18 ^^^ (interDlist A).getD 3 0) 21) 43 = _
    exact rotl_rotl_cancel
      (lt64_xor (lane_lt hB 18) (interDlist_lt hB 3)) (by omega)
  have h19 : rotl_lane (lane (interTstate A) 13) 56 =
      lane A 19 ^^^ (interDlist A).getD 4 0 := by
    show rotl_lane (rotl_lane (lane A 19 ^^^ (interDlist A).getD 4 0) 8) 56 = _
    exact rotl_rotl_cancel
      (lt64_xor (lane_lt hB 19) (interDlist_lt hB 4)) (by omega)
  have h20 : rotl_lane (lane (interTstate A) 14) 46 =
      lane A 20 ^^^ (interDlist A).getD 0 0 := by
    show rotl_lane (rotl_lane (lane A 20 ^^^ (interDlist A).getD 0 0) 18) 46 = _
    exact rotl_rotl_cancel
      (lt64_xor (lane_lt hB 20) (interDlist_lt hB 0)) (by omega)
  have h21 : rotl_lane (lane (interTstate A) 24) 62 =
      lane A 21 ^^^ (interDlist A).getD 1 0 := by
    show rotl_lane (rotl_lane (lane A 21 ^^^ (interDlist A).getD 1 0) 2) 62 = _
    exact rotl_rotl_cancel
      (lt64_xor (lane_lt hB 21) (interDlist_lt hB 1)) (by omega)
  have h22 : rotl_lane (lane (interTstate A) 9) 3 =
      lane A 22 ^^^ (interDlist A).getD 2 0 := by
    show rotl_lane (rotl_lane (lane A 22 ^^^ (interDlist A).getD 2 0) 61) 3 = _
    exact rotl_rotl_cancel
      (lt64_xor (lane_lt hB 22) (interDlist_lt hB 2)) (by omega)
  have h23 : rotl_lane (lane (interTstate A) 19) 8 =
      lane A 23 ^^^ (interDlist A).getD 3 0 := by
    show rotl_lane (rotl_lane (lane A 23 ^^^ (interDlist A).getD 3 0) 56) 8 = _
    exact rotl_rotl_cancel
      (lt64_xor (lane_lt hB 23) (interDlist_lt hB 3)) (by omega)
  have h24 : rotl_lane (lane (interTstate A) 4) 50 =
      lane A 24 ^^^ (interDlist A).getD 4 0 := by
    show rotl_lane (rotl_lane (lane A 24 ^^^ (interDlist A).getD 4 0) 14) 50 = _
    exact rotl_rotl_cancel
      (lt64_xor (lane_lt hB 24) (interDlist_lt hB 4)) (by omega)
  unfold rhoPiInv
  rw [h0, h1, h2, h3, h4, h5, h6, h7, h8, h9, h10, h11, h12, h13, h14, h15, h16, h17, h18, h19, h20, h21, h22, h23, h24]
  rfl

theorem parityImage_col0 (A : List Nat) (hB : Bounded A) :
    (interClist (thetaImage A)).getD 0 0 =
      (interClist A).getD 0 0 ^^^ (interDlist A).getD 0 0 := by
  show (((((lane A 0 ^^^ (interDlist A).getD 0 0) ^^^ (lane A 5 ^^^ (interDlist A).getD 0 0)) ^^^ (lane A 10 ^^^ (interDlist A).getD 0 0)) ^^^ (lane A 15 ^^^ (interDlist A).getD 0 0)) ^^^ (lane A 20 ^^^ (interDlist A).getD 0 0)) =
      ((((lane A 0 ^^^ lane A 5) ^^^ lane A 10) ^^^ lane A 15) ^^^ lane A 20) ^^^ (interDlist A).getD 0 0
  apply eq64_of_testBit
    (lt64_xor (lt64_xor (lt64_xor (lt64_xor (lt64_xor (lane_lt hB 0) (interDlist_lt hB 0)) (lt64_xor (lane_lt hB 5) (interDlist_lt hB 0))) (lt64_xor (lane_lt hB 10) (interDlist_lt hB 0))) (lt64_xor (lane_lt hB 15) (interDlist_lt hB 0))) (lt64_xor (lane_lt hB 20) (interDlist_lt hB 0)))
    (lt64_xor (lt64_xor (lt64_xor (lt64_xor (lt64_xor (lane_lt hB 0) (lane_lt hB 5)) (lane_lt hB 10)) (lane_lt hB 15)) (lane_lt hB 20)) (interDlist_lt hB 0))
  intro i hi
  simp only [Nat.testBit_xor]
  generalize (lane A 0).testBit i = b0
  generalize (lane A 5).testBit i = b1
  generalize (lane A 10).testBit i = b2
  generalize (lane A 15).testBit i = b3
  generalize (lane A 20).testBit i = b4
  generalize ((interDlist A).getD 0 0).testBit i = b5
  revert b0 b1 b2 b3 b4 b5
  decide

theorem parityImage_col1 (A : List Nat) (hB : Bounded A) :
    (interClist (thetaImage A)).getD 1 0 =
      (interClist A).getD 1 0 ^^^ (interDlist A).getD 1 0 := by
  show (((((lane A 1 ^^^ (interDlist A).getD 1 0) ^^^ (lane A 6 ^^^ (interDlist A).getD 1 0)) ^^^ (lane A 11 ^^^ (interDlist A).getD 1 0)) ^^^ (lane A 16 ^^^ (interDlist A).getD 1 0)) ^^^ (lane A 21 ^^^ (interDlist A).getD 1 0)) =
      ((((lane A 1 ^^^ lane A 6) ^^^ lane A 11) ^^^ lane A 16) ^^^ lane A 21) ^^^ (interDlist A).getD 1 0
  apply eq64_of_testBit
    (lt64_xor (lt64_xor (lt64_xor (lt64_xor (lt64_xor (lane_lt hB 1) (interDlist_lt hB 1)) (lt64_xor (lane_lt hB 6) (interDlist_lt hB 1))) (lt64_xor (lane_lt hB 11) (interDlist_lt hB 1))) (lt64_xor (lane_lt hB 16) (interDlist_lt hB 1))) (lt64_xor (lane_lt hB 21) (interDlist_lt hB 1)))
    (lt64_xor (lt64_xor (lt64_xor (lt64_xor (lt64_xor (lane_lt hB 1) (lane_lt hB 6)) (lane_lt hB 11)) (lane_lt hB 16)) (lane_lt hB 21)) (interDlist_lt hB 1))
  intro i hi
  simp only [Nat.testBit_xor]
  generalize (lane A 1).testBit i = b0
  generalize (lane A 6).testBit i = b1
  generalize (lane A 11).testBit i = b2
  generalize (lane A 16).testBit i = b3
  generalize (lane A 21).testBit i = b4
  generalize ((interDlist A).getD 1 0).testBit i = b5
  revert b0 b1 b2 b3 b4 b5
  decide

theorem parityImage_col2 (A : List Nat) (hB : Bounded A) :
    (interClist (thetaImage A)).getD 2 0 =
      (interClist A).getD 2 0 ^^^ (interDlist A).getD 2 0 := by
  show (((((lane A 2 ^^^ (interDlist A).getD 2 0) ^^^ (lane A 7 ^^^ (interDlist A).getD 2 0)) ^^^ (lane A 12 ^^^ (interDlist A).getD 2 0)) ^^^ (lane A 17 ^^^ (interDlist A).getD 2 0)) ^^^ (lane A 22 ^^^ (interDlist A).getD 2 0)) =
      ((((lane A 2 ^^^ lane A 7) ^^^ lane A 12) ^^^ lane A 17) ^^^ lane A 22) ^^^ (interDlist A).getD 2 0
  apply eq64_of_testBit
    (lt64_xor (lt64_xor (lt64_xor (lt64_xor (lt64_xor (lane_lt hB 2) (interDlist_lt hB 2)) (lt64_xor (lane_lt hB 7) (interDlist_lt hB 2))) (lt64_xor (lane_lt hB 12) (interDlist_lt hB 2))) (lt64_xor (lane_lt hB 17) (interDlist_lt hB 2))) (lt64_xor (lane_lt hB 22) (interDlist_lt hB 2)))
    (lt64_xor (lt64_xor (lt64_xor (lt64_xor (lt64_xor (lane_lt hB 2) (lane_lt hB 7)) (lane_lt hB 12)) (lane_lt hB 17)) (lane_lt hB 22)) (interDlist_lt hB 2))
  intro i hi
  simp only [Nat.testBit_xor]
  generalize (lane A 2).testBit i = b0
  generalize (lane A 7).testBit i = b1
  generalize (lane A 12).testBit i = b2
  generalize (lane A 17).testBit i = b3
  generalize (lane A 22).testBit i = b4
  generalize ((interDlist A).getD 2 0).testBit i = b5
  revert b0 b1 b2 b3 b4 b5
  decide

theorem parityImage_col3 (A : List Nat) (hB : Bounded A) :
    (interClist (thetaImage A)).getD 3 0 =
      (interClist A).getD 3 0 ^^^ (interDlist A).getD 3 0 := by
  show (((((lane A 3 ^^^ (interDlist A).getD 3 0) ^^^ (lane A 8 ^^^ (interDlist A).getD 3 0)) ^^^ (lane A 13 ^^^ (interDlist A).getD 3 0)) ^^^ (lane A 18 ^^^ (interDlist A).getD 3 0)) ^^^ (lane A 23 ^^^ (interDlist A).getD 3 0)) =
      ((((lane A 3 ^^^ lane A 8) ^^^ lane A 13) ^^^ lane A 18) ^^^ lane A 23) ^^^ (interDlist A).getD 3 0
  apply eq64_of_testBit
    (lt64_xor (lt64_xor (lt64_xor (lt64_xor (lt64_xor (lane_lt hB 3) (interDlist_lt hB 3)) (lt64_xor (lane_lt hB 8) (interDlist_lt hB 3))) (lt64_xor (lane_lt hB 13) (interDlist_lt hB 3))) (lt64_xor (lane_lt hB 18) (interDlist_lt hB 3))) (lt64_xor (lane_lt hB 23) (interDlist_lt hB 3)))
    (lt64_xor (lt64_xor (lt64_xor (lt64_xor (lt64_xor (lane_lt hB 3) (lane_lt hB 8)) (lane_lt hB 13)) (lane_lt hB 18)) (lane_lt hB 23)) (interDlist_lt hB 3))
  intro i hi
  simp only [Nat.testBit_xor]
  generalize (lane A 3).testBit i = b0
  generalize (lane A 8).testBit i = b1
  generalize (lane A 13).testBit i = b2
  generalize (lane A 18).testBit i = b3
  generalize (lane A 23).testBit i = b4
  generalize ((interDlist A).getD 3 0).testBit i = b5
  revert b0 b1 b2 b3 b4 b5
  decide

theorem parityImage_col4 (A : List Nat) (hB : Bounded A) :
    (interClist (thetaImage A)).getD 4 0 =
      (interClist A).getD 4 0 ^^^ (interDlist A).getD 4 0 := by
  show (((((lane A 4 ^^^ (interDlist A).getD 4 0) ^^^ (lane A 9 ^^^ (interDlist A).getD 4 0)) ^^^ (lane A 14 ^^^ (interDlist A).getD 4 0)) ^^^ (lane A 19 ^^^ (interDlist A).getD 4 0)) ^^^ (lane A 24 ^^^ (interDlist A).getD 4 0)) =
      ((((lane A 4 ^^^ lane A 9) ^^^ lane A 14) ^^^ lane A 19) ^^^ lane A 24) ^^^ (interDlist A).getD 4 0
  apply eq64_of_testBit
    (lt64_xor (lt64_xor (lt64_xor (lt64_xor (lt64_xor (lane_lt hB 4) (interDlist_lt hB 4)) (lt64_xor (lane_lt hB 9) (interDlist_lt hB 4))) (lt64_xor (lane_lt hB 14) (interDlist_lt hB 4))) (lt64_xor (lane_lt hB 19) (interDlist_lt hB 4))) (lt64_xor (lane_lt hB 24) (interDlist_lt hB 4)))
    (lt64_xor (lt64_xor (lt64_xor (lt64_xor (lt64_xor (lane_lt hB 4) (lane_lt hB 9)) (lane_lt hB 14)) (lane_lt hB 19)) (lane_lt hB 24)) (interDlist_lt hB 4))
  intro i hi
  simp only [Nat.testBit_xor]
  generalize (lane A 4).testBit i = b0
  generalize (lane A 9).testBit i = b1
  generalize (lane A 14).testBit i = b2
  generalize (lane A 19).testBit i = b3
  generalize (lane A 24).testBit i = b4
  generalize ((interDlist A).getD 4 0).testBit i = b5
  revert b0 b1 b2 b3 b4 b5
  decide

theorem chiInv_plane1 (A : List Nat) (hB : Bounded A) (r : Nat) :
    chiInvPlane
      (lane (keccakf1600_round_intermediate_unrolled A r) 0 ^^^
        round_constants.getD r 0,
      lane (keccakf1600_round_intermediate_unrolled A r) 1,
      lane (keccakf1600_round_intermediate_unrolled A r) 2,
      lane (keccakf1600_round_intermediate_unrolled A r) 3,
      lane (keccakf1600_round_intermediate_unrolled A r) 4) =
    interT1 A (interD (interC A)) := by
  obtain ⟨hc0, hc1, hc2, hc3, hc4⟩ := bounded5_interC hB
  have hx : lane (keccakf1600_round_intermediate_unrolled A r) 0 ^^^
      round_constants.getD r 0 = (chiPlane (interT1 A (interD (interC A)))).1 := by
    show ((chiPlane (interT1 A (interD (interC A)))).1 ^^^ round_constants.getD r 0) ^^^
        round_constants.getD r 0 = (chiPlane (interT1 A (interD (interC A)))).1
    rw [Nat.xor_assoc, Nat.xor_self, Nat.xor_zero]
  rw [hx]
  show chiInvPlane (chiPlane (interT1 A (interD (interC A)))) =
    interT1 A (interD (interC A))
  exact chiPlane_inv _ (lt64_xor (lane_lt hB 0) (lt64_xor hc4 (lt64_rotl _ _)))
    (lt64_rotl _ _) (lt64_rotl _ _) (lt64_rotl _ _) (lt64_rotl _ _)

theorem chiInvState_round (A : List Nat) (hB : Bounded A) (r : Nat) :
    chiInvState (keccakf1600_round_intermediate_unrolled A r) r = interTstate A := by
  unfold chiInvState interTstate
  simp only []
  rw [chiInv_plane1 A hB r, chiInv_plane2 A hB r, chiInv_plane3 A hB r,
    chiInv_plane4 A hB r, chiInv_plane5 A hB r]

theorem parityImage_applyP (A : List Nat) (hB : Bounded A) (x : Nat) :
    (interClist (thetaImage A)).getD (x % 5) 0 =
      applyP pTheta (fun k => (interClist A).getD (k % 5) 0) x := by
  unfold applyP
  simp only [pTheta, List.map_cons, List.map_nil, List.foldr_cons, List.foldr_nil]
  rw [Nat.xor_zero, rotl_lane_zero (interClist_lt hB _),
    rotl_lane_zero (interClist_lt hB _)]
  have e1 : ((x + 0) % 5) % 5 = x % 5 := by omega
  have e4 : ((x + 4) % 5) % 5 = (x + 4) % 5 := by omega
  have e2 : ((x + 1) % 5) % 5 = (x + 1) % 5 := by omega
  rw [e1, e4, e2]
  have h5 : x % 5 = 0 ∨ x % 5 = 1 ∨ x % 5 = 2 ∨ x % 5 = 3 ∨ x % 5 = 4 := by omega
  rcases h5 with h | h | h | h | h
  · rw [h, show (x + 4) % 5 = 4 from by omega, show (x + 1) % 5 = 1 from by omega,
      parityImage_col0 A hB]
    rfl
  · rw [h, show (x + 4) % 5 = 0 from by omega, show (x + 1) % 5 = 2 from by omega,
      parityImage_col1 A hB]
    rfl
  · rw [h, show (x + 4) % 5 = 1 from by omega, show (x + 1) % 5 = 3 from by omega,
      parityImage_col2 A hB]
    rfl
  · rw [h, show (x + 4) % 5 = 2 from by omega, show (x + 1) % 5 = 4 from by omega,
      parityImage_col3 A hB]
    rfl
  · rw [h, show (x + 4) % 5 = 3 from by omega, show (x + 1) % 5 = 0 from by omega,
      parityImage_col4 A hB]
    rfl

theorem thetaInv_thetaImage (A : List Nat) (hB : Bounded A) (hlen : A.length = 25) :
    thetaInvFromImage (thetaImage A) = A := by
  have hCA : ∀ k, (fun k => (interClist A).getD (k % 5) 0) k < two64 :=
    fun k => interClist_lt hB (k % 5)
  have hrec : ∀ k : Nat,
      gInv (fun x => (interClist (thetaImage A)).getD (x % 5) 0) k =
        (interClist A).getD (k % 5) 0 := by
    intro k
    rw [gInv_congr (fun y => parityImage_applyP A hB y) k,
      gInv_g (fun k => (interClist A).getD (k % 5) 0) hCA k]
    show (interClist A).getD (k % 5 % 5) 0 = (interClist A).getD (k % 5) 0
    rw [show k % 5 % 5 = k % 5 from by omega]
  unfold thetaInvFromImage
  simp only []
  rw [hrec 0, hrec 1, hrec 2, hrec 3, hrec 4]
  have hD : interD ((interClist A).getD (0 % 5) 0, (interClist A).getD (1 % 5) 0,
      (interClist A).getD (2 % 5) 0, (interClist A).getD (3 % 5) 0,
      (interClist A).getD (4 % 5) 0) = interD (interC A) := rfl
  rw [hD]
  have hDl : [(interD (interC A)).1, (interD (interC A)).2.1,
      (interD (interC A)).2.2.1, (interD (interC A)).2.2.2.1,
      (interD (interC A)).2.2.2.2] = interDlist A := rfl
  rw [hDl]
  apply List.ext_getElem
  · simp only [List.length_map, List.length_range, hlen]
  · intro i h1 h2
    rw [List.getElem_map, List.getElem_range]
    have hi25 : i < 25 := by rw [hlen] at h2; exact h2
    have hth : lane (thetaImage A) i =
        lane A i ^^^ (interDlist A).getD (i % 5) 0 := by
      show ((List.range 25).map
        (fun p => lane A p ^^^ (interDlist A).getD (p % 5) 0)).getD i 0 =
        lane A i ^^^ (interDlist A).getD (i % 5) 0
      rw [getD_map_range, if_pos hi25]
    rw [hth, Nat.xor_assoc, Nat.xor_self, Nat.xor_zero]
    exact List.getD_eq_getElem A 0 h2

theorem interRoundInv_round (A : List Nat) (hB : Bounded A) (hlen : A.length = 25)
    (r : Nat) :
    interRoundInv (keccakf1600_round_intermediate_unrolled A r) r = A := by
  unfold interRoundInv
  rw [chiInvState_round A hB r, rhoPiInv_interT A hB, thetaInv_thetaImage A hB hlen]

theorem inter_round_bounded (A : List Nat) (hB : Bounded A) (r : Nat) :
    Bounded (keccakf1600_round_intermediate_unrolled A r) := by
  obtain ⟨hc0, hc1, hc2, hc3, hc4⟩ := bounded5_interC hB
  have hT1_0 : (interT1 A (interD (interC A))).1 < two64 :=
    lt64_xor (lane_lt hB 0) (lt64_xor hc4 (lt64_rotl _ _))
  have hT1_1 : (interT1 A (interD (interC A))).2.1 < two64 :=
    lt64_rotl _ _
  have hT1_2 : (interT1 A (interD (interC A))).2.2.1 < two64 :=
    lt64_rotl _ _
  have hT1_3 : (interT1 A (interD (interC A))).2.2.2.1 < two64 :=
    lt64_rotl _ _
  have hT1_4 : (interT1 A (interD (interC A))).2.2.2.2 < two64 :=
    lt64_rotl _ _
  have hT2_0 : (interT2 A (interD (interC A))).1 < two64 :=
    lt64_rotl _ _
  have hT2_1 : (interT2 A (interD (interC A))).2.1 < two64 :=
    lt64_rotl _ _
  have hT2_2 : (interT2 A (interD (interC A))).2.2.1 < two64 :=
    lt64_rotl _ _
  have hT2_3 : (interT2 A (interD (interC A))).2.2.2.1 < two64 :=
    lt64_rotl _ _
  have hT2_4 : (interT2 A (interD (interC A))).2.2.2.2 < two64 :=
    lt64_rotl _ _
  have hT3_0 : (interT3 A (interD (interC A))).1 < two64 :=
    lt64_rotl _ _
  have hT3_1 : (interT3 A (interD (interC A))).2.1 < two64 :=
    lt64_rotl _ _
  have hT3_2 : (interT3 A (interD (interC A))).2.2.1 < two64 :=
    lt64_rotl _ _
  have hT3_3 : (interT3 A (interD (interC A))).2.2.2.1 < two64 :=
    lt64_rotl _ _
  have hT3_4 : (interT3 A (interD (interC A))).2.2.2.2 < two64 :=
    lt64_rotl _ _
  have hT4_0 : (interT4 A (interD (interC A))).1 < two64 :=
    lt64_rotl _ _
  have hT4_1 : (interT4 A (interD (interC A))).2.1 < two64 :=
    lt64_rotl _ _
  have hT4_2 : (interT4 A (interD (interC A))).2.2.1 < two64 :=
    lt64_rotl _ _
  have hT4_3 : (interT4 A (interD (interC A))).2.2.2.1 < two64 :=
    lt64_rotl _ _
  have hT4_4 : (interT4 A (interD (interC A))).2.2.2.2 < two64 :=
    lt64_rotl _ _
  have hT5_0 : (interT5 A (interD (interC A))).1 < two64 :=
    lt64_rotl _ _
  have hT5_1 : (interT5 A (interD (interC A))).2.1 < two64 :=
    lt64_rotl _ _
  have hT5_2 : (interT5 A (interD (interC A))).2.2.1 < two64 :=
    lt64_rotl _ _
  have hT5_3 : (interT5 A (interD (interC A))).2.2.2.1 < two64 :=
    lt64_rotl _ _
  have hT5_4 : (interT5 A (interD (interC A))).2.2.2.2 < two64 :=
    lt64_rotl _ _
  have hlist : keccakf1600_round_intermediate_unrolled A r =
    [(chiPlane (interT1 A (interD (interC A)))).1 ^^^ round_constants.getD r 0,
     (chiPlane (interT1 A (interD (interC A)))).2.1,
     (chiPlane (interT1 A (interD (interC A)))).2.2.1,
     (chiPlane (interT1 A (interD (interC A)))).2.2.2.1,
     (chiPlane (interT1 A (interD (interC A)))).2.2.2.2,
     (chiPlane (interT2 A (interD (interC A)))).1,
     (chiPlane (interT2 A (interD (interC A)))).2.1,
     (chiPlane (interT2 A (interD (interC A)))).2.2.1,
     (chiPlane (interT2 A (interD (interC A)))).2.2.2.1,
     (chiPlane (interT2 A (interD (interC A)))).2.2.2.2,
     (chiPlane (interT3 A (interD (interC A)))).1,
     (chiPlane (interT3 A (interD (interC A)))).2.1,
     (chiPlane (interT3 A (interD (interC A)))).2.2.1,
     (chiPlane (interT3 A (interD (interC A)))).2.2.2.1,
     (chiPlane (interT3 A (interD (interC A)))).2.2.2.2,
     (chiPlane (interT4 A (interD (interC A)))).1,
     (chiPlane (interT4 A (interD (interC A)))).2.1,
     (chiPlane (interT4 A (interD (interC A)))).2.2.1,
     (chiPlane (interT4 A (interD (interC A)))).2.2.2.1,
     (chiPlane (interT4 A (interD (interC A)))).2.2.2.2,
     (chiPlane (interT5 A (interD (interC A)))).1,
     (chiPlane (interT5 A (interD (interC A)))).2.1,
     (chiPlane (interT5 A (interD (interC A)))).2.2.1,
     (chiPlane (interT5 A (interD (interC A)))).2.2.2.1,
     (chiPlane (interT5 A (interD (interC A)))).2.2.2.2] := rfl
  intro x hx
  rw [hlist] at hx
  simp only [List.mem_cons, List.not_mem_nil, or_false] at hx
  rcases hx with h | h | h | h | h | h | h | h | h | h | h | h | h | h | h | h | h | h | h | h | h | h | h | h | h <;> subst h
  · exact lt64_xor (lt64_xor hT1_0 (lt64_and _ hT1_2)) (rc_lt r)
  · exact lt64_xor hT1_1 (lt64_and _ hT1_3)
  · exact lt64_xor hT1_2 (lt64_and _ hT1_4)
  · exact lt64_xor hT1_3 (lt64_and _ hT1_0)
  · exact lt64_xor hT1_4 (lt64_and _ hT1_1)
  · exact lt64_xor hT2_0 (lt64_and _ hT2_2)
  · exact lt64_xor hT2_1 (lt64_and _ hT2_3)
  · exact lt64_xor hT2_2 (lt64_and _ hT2_4)
  · exact lt64_xor hT2_3 (lt64_and _ hT2_0)
  · exact lt64_xor hT2_4 (lt64_and _ hT2_1)
  · exact lt64_xor hT3_0 (lt64_and _ hT3_2)
  · exact lt64_xor hT3_1 (lt64_and _ hT3_3)
  · exact lt64_xor hT3_2 (lt64_and _ hT3_4)
  · exact lt64_xor hT3_3 (lt64_and _ hT3_0)
  · exact lt64_xor hT3_4 (lt64_and _ hT3_1)
  · exact lt64_xor hT4_0 (lt64_and _ hT4_2)
  · exact lt64_xor hT4_1 (lt64_and _ hT4_3)
  · exact lt64_xor hT4_2 (lt64_and _ hT4_4)
  · exact lt64_xor hT4_3 (lt64_and _ hT4_0)
  · exact lt64_xor hT4_4 (lt64_and _ hT4_1)
  · exact lt64_xor hT5_0 (lt64_and _ hT5_2)
  · exact lt64_xor hT5_1 (lt64_and _ hT5_3)
  · exact lt64_xor hT5_2 (lt64_and _ hT5_4)
  · exact lt64_xor hT5_3 (lt64_and _ hT5_0)
  · exact lt64_xor hT5_4 (lt64_and _ hT5_1)

theorem bounded_foldl_rounds (l : List Nat) :
    ∀ S : List Nat, Bounded S → S.length = 25 →
      Bounded (l.foldl keccakf1600_round_intermediate_unrolled S) ∧
      (l.foldl keccakf1600_round_intermediate_unrolled S).length = 25 := by
  induction l with
  | nil => exact fun S hB hl => ⟨hB, hl⟩
  | cons r rs ih =>
    intro S hB hl
    exact ih _ (inter_round_bounded S hB r) (inter_round_length S r)

theorem foldl_rounds_inj (l : List Nat) :
    ∀ S1 S2 : List Nat, Bounded S1 → Bounded S2 → S1.length = 25 →
      S2.length = 25 →
      l.foldl keccakf1600_round_intermediate_unrolled S1 =
        l.foldl keccakf1600_round_intermediate_unrolled S2 → S1 = S2 := by
  induction l with
  | nil => exact fun S1 S2 _ _ _ _ h => h
  | cons r rs ih =>
    intro S1 S2 hB1 hB2 hl1 hl2 h
    simp only [List.foldl_cons] at h
    have h2 := ih _ _ (inter_round_bounded S1 hB1 r) (inter_round_bounded S2 hB2 r)
      (inter_round_length S1 r) (inter_round_length S2 r) h
    calc S1 = interRoundInv (keccakf1600_round_intermediate_unrolled S1 r) r :=
          (interRoundInv_round S1 hB1 hl1 r).symm
      _ = interRoundInv (keccakf1600_round_intermediate_unrolled S2 r) r := by
          rw [h2]
      _ = S2 := interRoundInv_round S2 hB2 hl2 r

theorem foldl_rounds_left_inv (l : List Nat) :
    ∀ S : List Nat, Bounded S → S.length = 25 →
      l.reverse.foldl interRoundInv
        (l.foldl keccakf1600_round_intermediate_unrolled S) = S := by
  induction l with
  | nil => exact fun S _ _ => rfl
  | cons r rs ih =>
    intro S hB hl
    simp only [List.foldl_cons, List.reverse_cons, List.foldl_append,
      List.foldl_nil]
    rw [ih (keccakf1600_round_intermediate_unrolled S r)
      (inter_round_bounded S hB r) (inter_round_length S r)]
    exact interRoundInv_round S hB hl r


/-- C7: the 24-round reference permutation is a bijection on the 1600-bit
states: composing with the explicit inverse (built from the chi, rho/pi and
theta inverses) recovers every 25-lane state of 64-bit lanes, and in
particular any two distinct such states map to distinct permuted states. -/
theorem C7_permutation_bijective :
    (∀ S : List Nat, Bounded S → S.length = 25 →
      keccakf1600_state_permute_ref_inv (keccakf1600_state_permute_ref S) = S) ∧
    (∀ S1 S2 : List Nat, Bounded S1 → Bounded S2 →
      S1.length = 25 → S2.length = 25 → S1 ≠ S2 →
      keccakf1600_state_permute_ref S1 ≠ keccakf1600_state_permute_ref S2) := by
  constructor
  · intro S hB hl
    rw [permute_ref_eq_inter hl, permute_inter_eq_rounds]
    exact foldl_rounds_left_inv (List.range 24) S hB hl
  · intro S1 S2 hB1 hB2 hl1 hl2 hne heq
    apply hne
    rw [permute_ref_eq_inter hl1, permute_ref_eq_inter hl2,
      permute_inter_eq_rounds, permute_inter_eq_rounds] at heq
    exact foldl_rounds_inj (List.range 24) S1 S2 hB1 hB2 hl1 hl2 heq

/-- Witness for C7 at the zero state and the empty-message pre-permutation
state. -/
theorem C7_permutation_bijective_witness :
    (Bounded zeroState ∧ zeroState.length = 25 ∧ Bounded preE256 ∧
      preE256.length = 25 ∧ zeroState ≠ preE256) ∧
    keccakf1600_state_permute_ref zeroState ≠
      keccakf1600_state_permute_ref preE256 := by
  have hb1 : Bounded zeroState := by
    show ∀ x ∈ zeroState, x < two64
    decide
  have hb2 : Bounded preE256 := by
    show ∀ x ∈ preE256, x < two64
    decide
  exact ⟨⟨hb1, by decide, hb2, by decide, by decide⟩,
    C7_permutation_bijective.2 zeroState preE256 hb1 hb2 (by decide) (by decide)
      (by decide)⟩

/-! ## Lane-complementing mask propagation (C4 development) -/

theorem cnot_xor_left (a b : Nat) : cnot a ^^^ b = cnot (a ^^^ b) := by
  unfold cnot
  rw [Nat.xor_assoc, Nat.xor_comm ones64 b, ← Nat.xor_assoc]

theorem cnot_xor_right (a b : Nat) : a ^^^ cnot b = cnot (a ^^^ b) := by
  unfold cnot
  rw [Nat.xor_assoc]

theorem cnot_cnot (a : Nat) : cnot (cnot a) = a := by
  unfold cnot
  rw [Nat.xor_assoc, Nat.xor_self, Nat.xor_zero]

theorem cnot_cnot_xor (a b : Nat) : cnot a ^^^ cnot b = a ^^^ b := by
  rw [cnot_xor_left, cnot_xor_right, cnot_cnot]

theorem rotl_cnot {v : Nat} (hv : v < two64) {n m : Nat} (hnm : n + m = 64) :
    rotl_lane (cnot v) n = cnot (rotl_lane v n) := by
  apply eq64_of_testBit (lt64_rotl _ _) (lt64_cnot (lt64_rotl _ _))
  intro i hi
  rw [testBit_rotl_lane (lt64_cnot hv) hnm hi, testBit_cnot _ hi,
    testBit_rotl_lane hv hnm hi, testBit_cnot _ (Nat.mod_lt _ (by omega))]

theorem bounded5_interD {A : List Nat} (hB : Bounded A) :
    (interD (interC A)).1 < two64 ∧ (interD (interC A)).2.1 < two64 ∧
    (interD (interC A)).2.2.1 < two64 ∧ (interD (interC A)).2.2.2.1 < two64 ∧
    (interD (interC A)).2.2.2.2 < two64 := by
  obtain ⟨hc0, hc1, hc2, hc3, hc4⟩ := bounded5_interC hB
  exact ⟨lt64_xor hc4 (lt64_rotl _ _), lt64_xor hc0 (lt64_rotl _ _),
    lt64_xor hc1 (lt64_rotl _ _), lt64_xor hc2 (lt64_rotl _ _),
    lt64_xor hc3 (lt64_rotl _ _)⟩

theorem interC_maskP (A : List Nat) :
    interC (maskP A) =
      (cnot (interC A).1, cnot (interC A).2.1, cnot (interC A).2.2.1,
       cnot (interC A).2.2.2.1, (interC A).2.2.2.2) := by
  have e0 : lane A 0 ^^^ lane A 5 ^^^ lane A 10 ^^^ lane A 15 ^^^ cnot (lane A 20) =
      cnot (lane A 0 ^^^ lane A 5 ^^^ lane A 10 ^^^ lane A 15 ^^^ lane A 20) := by
    simp only [cnot_xor_left, cnot_xor_right, cnot_cnot]
  have e1 : cnot (lane A 1) ^^^ lane A 6 ^^^ lane A 11 ^^^ lane A 16 ^^^ lane A 21 =
      cnot (lane A 1 ^^^ lane A 6 ^^^ lane A 11 ^^^ lane A 16 ^^^ lane A 21) := by
    simp only [cnot_xor_left, cnot_xor_right, cnot_cnot]
  have e2 : cnot (lane A 2) ^^^ lane A 7 ^^^ cnot (lane A 12) ^^^ cnot (lane A 17) ^^^ lane A 22 =
      cnot (lane A 2 ^^^ lane A 7 ^^^ lane A 12 ^^^ lane A 17 ^^^ lane A 22) := by
    simp only [cnot_xor_left, cnot_xor_right, cnot_cnot]
  have e3 : lane A 3 ^^^ cnot (lane A 8) ^^^ lane A 13 ^^^ lane A 18 ^^^ lane A 23 =
      cnot (lane A 3 ^^^ lane A 8 ^^^ lane A 13 ^^^ lane A 18 ^^^ lane A 23) := by
    simp only [cnot_xor_left, cnot_xor_right, cnot_cnot]
  show (lane A 0 ^^^ lane A 5 ^^^ lane A 10 ^^^ lane A 15 ^^^ cnot (lane A 20),
        cnot (lane A 1) ^^^ lane A 6 ^^^ lane A 11 ^^^ lane A 16 ^^^ lane A 21,
        cnot (lane A 2) ^^^ lane A 7 ^^^ cnot (lane A 12) ^^^ cnot (lane A 17) ^^^ lane A 22,
        lane A 3 ^^^ cnot (lane A 8) ^^^ lane A 13 ^^^ lane A 18 ^^^ lane A 23,
        lane A 4 ^^^ lane A 9 ^^^ lane A 14 ^^^ lane A 19 ^^^ lane A 24) =
       (cnot (lane A 0 ^^^ lane A 5 ^^^ lane A 10 ^^^ lane A 15 ^^^ lane A 20),
        cnot (lane A 1 ^^^ lane A 6 ^^^ lane A 11 ^^^ lane A 16 ^^^ lane A 21),
        cnot (lane A 2 ^^^ lane A 7 ^^^ lane A 12 ^^^ lane A 17 ^^^ lane A 22),
        cnot (lane A 3 ^^^ lane A 8 ^^^ lane A 13 ^^^ lane A 18 ^^^ lane A 23),
        lane A 4 ^^^ lane A 9 ^^^ lane A 14 ^^^ lane A 19 ^^^ lane A 24)
  rw [e0, e1, e2, e3]

theorem interD_maskP (A : List Nat) (hB : Bounded A) :
    interD (interC (maskP A)) =
      (cnot (interD (interC A)).1, (interD (interC A)).2.1, (interD (interC A)).2.2.1,
       cnot (interD (interC A)).2.2.2.1, (interD (interC A)).2.2.2.2) := by
  obtain ⟨hc0, hc1, hc2, hc3, hc4⟩ := bounded5_interC hB
  rw [interC_maskP A]
  have e0 : (interC A).2.2.2.2 ^^^ rotl_lane (cnot (interC A).2.1) 1 =
      cnot ((interC A).2.2.2.2 ^^^ rotl_lane (interC A).2.1 1) := by
    rw [rotl_cnot hc1 (show 1 + 63 = 64 from rfl)]
    exact cnot_xor_right _ _
  have e1 : cnot (interC A).1 ^^^ rotl_lane (cnot (interC A).2.2.1) 1 =
      (interC A).1 ^^^ rotl_lane (interC A).2.2.1 1 := by
    rw [rotl_cnot hc2 (show 1 + 63 = 64 from rfl)]
    exact cnot_cnot_xor _ _
  have e2 : cnot (interC A).2.1 ^^^ rotl_lane (cnot (interC A).2.2.2.1) 1 =
      (interC A).2.1 ^^^ rotl_lane (interC A).2.2.2.1 1 := by
    rw [rotl_cnot hc3 (show 1 + 63 = 64 from rfl)]
    exact cnot_cnot_xor _ _
  have e3 : cnot (interC A).2.2.1 ^^^ rotl_lane (interC A).2.2.2.2 1 =
      cnot ((interC A).2.2.1 ^^^ rotl_lane (interC A).2.2.2.2 1) := by
    exact cnot_xor_left _ _
  have e4 : cnot (interC A).2.2.2.1 ^^^ rotl_lane (cnot (interC A).1) 1 =
      (interC A).2.2.2.1 ^^^ rotl_lane (interC A).1 1 := by
    rw [rotl_cnot hc0 (show 1 + 63 = 64 from rfl)]
    exact cnot_cnot_xor _ _
  show ((interC A).2.2.2.2 ^^^ rotl_lane (cnot (interC A).2.1) 1,
        cnot (interC A).1 ^^^ rotl_lane (cnot (interC A).2.2.1) 1,
        cnot (interC A).2.1 ^^^ rotl_lane (cnot (interC A).2.2.2.1) 1,
        cnot (interC A).2.2.1 ^^^ rotl_lane (interC A).2.2.2.2 1,
        cnot (interC A).2.2.2.1 ^^^ rotl_lane (cnot (interC A).1) 1) =
       (cnot ((interC A).2.2.2.2 ^^^ rotl_lane (interC A).2.1 1),
        (interC A).1 ^^^ rotl_lane (interC A).2.2.1 1,
        (interC A).2.1 ^^^ rotl_lane (interC A).2.2.2.1 1,
        cnot ((interC A).2.2.1 ^^^ rotl_lane (interC A).2.2.2.2 1),
        (interC A).2.2.2.1 ^^^ rotl_lane (interC A).1 1)
  rw [e0, e1, e2, e3, e4]

theorem interT1_maskP (A : List Nat) (hB : Bounded A) :
    interT1 (maskP A) (interD (interC (maskP A))) =
      (cnot (interT1 A (interD (interC A))).1,
       (interT1 A (interD (interC A))).2.1,
       cnot (interT1 A (interD (interC A))).2.2.1,
       cnot (interT1 A (interD (interC A))).2.2.2.1,
       (interT1 A (interD (interC A))).2.2.2.2) := by
  obtain ⟨hd0, hd1, hd2, hd3, hd4⟩ := bounded5_interD hB
  rw [interD_maskP A hB]
  have e0 : lane A 0 ^^^ cnot (interD (interC A)).1 =
      cnot (lane A 0 ^^^ (interD (interC A)).1) := by
    exact cnot_xor_right _ _
  have e2 : rotl_lane (cnot (lane A 12) ^^^ (interD (interC A)).2.2.1) 43 =
      cnot (rotl_lane (lane A 12 ^^^ (interD (interC A)).2.2.1) 43) := by
    rw [cnot_xor_left]
    exact rotl_cnot (lt64_xor (lane_lt hB 12) hd2) (show 43 + 21 = 64 from rfl)
  have e3 : rotl_lane (lane A 18 ^^^ cnot (interD (interC A)).2.2.2.1) 21 =
      cnot (rotl_lane (lane A 18 ^^^ (interD (interC A)).2.2.2.1) 21) := by
    rw [cnot_xor_right]
    exact rotl_cnot (lt64_xor (lane_lt hB 18) hd3) (show 21 + 43 = 64 from rfl)
  show (lane A 0 ^^^ cnot (interD (interC A)).1,
        rotl_lane (lane A 6 ^^^ (interD (interC A)).2.1) 44,
        rotl_lane (cnot (lane A 12) ^^^ (interD (interC A)).2.2.1) 43,
        rotl_lane (lane A 18 ^^^ cnot (interD (interC A)).2.2.2.1) 21,
        rotl_lane (lane A 24 ^^^ (interD (interC A)).2.2.2.2) 14) =
       (cnot (lane A 0 ^^^ (interD (interC A)).1),
        rotl_lane (lane A 6 ^^^ (interD (interC A)).2.1) 44,
        cnot (rotl_lane (lane A 12 ^^^ (interD (interC A)).2.2.1) 43),
        cnot (rotl_lane (lane A 18 ^^^ (interD (interC A)).2.2.2.1) 21),
        rotl_lane (lane A 24 ^^^ (interD (interC A)).2.2.2.2) 14)
  rw [e0, e2, e3]

theorem interT2_maskP (A : List Nat) (hB : Bounded A) :
    interT2 (maskP A) (interD (interC (maskP A))) =
      (cnot (interT2 A (interD (interC A))).1,
       (interT2 A (interD (interC A))).2.1,
       cnot (interT2 A (interD (interC A))).2.2.1,
       (interT2 A (interD (interC A))).2.2.2.1,
       (interT2 A (interD (interC A))).2.2.2.2) := by
  obtain ⟨hd0, hd1, hd2, hd3, hd4⟩ := bounded5_interD hB
  rw [interD_maskP A hB]
  have e0 : rotl_lane (lane A 3 ^^^ cnot (interD (interC A)).2.2.2.1) 28 =
      cnot (rotl_lane (lane A 3 ^^^ (interD (interC A)).2.2.2.1) 28) := by
    rw [cnot_xor_right]
    exact rotl_cnot (lt64_xor (lane_lt hB 3) hd3) (show 28 + 36 = 64 from rfl)
  have e2 : rotl_lane (lane A 10 ^^^ cnot (interD (interC A)).1) 3 =
      cnot (rotl_lane (lane A 10 ^^^ (interD (interC A)).1) 3) := by
    rw [cnot_xor_right]
    exact rotl_cnot (lt64_xor (lane_lt hB 10) hd0) (show 3 + 61 = 64 from rfl)
  show (rotl_lane (lane A 3 ^^^ cnot (interD (interC A)).2.2.2.1) 28,
        rotl_lane (lane A 9 ^^^ (interD (interC A)).2.2.2.2) 20,
        rotl_lane (lane A 10 ^^^ cnot (interD (interC A)).1) 3,
        rotl_lane (lane A 16 ^^^ (interD (interC A)).2.1) 45,
        rotl_lane (lane A 22 ^^^ (interD (interC A)).2.2.1) 61) =
       (cnot (rotl_lane (lane A 3 ^^^ (interD (interC A)).2.2.2.1) 28),
        rotl_lane (lane A 9 ^^^ (interD (interC A)).2.2.2.2) 20,
        cnot (rotl_lane (lane A 10 ^^^ (interD (interC A)).1) 3),
        rotl_lane (lane A 16 ^^^ (interD (interC A)).2.1) 45,
        rotl_lane (lane A 22 ^^^ (interD (interC A)).2.2.1) 61)
  rw [e0, e2]

theorem interT3_maskP (A : List Nat) (hB : Bounded A) :
    interT3 (maskP A) (interD (interC (maskP A))) =
      (cnot (interT3 A (interD (interC A))).1,
       (interT3 A (interD (interC A))).2.1,
       cnot (interT3 A (interD (interC A))).2.2.1,
       (interT3 A (interD (interC A))).2.2.2.1,
       (interT3 A (interD (interC A))).2.2.2.2) := by
  obtain ⟨hd0, hd1, hd2, hd3, hd4⟩ := bounded5_interD hB
  rw [interD_maskP A hB]
  have e0 : rotl_lane (cnot (lane A 1) ^^^ (interD (interC A)).2.1) 1 =
      cnot (rotl_lane (lane A 1 ^^^ (interD (interC A)).2.1) 1) := by
    rw [cnot_xor_left]
    exact rotl_cnot (lt64_xor (lane_lt hB 1) hd1) (show 1 + 63 = 64 from rfl)
  have e2 : rotl_lane (lane A 13 ^^^ cnot (interD (interC A)).2.2.2.1) 25 =
      cnot (rotl_lane (lane A 13 ^^^ (interD (interC A)).2.2.2.1) 25) := by
    rw [cnot_xor_right]
    exact rotl_cnot (lt64_xor (lane_lt hB 13) hd3) (show 25 + 39 = 64 from rfl)
  have e4 : rotl_lane (cnot (lane A 20) ^^^ cnot (interD (interC A)).1) 18 =
      rotl_lane (lane A 20 ^^^ (interD (interC A)).1) 18 := by
    rw [cnot_cnot_xor]
  show (rotl_lane (cnot (lane A 1) ^^^ (interD (interC A)).2.1) 1,
        rotl_lane (lane A 7 ^^^ (interD (interC A)).2.2.1) 6,
        rotl_lane (lane A 13 ^^^ cnot (interD (interC A)).2.2.2.1) 25,
        rotl_lane (lane A 19 ^^^ (interD (interC A)).2.2.2.2) 8,
        rotl_lane (cnot (lane A 20) ^^^ cnot (interD (interC A)).1) 18) =
       (cnot (rotl_lane (lane A 1 ^^^ (interD (interC A)).2.1) 1),
        rotl_lane (lane A 7 ^^^ (interD (interC A)).2.2.1) 6,
        cnot (rotl_lane (lane A 13 ^^^ (interD (interC A)).2.2.2.1) 25),
        rotl_lane (lane A 19 ^^^ (interD (interC A)).2.2.2.2) 8,
        rotl_lane (lane A 20 ^^^ (interD (interC A)).1) 18)
  rw [e0, e2, e4]

theorem interT4_maskP (A : List Nat) (hB : Bounded A) :
    interT4 (maskP A) (interD (interC (maskP A))) =
      ((interT4 A (interD (interC A))).1,
       cnot (interT4 A (interD (interC A))).2.1,
       (interT4 A (interD (interC A))).2.2.1,
       cnot (interT4 A (interD (interC A))).2.2.2.1,
       cnot (interT4 A (interD (interC A))).2.2.2.2) := by
  obtain ⟨hd0, hd1, hd2, hd3, hd4⟩ := bounded5_interD hB
  rw [interD_maskP A hB]
  have e1 : rotl_lane (lane A 5 ^^^ cnot (interD (interC A)).1) 36 =
      cnot (rotl_lane (lane A 5 ^^^ (interD (interC A)).1) 36) := by
    rw [cnot_xor_right]
    exact rotl_cnot (lt64_xor (lane_lt hB 5) hd0) (show 36 + 28 = 64 from rfl)
  have e3 : rotl_lane (cnot (lane A 17) ^^^ (interD (interC A)).2.2.1) 15 =
      cnot (rotl_lane (lane A 17 ^^^ (interD (interC A)).2.2.1) 15) := by
    rw [cnot_xor_left]
    exact rotl_cnot (lt64_xor (lane_lt hB 17) hd2) (show 15 + 49 = 64 from rfl)
  have e4 : rotl_lane (lane A 23 ^^^ cnot (interD (interC A)).2.2.2.1) 56 =
      cnot (rotl_lane (lane A 23 ^^^ (interD (interC A)).2.2.2.1) 56) := by
    rw [cnot_xor_right]
    exact rotl_cnot (lt64_xor (lane_lt hB 23) hd3) (show 56 + 8 = 64 from rfl)
  show (rotl_lane (lane A 4 ^^^ (interD (interC A)).2.2.2.2) 27,
        rotl_lane (lane A 5 ^^^ cnot (interD (interC A)).1) 36,
        rotl_lane (lane A 11 ^^^ (interD (interC A)).2.1) 10,
        rotl_lane (cnot (lane A 17) ^^^ (interD (interC A)).2.2.1) 15,
        rotl_lane (lane A 23 ^^^ cnot (interD (interC A)).2.2.2.1) 56) =
       (rotl_lane (lane A 4 ^^^ (interD (interC A)).2.2.2.2) 27,
        cnot (rotl_lane (lane A 5 ^^^ (interD (interC A)).1) 36),
        rotl_lane (lane A 11 ^^^ (interD (interC A)).2.1) 10,
        cnot (rotl_lane (lane A 17 ^^^ (interD (interC A)).2.2.1) 15),
        cnot (rotl_lane (lane A 23 ^^^ (interD (interC A)).2.2.2.1) 56))
  rw [e1, e3, e4]

theorem interT5_maskP (A : List Nat) (hB : Bounded A) :
    interT5 (maskP A) (interD (interC (maskP A))) =
      (cnot (interT5 A (interD (interC A))).1,
       (interT5 A (interD (interC A))).2.1,
       (interT5 A (interD (interC A))).2.2.1,
       cnot (interT5 A (interD (interC A))).2.2.2.1,
       (interT5 A (interD (interC A))).2.2.2.2) := by
  obtain ⟨hd0, hd1, hd2, hd3, hd4⟩ := bounded5_interD hB
  rw [interD_maskP A hB]
  have e0 : rotl_lane (cnot (lane A 2) ^^^ (interD (interC A)).2.2.1) 62 =
      cnot (rotl_lane (lane A 2 ^^^ (interD (interC A)).2.2.1) 62) := by
    rw [cnot_xor_left]
    exact rotl_cnot (lt64_xor (lane_lt hB 2) hd2) (show 62 + 2 = 64 from rfl)
  have e1 : rotl_lane (cnot (lane A 8) ^^^ cnot (interD (interC A)).2.2.2.1) 55 =
      rotl_lane (lane A 8 ^^^ (interD (interC A)).2.2.2.1) 55 := by
    rw [cnot_cnot_xor]
  have e3 : rotl_lane (lane A 15 ^^^ cnot (interD (interC A)).1) 41 =
      cnot (rotl_lane (lane A 15 ^^^ (interD (interC A)).1) 41) := by
    rw [cnot_xor_right]
    exact rotl_cnot (lt64_xor (lane_lt hB 15) hd0) (show 41 + 23 = 64 from rfl)
  show (rotl_lane (cnot (lane A 2) ^^^ (interD (interC A)).2.2.1) 62,
        rotl_lane (cnot (lane A 8) ^^^ cnot (interD (interC A)).2.2.2.1) 55,
        rotl_lane (lane A 14 ^^^ (interD (interC A)).2.2.2.2) 39,
        rotl_lane (lane A 15 ^^^ cnot (interD (interC A)).1) 41,
        rotl_lane (lane A 21 ^^^ (interD (interC A)).2.1) 2) =
       (cnot (rotl_lane (lane A 2 ^^^ (interD (interC A)).2.2.1) 62),
        rotl_lane (lane A 8 ^^^ (interD (interC A)).2.2.2.1) 55,
        rotl_lane (lane A 14 ^^^ (interD (interC A)).2.2.2.2) 39,
        cnot (rotl_lane (lane A 15 ^^^ (interD (interC A)).1) 41),
        rotl_lane (lane A 21 ^^^ (interD (interC A)).2.1) 2)
  rw [e0, e1, e3]

theorem chiLC1_mask (T : Nat × Nat × Nat × Nat × Nat)
    (h0 : T.1 < two64) (h1 : T.2.1 < two64) (h2 : T.2.2.1 < two64)
    (h3 : T.2.2.2.1 < two64) (h4 : T.2.2.2.2 < two64) :
    chiPlaneLC1 (cnot T.1, T.2.1, cnot T.2.2.1, cnot T.2.2.2.1, T.2.2.2.2) =
      ((chiPlane T).1, cnot (chiPlane T).2.1, cnot (chiPlane T).2.2.1, (chiPlane T).2.2.2.1, (chiPlane T).2.2.2.2) := by
  obtain ⟨t0, t1, t2, t3, t4⟩ := T
  have e0 : cnot t0 ^^^ (t1 ||| cnot t2) = t0 ^^^ (cnot t1 &&& t2) := by
    apply eq64_of_testBit
      (by repeat first
            | exact h0 | exact h1 | exact h2 | exact h3 | exact h4
            | apply lt64_cnot | apply lt64_xor | apply lt64_and | apply lt64_or
            | exact ones64_lt)
      (by repeat first
            | exact h0 | exact h1 | exact h2 | exact h3 | exact h4
            | apply lt64_cnot | apply lt64_xor | apply lt64_and | apply lt64_or
            | exact ones64_lt)
    intro i hi
    simp only [Nat.testBit_xor, Nat.testBit_and, Nat.testBit_or, testBit_cnot _ hi]
    generalize t0.testBit i = b0
    generalize t1.testBit i = b1
    generalize t2.testBit i = b2
    generalize t3.testBit i = b3
    generalize t4.testBit i = b4
    revert b0 b1 b2 b3 b4
    decide
  have e1 : t1 ^^^ (cnot (cnot t2) ||| cnot t3) = cnot (t1 ^^^ (cnot t2 &&& t3)) := by
    apply eq64_of_testBit
      (by repeat first
            | exact h0 | exact h1 | exact h2 | exact h3 | exact h4
            | apply lt64_cnot | apply lt64_xor | apply lt64_and | apply lt64_or
            | exact ones64_lt)
      (by repeat first
            | exact h0 | exact h1 | exact h2 | exact h3 | exact h4
            | apply lt64_cnot | apply lt64_xor | apply lt64_and | apply lt64_or
            | exact ones64_lt)
    intro i hi
    simp only [Nat.testBit_xor, Nat.testBit_and, Nat.testBit_or, testBit_cnot _ hi]
    generalize t0.testBit i = b0
    generalize t1.testBit i = b1
    generalize t2.testBit i = b2
    generalize t3.testBit i = b3
    generalize t4.testBit i = b4
    revert b0 b1 b2 b3 b4
    decide
  have e2 : cnot t2 ^^^ (cnot t3 &&& t4) = cnot (t2 ^^^ (cnot t3 &&& t4)) := by
    apply eq64_of_testBit
      (by repeat first
            | exact h0 | exact h1 | exact h2 | exact h3 | exact h4
            | apply lt64_cnot | apply lt64_xor | apply lt64_and | apply lt64_or
            | exact ones64_lt)
      (by repeat first
            | exact h0 | exact h1 | exact h2 | exact h3 | exact h4
            | apply lt64_cnot | apply lt64_xor | apply lt64_and | apply lt64_or
            | exact ones64_lt)
    intro i hi
    simp only [Nat.testBit_xor, Nat.testBit_and, Nat.testBit_or, testBit_cnot _ hi]
    generalize t0.testBit i = b0
    generalize t1.testBit i = b1
    generalize t2.testBit i = b2
    generalize t3.testBit i = b3
    generalize t4.testBit i = b4
    revert b0 b1 b2 b3 b4
    decide
  have e3 : cnot t3 ^^^ (t4 ||| cnot t0) = t3 ^^^ (cnot t4 &&& t0) := by
    apply eq64_of_testBit
      (by repeat first
            | exact h0 | exact h1 | exact h2 | exact h3 | exact h4
            | apply lt64_cnot | apply lt64_xor | apply lt64_and | apply lt64_or
            | exact ones64_lt)
      (by repeat first
            | exact h0 | exact h1 | exact h2 | exact h3 | exact h4
            | apply lt64_cnot | apply lt64_xor | apply lt64_and | apply lt64_or
            | exact ones64_lt)
    intro i hi
    simp only [Nat.testBit_xor, Nat.testBit_and, Nat.testBit_or, testBit_cnot _ hi]
    generalize t0.testBit i = b0
    generalize t1.testBit i = b1
    generalize t2.testBit i = b2
    generalize t3.testBit i = b3
    generalize t4.testBit i = b4
    revert b0 b1 b2 b3 b4
    decide
  show (cnot t0 ^^^ (t1 ||| cnot t2),
        t1 ^^^ (cnot (cnot t2) ||| cnot t3),
        cnot t2 ^^^ (cnot t3 &&& t4),
        cnot t3 ^^^ (t4 ||| cnot t0),
        t4 ^^^ (cnot t0 &&& t1)) =
       (t0 ^^^ (cnot t1 &&& t2),
        cnot (t1 ^^^ (cnot t2 &&& t3)),
        cnot (t2 ^^^ (cnot t3 &&& t4)),
        t3 ^^^ (cnot t4 &&& t0),
        t4 ^^^ (cnot t0 &&& t1))
  rw [e0, e1, e2, e3]

theorem chiLC2_mask (T : Nat × Nat × Nat × Nat × Nat)
    (h0 : T.1 < two64) (h1 : T.2.1 < two64) (h2 : T.2.2.1 < two64)
    (h3 : T.2.2.2.1 < two64) (h4 : T.2.2.2.2 < two64) :
    chiPlaneLC2 (cnot T.1, T.2.1, cnot T.2.2.1, T.2.2.2.1, T.2.2.2.2) =
      ((chiPlane T).1, (chiPlane T).2.1, (chiPlane T).2.2.1, cnot (chiPlane T).2.2.2.1, (chiPlane T).2.2.2.2) := by
  obtain ⟨t0, t1, t2, t3, t4⟩ := T
  have e0 : cnot t0 ^^^ (t1 ||| cnot t2) = t0 ^^^ (cnot t1 &&& t2) := by
    apply eq64_of_testBit
      (by repeat first
            | exact h0 | exact h1 | exact h2 | exact h3 | exact h4
            | apply lt64_cnot | apply lt64_xor | apply lt64_and | apply lt64_or
            | exact ones64_lt)
      (by repeat first
            | exact h0 | exact h1 | exact h2 | exact h3 | exact h4
            | apply lt64_cnot | apply lt64_xor | apply lt64_and | apply lt64_or
            | exact ones64_lt)
    intro i hi
    simp only [Nat.testBit_xor, Nat.testBit_and, Nat.testBit_or, testBit_cnot _ hi]
    generalize t0.testBit i = b0
    generalize t1.testBit i = b1
    generalize t2.testBit i = b2
    generalize t3.testBit i = b3
    generalize t4.testBit i = b4
    revert b0 b1 b2 b3 b4
    decide
  have e2 : cnot t2 ^^^ (t3 ||| cnot t4) = t2 ^^^ (cnot t3 &&& t4) := by
    apply eq64_of_testBit
      (by repeat first
            | exact h0 | exact h1 | exact h2 | exact h3 | exact h4
            | apply lt64_cnot | apply lt64_xor | apply lt64_and | apply lt64_or
            | exact ones64_lt)
      (by repeat first
            | exact h0 | exact h1 | exact h2 | exact h3 | exact h4
            | apply lt64_cnot | apply lt64_xor | apply lt64_and | apply lt64_or
            | exact ones64_lt)
    intro i hi
    simp only [Nat.testBit_xor, Nat.testBit_and, Nat.testBit_or, testBit_cnot _ hi]
    generalize t0.testBit i = b0
    generalize t1.testBit i = b1
    generalize t2.testBit i = b2
    generalize t3.testBit i = b3
    generalize t4.testBit i = b4
    revert b0 b1 b2 b3 b4
    decide
  have e3 : t3 ^^^ (t4 ||| cnot t0) = cnot (t3 ^^^ (cnot t4 &&& t0)) := by
    apply eq64_of_testBit
      (by repeat first
            | exact h0 | exact h1 | exact h2 | exact h3 | exact h4
            | apply lt64_cnot | apply lt64_xor | apply lt64_and | apply lt64_or
            | exact ones64_lt)
      (by repeat first
            | exact h0 | exact h1 | exact h2 | exact h3 | exact h4
            | apply lt64_cnot | apply lt64_xor | apply lt64_and | apply lt64_or
            | exact ones64_lt)
    intro i hi
    simp only [Nat.testBit_xor, Nat.testBit_and, Nat.testBit_or, testBit_cnot _ hi]
    generalize t0.testBit i = b0
    generalize t1.testBit i = b1
    generalize t2.testBit i = b2
    generalize t3.testBit i = b3
    generalize t4.testBit i = b4
    revert b0 b1 b2 b3 b4
    decide
  show (cnot t0 ^^^ (t1 ||| cnot t2),
        t1 ^^^ (cnot t2 &&& t3),
        cnot t2 ^^^ (t3 ||| cnot t4),
        t3 ^^^ (t4 ||| cnot t0),
        t4 ^^^ (cnot t0 &&& t1)) =
       (t0 ^^^ (cnot t1 &&& t2),
        t1 ^^^ (cnot t2 &&& t3),
        t2 ^^^ (cnot t3 &&& t4),
        cnot (t3 ^^^ (cnot t4 &&& t0)),
        t4 ^^^ (cnot t0 &&& t1))
  rw [e0, e2, e3]

theorem chiLC3_mask (T : Nat × Nat × Nat × Nat × Nat)
    (h0 : T.1 < two64) (h1 : T.2.1 < two64) (h2 : T.2.2.1 < two64)
    (h3 : T.2.2.2.1 < two64) (h4 : T.2.2.2.2 < two64) :
    chiPlaneLC3 (cnot T.1, T.2.1, cnot T.2.2.1, T.2.2.2.1, T.2.2.2.2) =
      ((chiPlane T).1, (chiPlane T).2.1, cnot (chiPlane T).2.2.1, (chiPlane T).2.2.2.1, (chiPlane T).2.2.2.2) := by
  obtain ⟨t0, t1, t2, t3, t4⟩ := T
  have e0 : cnot t0 ^^^ (t1 ||| cnot t2) = t0 ^^^ (cnot t1 &&& t2) := by
    apply eq64_of_testBit
      (by repeat first
            | exact h0 | exact h1 | exact h2 | exact h3 | exact h4
            | apply lt64_cnot | apply lt64_xor | apply lt64_and | apply lt64_or
            | exact ones64_lt)
      (by repeat first
            | exact h0 | exact h1 | exact h2 | exact h3 | exact h4
            | apply lt64_cnot | apply lt64_xor | apply lt64_and | apply lt64_or
            | exact ones64_lt)
    intro i hi
    simp only [Nat.testBit_xor, Nat.testBit_and, Nat.testBit_or, testBit_cnot _ hi]
    generalize t0.testBit i = b0
    generalize t1.testBit i = b1
    generalize t2.testBit i = b2
    generalize t3.testBit i = b3
    generalize t4.testBit i = b4
    revert b0 b1 b2 b3 b4
    decide
  have e2 : cnot t2 ^^^ (cnot t3 &&& t4) = cnot (t2 ^^^ (cnot t3 &&& t4)) := by
    apply eq64_of_testBit
      (by repeat first
            | exact h0 | exact h1 | exact h2 | exact h3 | exact h4
            | apply lt64_cnot | apply lt64_xor | apply lt64_and | apply lt64_or
            | exact ones64_lt)
      (by repeat first
            | exact h0 | exact h1 | exact h2 | exact h3 | exact h4
            | apply lt64_cnot | apply lt64_xor | apply lt64_and | apply lt64_or
            | exact ones64_lt)
    intro i hi
    simp only [Nat.testBit_xor, Nat.testBit_and, Nat.testBit_or, testBit_cnot _ hi]
    generalize t0.testBit i = b0
    generalize t1.testBit i = b1
    generalize t2.testBit i = b2
    generalize t3.testBit i = b3
    generalize t4.testBit i = b4
    revert b0 b1 b2 b3 b4
    decide
  have e3 : cnot t3 ^^^ (t4 ||| cnot t0) = t3 ^^^ (cnot t4 &&& t0) := by
    apply eq64_of_testBit
      (by repeat first
            | exact h0 | exact h1 | exact h2 | exact h3 | exact h4
            | apply lt64_cnot | apply lt64_xor | apply lt64_and | apply lt64_or
            | exact ones64_lt)
      (by repeat first
            | exact h0 | exact h1 | exact h2 | exact h3 | exact h4
            | apply lt64_cnot | apply lt64_xor | apply lt64_and | apply lt64_or
            | exact ones64_lt)
    intro i hi
    simp only [Nat.testBit_xor, Nat.testBit_and, Nat.testBit_or, testBit_cnot _ hi]
    generalize t0.testBit i = b0
    generalize t1.testBit i = b1
    generalize t2.testBit i = b2
    generalize t3.testBit i = b3
    generalize t4.testBit i = b4
    revert b0 b1 b2 b3 b4
    decide
  show (cnot t0 ^^^ (t1 ||| cnot t2),
        t1 ^^^ (cnot t2 &&& t3),
        cnot t2 ^^^ (cnot t3 &&& t4),
        cnot t3 ^^^ (t4 ||| cnot t0),
        t4 ^^^ (cnot t0 &&& t1)) =
       (t0 ^^^ (cnot t1 &&& t2),
        t1 ^^^ (cnot t2 &&& t3),
        cnot (t2 ^^^ (cnot t3 &&& t4)),
        t3 ^^^ (cnot t4 &&& t0),
        t4 ^^^ (cnot t0 &&& t1))
  rw [e0, e2, e3]

theorem chiLC4_mask (T : Nat × Nat × Nat × Nat × Nat)
    (h0 : T.1 < two64) (h1 : T.2.1 < two64) (h2 : T.2.2.1 < two64)
    (h3 : T.2.2.2.1 < two64) (h4 : T.2.2.2.2 < two64) :
    chiPlaneLC4 (T.1, cnot T.2.1, T.2.2.1, cnot T.2.2.2.1, cnot T.2.2.2.2) =
      ((chiPlane T).1, (chiPlane T).2.1, cnot (chiPlane T).2.2.1, (chiPlane T).2.2.2.1, (chiPlane T).2.2.2.2) := by
  obtain ⟨t0, t1, t2, t3, t4⟩ := T
  have e1 : cnot t1 ^^^ (t2 ||| cnot t3) = t1 ^^^ (cnot t2 &&& t3) := by
    apply eq64_of_testBit
      (by repeat first
            | exact h0 | exact h1 | exact h2 | exact h3 | exact h4
            | apply lt64_cnot | apply lt64_xor | apply lt64_and | apply lt64_or
            | exact ones64_lt)
      (by repeat first
            | exact h0 | exact h1 | exact h2 | exact h3 | exact h4
            | apply lt64_cnot | apply lt64_xor | apply lt64_and | apply lt64_or
            | exact ones64_lt)
    intro i hi
    simp only [Nat.testBit_xor, Nat.testBit_and, Nat.testBit_or, testBit_cnot _ hi]
    generalize t0.testBit i = b0
    generalize t1.testBit i = b1
    generalize t2.testBit i = b2
    generalize t3.testBit i = b3
    generalize t4.testBit i = b4
    revert b0 b1 b2 b3 b4
    decide
  have e2 : t2 ^^^ (cnot (cnot t3) ||| cnot t4) = cnot (t2 ^^^ (cnot t3 &&& t4)) := by
    apply eq64_of_testBit
      (by repeat first
            | exact h0 | exact h1 | exact h2 | exact h3 | exact h4
            | apply lt64_cnot | apply lt64_xor | apply lt64_and | apply lt64_or
            | exact ones64_lt)
      (by repeat first
            | exact h0 | exact h1 | exact h2 | exact h3 | exact h4
            | apply lt64_cnot | apply lt64_xor | apply lt64_and | apply lt64_or
            | exact ones64_lt)
    intro i hi
    simp only [Nat.testBit_xor, Nat.testBit_and, Nat.testBit_or, testBit_cnot _ hi]
    generalize t0.testBit i = b0
    generalize t1.testBit i = b1
    generalize t2.testBit i = b2
    generalize t3.testBit i = b3
    generalize t4.testBit i = b4
    revert b0 b1 b2 b3 b4
    decide
  have e3 : cnot (cnot t3) ^^^ (cnot t4 &&& t0) = t3 ^^^ (cnot t4 &&& t0) := by
    apply eq64_of_testBit
      (by repeat first
            | exact h0 | exact h1 | exact h2 | exact h3 | exact h4
            | apply lt64_cnot | apply lt64_xor | apply lt64_and | apply lt64_or
            | exact ones64_lt)
      (by repeat first
            | exact h0 | exact h1 | exact h2 | exact h3 | exact h4
            | apply lt64_cnot | apply lt64_xor | apply lt64_and | apply lt64_or
            | exact ones64_lt)
    intro i hi
    simp only [Nat.testBit_xor, Nat.testBit_and, Nat.testBit_or, testBit_cnot _ hi]
    generalize t0.testBit i = b0
    generalize t1.testBit i = b1
    generalize t2.testBit i = b2
    generalize t3.testBit i = b3
    generalize t4.testBit i = b4
    revert b0 b1 b2 b3 b4
    decide
  have e4 : cnot t4 ^^^ (t0 ||| cnot t1) = t4 ^^^ (cnot t0 &&& t1) := by
    apply eq64_of_testBit
      (by repeat first
            | exact h0 | exact h1 | exact h2 | exact h3 | exact h4
            | apply lt64_cnot | apply lt64_xor | apply lt64_and | apply lt64_or
            | exact ones64_lt)
      (by repeat first
            | exact h0 | exact h1 | exact h2 | exact h3 | exact h4
            | apply lt64_cnot | apply lt64_xor | apply lt64_and | apply lt64_or
            | exact ones64_lt)
    intro i hi
    simp only [Nat.testBit_xor, Nat.testBit_and, Nat.testBit_or, testBit_cnot _ hi]
    generalize t0.testBit i = b0
    generalize t1.testBit i = b1
    generalize t2.testBit i = b2
    generalize t3.testBit i = b3
    generalize t4.testBit i = b4
    revert b0 b1 b2 b3 b4
    decide
  show (t0 ^^^ (cnot t1 &&& t2),
        cnot t1 ^^^ (t2 ||| cnot t3),
        t2 ^^^ (cnot (cnot t3) ||| cnot t4),
        cnot (cnot t3) ^^^ (cnot t4 &&& t0),
        cnot t4 ^^^ (t0 ||| cnot t1)) =
       (t0 ^^^ (cnot t1 &&& t2),
        t1 ^^^ (cnot t2 &&& t3),
        cnot (t2 ^^^ (cnot t3 &&& t4)),
        t3 ^^^ (cnot t4 &&& t0),
        t4 ^^^ (cnot t0 &&& t1))
  rw [e1, e2, e3, e4]

theorem chiLC5_mask (T : Nat × Nat × Nat × Nat × Nat)
    (h0 : T.1 < two64) (h1 : T.2.1 < two64) (h2 : T.2.2.1 < two64)
    (h3 : T.2.2.2.1 < two64) (h4 : T.2.2.2.2 < two64) :
    chiPlaneLC5 (cnot T.1, T.2.1, T.2.2.1, cnot T.2.2.2.1, T.2.2.2.2) =
      (cnot (chiPlane T).1, (chiPlane T).2.1, (chiPlane T).2.2.1, (chiPlane T).2.2.2.1, (chiPlane T).2.2.2.2) := by
  obtain ⟨t0, t1, t2, t3, t4⟩ := T
  have e0 : cnot t0 ^^^ (cnot t1 &&& t2) = cnot (t0 ^^^ (cnot t1 &&& t2)) := by
    apply eq64_of_testBit
      (by repeat first
            | exact h0 | exact h1 | exact h2 | exact h3 | exact h4
            | apply lt64_cnot | apply lt64_xor | apply lt64_and | apply lt64_or
            | exact ones64_lt)
      (by repeat first
            | exact h0 | exact h1 | exact h2 | exact h3 | exact h4
            | apply lt64_cnot | apply lt64_xor | apply lt64_and | apply lt64_or
            | exact ones64_lt)
    intro i hi
    simp only [Nat.testBit_xor, Nat.testBit_and, Nat.testBit_or, testBit_cnot _ hi]
    generalize t0.testBit i = b0
    generalize t1.testBit i = b1
    generalize t2.testBit i = b2
    generalize t3.testBit i = b3
    generalize t4.testBit i = b4
    revert b0 b1 b2 b3 b4
    decide
  have e1 : cnot t1 ^^^ (t2 ||| cnot t3) = t1 ^^^ (cnot t2 &&& t3) := by
    apply eq64_of_testBit
      (by repeat first
            | exact h0 | exact h1 | exact h2 | exact h3 | exact h4
            | apply lt64_cnot | apply lt64_xor | apply lt64_and | apply lt64_or
            | exact ones64_lt)
      (by repeat first
            | exact h0 | exact h1 | exact h2 | exact h3 | exact h4
            | apply lt64_cnot | apply lt64_xor | apply lt64_and | apply lt64_or
            | exact ones64_lt)
    intro i hi
    simp only [Nat.testBit_xor, Nat.testBit_and, Nat.testBit_or, testBit_cnot _ hi]
    generalize t0.testBit i = b0
    generalize t1.testBit i = b1
    generalize t2.testBit i = b2
    generalize t3.testBit i = b3
    generalize t4.testBit i = b4
    revert b0 b1 b2 b3 b4
    decide
  have e3 : cnot t3 ^^^ (t4 ||| cnot t0) = t3 ^^^ (cnot t4 &&& t0) := by
    apply eq64_of_testBit
      (by repeat first
            | exact h0 | exact h1 | exact h2 | exact h3 | exact h4
            | apply lt64_cnot | apply lt64_xor | apply lt64_and | apply lt64_or
            | exact ones64_lt)
      (by repeat first
            | exact h0 | exact h1 | exact h2 | exact h3 | exact h4
            | apply lt64_cnot | apply lt64_xor | apply lt64_and | apply lt64_or
            | exact ones64_lt)
    intro i hi
    simp only [Nat.testBit_xor, Nat.testBit_and, Nat.testBit_or, testBit_cnot _ hi]
    generalize t0.testBit i = b0
    generalize t1.testBit i = b1
    generalize t2.testBit i = b2
    generalize t3.testBit i = b3
    generalize t4.testBit i = b4
    revert b0 b1 b2 b3 b4
    decide
  show (cnot t0 ^^^ (cnot t1 &&& t2),
        cnot t1 ^^^ (t2 ||| cnot t3),
        t2 ^^^ (cnot t3 &&& t4),
        cnot t3 ^^^ (t4 ||| cnot t0),
        t4 ^^^ (cnot t0 &&& t1)) =
       (cnot (t0 ^^^ (cnot t1 &&& t2)),
        t1 ^^^ (cnot t2 &&& t3),
        t2 ^^^ (cnot t3 &&& t4),
        t3 ^^^ (cnot t4 &&& t0),
        t4 ^^^ (cnot t0 &&& t1))
  rw [e0, e1, e3]

theorem lc_round_maskP (A : List Nat) (hB : Bounded A) (r : Nat) :
    keccakf1600_round_intermediate_unrolled_lc (maskP A) r =
      maskP (keccakf1600_round_intermediate_unrolled A r) := by
  obtain ⟨hd0, hd1, hd2, hd3, hd4⟩ := bounded5_interD hB
  unfold keccakf1600_round_intermediate_unrolled_lc
  simp only []
  rw [interT1_maskP A hB, interT2_maskP A hB, interT3_maskP A hB,
    interT4_maskP A hB, interT5_maskP A hB]
  rw [chiLC1_mask _ (lt64_xor (lane_lt hB 0) hd0) (lt64_rotl _ _) (lt64_rotl _ _) (lt64_rotl _ _) (lt64_rotl _ _),
    chiLC2_mask _ (lt64_rotl _ _) (lt64_rotl _ _) (lt64_rotl _ _) (lt64_rotl _ _) (lt64_rotl _ _),
    chiLC3_mask _ (lt64_rotl _ _) (lt64_rotl _ _) (lt64_rotl _ _) (lt64_rotl _ _) (lt64_rotl _ _),
    chiLC4_mask _ (lt64_rotl _ _) (lt64_rotl _ _) (lt64_rotl _ _) (lt64_rotl _ _) (lt64_rotl _ _),
    chiLC5_mask _ (lt64_rotl _ _) (lt64_rotl _ _) (lt64_rotl _ _) (lt64_rotl _ _) (lt64_rotl _ _)]
  rfl

theorem lc_permute_eq_rounds (st : List Nat) :
    keccakf1600_state_permute_intermediateur_lc st =
    (List.range 24).foldl keccakf1600_round_intermediate_unrolled_lc st :=
  foldl_pair_range keccakf1600_round_intermediate_unrolled_lc 12 st

theorem foldl_lc_rounds_maskP (l : List Nat) :
    ∀ A : List Nat, Bounded A →
      l.foldl keccakf1600_round_intermediate_unrolled_lc (maskP A) =
        maskP (l.foldl keccakf1600_round_intermediate_unrolled A) := by
  induction l with
  | nil => exact fun A _ => rfl
  | cons r rs ih =>
    intro A hB
    simp only [List.foldl_cons]
    rw [lc_round_maskP A hB r]
    exact ih _ (inter_round_bounded A hB r)

theorem permute_lc_maskP {A : List Nat} (hB : Bounded A) :
    keccakf1600_state_permute_intermediateur_lc (maskP A) =
      maskP (keccakf1600_state_permute_intermediateur A) := by
  rw [lc_permute_eq_rounds, permute_inter_eq_rounds]
  exact foldl_lc_rounds_maskP (List.range 24) A hB

theorem permute_inter_inv {A : List Nat} (hB : Bounded A) (hlen : A.length = 25) :
    Bounded (keccakf1600_state_permute_intermediateur A) ∧
      (keccakf1600_state_permute_intermediateur A).length = 25 := by
  rw [permute_inter_eq_rounds]
  exact bounded_foldl_rounds (List.range 24) A hB hlen

theorem maskP_length (st : List Nat) : (maskP st).length = 25 := by
  unfold maskP
  rw [List.length_map, List.length_range]

theorem getD_maskP (st : List Nat) (i : Nat) :
    (maskP st).getD i 0 =
      if i < 25 then (if i ∈ pSet then cnot (lane st i) else lane st i) else 0 := by
  unfold maskP cnot
  rw [getD_map_range]

theorem lane_maskP (st : List Nat) (k : Nat) (hk : k < 25) :
    lane (maskP st) k = if k ∈ pSet then cnot (lane st k) else lane st k := by
  show (maskP st).getD k 0 = _
  rw [getD_maskP, if_pos hk]

theorem eq_getD_of_len {A B : List Nat} {n : Nat} (hA : A.length = n) (hB : B.length = n)
    (h : ∀ i, i < n → A.getD i 0 = B.getD i 0) : A = B := by
  apply List.ext_getElem (by rw [hA, hB])
  intro i h1 h2
  have h3 := h i (by omega)
  rwa [List.getD_eq_getElem A 0 h1, List.getD_eq_getElem B 0 h2] at h3

theorem lane_set (B : List Nat) (j v i : Nat) :
    lane (B.set j v) i = if j = i ∧ j < B.length then v else lane B i :=
  getD_set B j v i

theorem set_maskP {B : List Nat} (hlen : B.length = 25) (j v : Nat) (hj : j < 25) :
    (maskP B).set j (if j ∈ pSet then cnot v else v) = maskP (B.set j v) := by
  refine @eq_getD_of_len _ _ 25 ?_ ?_ ?_
  · rw [List.length_set, maskP_length]
  · exact maskP_length _
  intro i hi
  rw [getD_set, maskP_length, getD_maskP, getD_maskP, lane_set, hlen]
  by_cases hji : j = i
  · subst hji
    rw [if_pos (show j = j ∧ j < 25 from ⟨rfl, hj⟩), if_pos hi,
      if_pos (show j = j ∧ j < 25 from ⟨rfl, hj⟩)]
  · rw [if_neg (show ¬(j = i ∧ j < 25) from fun hc => hji hc.1),
      if_neg (show ¬(j = i ∧ j < 25) from fun hc => hji hc.1)]

theorem bounded_set {B : List Nat} (hB : Bounded B) {v : Nat} (hv : v < two64)
    (j : Nat) : Bounded (B.set j v) := by
  intro x hx
  rcases List.mem_or_eq_of_mem_set hx with h | h
  · exact hB x h
  · rw [h]
    exact hv

theorem set_of_le (B : List Nat) : ∀ j : Nat, B.length ≤ j → ∀ v, B.set j v = B := by
  induction B with
  | nil => intro j _ v; rfl
  | cons a t ih =>
    intro j hj v
    cases j with
    | zero =>
      refine absurd hj ?_
      simp
    | succ n =>
      show a :: t.set n v = a :: t
      rw [ih n (by simp only [List.length_cons] at hj; omega) v]

theorem byte_shift_lt {b : Nat} (hb : b < 256) {s : Nat} (hs : s ≤ 56) :
    b <<< s < two64 := by
  rw [Nat.shiftLeft_eq, two64_eq]
  calc b * 2 ^ s ≤ 255 * 2 ^ 56 :=
        Nat.mul_le_mul (by omega) (Nat.pow_le_pow_right (by norm_num) hs)
    _ < 2 ^ 64 := by norm_num

theorem loadLane_lt {msg : Nat → Nat} (hmsg : ∀ i, msg i < 256) (off : Nat) :
    loadLane msg off < two64 := by
  have h0 : msg off < two64 := lt_trans (hmsg off) (by rw [two64_eq]; norm_num)
  unfold loadLane
  exact lt64_or (lt64_or (lt64_or (lt64_or (lt64_or (lt64_or (lt64_or h0
    (byte_shift_lt (hmsg _) (by omega))) (byte_shift_lt (hmsg _) (by omega)))
    (byte_shift_lt (hmsg _) (by omega))) (byte_shift_lt (hmsg _) (by omega)))
    (byte_shift_lt (hmsg _) (by omega))) (byte_shift_lt (hmsg _) (by omega)))
    (byte_shift_lt (hmsg _) (by omega))

theorem lanesFold_length (st0 : List Nat) (msg : Nat → Nat) (off : Nat)
    (l : List Nat) : ∀ st : List Nat,
    (l.foldl (fun acc i => acc.set i (lane st0 i ^^^ loadLane msg (off + 8 * i)))
      st).length = st.length := by
  induction l with
  | nil => exact fun st => rfl
  | cons a t ih =>
    intro st
    rw [List.foldl_cons, ih, List.length_set]

theorem lanesFold_bounded {st0 : List Nat} (hB0 : Bounded st0) {msg : Nat → Nat}
    (hmsg : ∀ i, msg i < 256) (off : Nat) (l : List Nat) :
    ∀ {st : List Nat}, Bounded st →
    Bounded (l.foldl
      (fun acc i => acc.set i (lane st0 i ^^^ loadLane msg (off + 8 * i))) st) := by
  induction l with
  | nil => exact fun h => h
  | cons a t ih =>
    intro st hst
    rw [List.foldl_cons]
    exact ih (bounded_set hst (lt64_xor (lane_lt hB0 a) (loadLane_lt hmsg _)) a)

theorem lanesFold_maskP {st : List Nat} (hlen : st.length = 25) (msg : Nat → Nat)
    (off : Nat) : ∀ nl, nl ≤ 25 →
    (List.range nl).foldl
        (fun acc i => acc.set i (lane (maskP st) i ^^^ loadLane msg (off + 8 * i)))
        (maskP st) =
      maskP ((List.range nl).foldl
        (fun acc i => acc.set i (lane st i ^^^ loadLane msg (off + 8 * i))) st) := by
  intro nl
  induction nl with
  | zero => exact fun _ => rfl
  | succ n ih =>
    intro hn
    simp only [List.range_succ, List.foldl_append, List.foldl_cons, List.foldl_nil]
    rw [ih (by omega), lane_maskP st n (by omega)]
    have hlF : ((List.range n).foldl
        (fun acc i => acc.set i (lane st i ^^^ loadLane msg (off + 8 * i))) st).length
        = 25 := by rw [lanesFold_length]; exact hlen
    by_cases hp : n ∈ pSet
    · rw [if_pos hp, cnot_xor_left]
      have h := set_maskP hlF n (lane st n ^^^ loadLane msg (off + 8 * n)) (by omega)
      rw [if_pos hp] at h
      exact h
    · rw [if_neg hp]
      have h := set_maskP hlF n (lane st n ^^^ loadLane msg (off + 8 * n)) (by omega)
      rw [if_neg hp] at h
      exact h

theorem absorb_lanes_maskP {msg : Nat → Nat} (hmsg : ∀ i, msg i < 256)
    {st : List Nat} (hB : Bounded st) (hlen : st.length = 25)
    {nl : Nat} (hnl : nl ≤ 25) (off : Nat) :
    (keccakf1600_absorb_lanes keccakf1600_state_permute_intermediateur_lc
        (maskP st) msg nl off).1 =
      maskP ((keccakf1600_absorb_lanes keccakf1600_state_permute_intermediateur
        st msg nl off).1) := by
  unfold keccakf1600_absorb_lanes
  simp only []
  rw [lanesFold_maskP hlen msg off nl hnl]
  exact permute_lc_maskP (lanesFold_bounded hB hmsg off (List.range nl) hB)

theorem absorb_lanes_inv {msg : Nat → Nat} (hmsg : ∀ i, msg i < 256)
    {st : List Nat} (hB : Bounded st) (hlen : st.length = 25) (nl off : Nat) :
    Bounded (keccakf1600_absorb_lanes keccakf1600_state_permute_intermediateur
        st msg nl off).1 ∧
      (keccakf1600_absorb_lanes keccakf1600_state_permute_intermediateur
        st msg nl off).1.length = 25 := by
  unfold keccakf1600_absorb_lanes
  simp only []
  exact permute_inter_inv (lanesFold_bounded hB hmsg off (List.range nl) hB)
    (by rw [lanesFold_length]; exact hlen)

theorem absorbBlocks_succ (f : List Nat → List Nat) (st : List Nat) (msg : Nat → Nat)
    (n lpb : Nat) :
    absorbBlocks f st msg (n + 1) lpb =
      keccakf1600_absorb_lanes f (absorbBlocks f st msg n lpb).1 msg lpb
        (absorbBlocks f st msg n lpb).2 := by
  unfold absorbBlocks
  rw [List.range_succ, List.foldl_append, List.foldl_cons, List.foldl_nil]

theorem absorbBlocks_maskP {msg : Nat → Nat} (hmsg : ∀ i, msg i < 256)
    {lpb : Nat} (hlpb : lpb ≤ 25) (nb : Nat)
    {st : List Nat} (hB : Bounded st) (hlen : st.length = 25) :
    (absorbBlocks keccakf1600_state_permute_intermediateur_lc (maskP st)
        msg nb lpb).1 =
      maskP ((absorbBlocks keccakf1600_state_permute_intermediateur st
        msg nb lpb).1) ∧
    (absorbBlocks keccakf1600_state_permute_intermediateur_lc (maskP st)
        msg nb lpb).2 =
      (absorbBlocks keccakf1600_state_permute_intermediateur st msg nb lpb).2 ∧
    Bounded (absorbBlocks keccakf1600_state_permute_intermediateur st
        msg nb lpb).1 ∧
    (absorbBlocks keccakf1600_state_permute_intermediateur st msg nb lpb).1.length
      = 25 := by
  induction nb with
  | zero => exact ⟨rfl, rfl, hB, hlen⟩
  | succ n ih =>
    obtain ⟨ih1, ih2, ihB, ihL⟩ := ih
    simp only [absorbBlocks_succ]
    refine ⟨?_, ?_, ?_, ?_⟩
    · rw [ih1, ih2]
      exact absorb_lanes_maskP hmsg ihB ihL hlpb _
    · rw [absorb_lanes_snd, absorb_lanes_snd, ih2]
    · exact (absorb_lanes_inv hmsg ihB ihL lpb _).1
    · exact (absorb_lanes_inv hmsg ihB ihL lpb _).2

theorem xorByte_maskP {st : List Nat} (hlen : st.length = 25) (off b : Nat) :
    xorByte (maskP st) off b = maskP (xorByte st off b) := by
  unfold xorByte
  by_cases hj : off / 8 < 25
  · rw [lane_maskP st _ hj]
    by_cases hp : off / 8 ∈ pSet
    · rw [if_pos hp, cnot_xor_left]
      have h := set_maskP hlen (off / 8)
        (lane st (off / 8) ^^^ b <<< (8 * (off % 8))) hj
      rw [if_pos hp] at h
      exact h
    · rw [if_neg hp]
      have h := set_maskP hlen (off / 8)
        (lane st (off / 8) ^^^ b <<< (8 * (off % 8))) hj
      rw [if_neg hp] at h
      exact h
  · rw [set_of_le _ _ (by rw [maskP_length]; omega) _,
      set_of_le _ _ (by rw [hlen]; omega) _]

theorem xorByte_bounded {st : List Nat} (hB : Bounded st) {b : Nat} (hb : b < 256)
    (off : Nat) : Bounded (xorByte st off b) := by
  unfold xorByte
  exact bounded_set hB (lt64_xor (lane_lt hB _) (byte_shift_lt hb (by omega))) _

theorem absorbTail_succ (f : List Nat → List Nat) (st : List Nat) (msg : Nat → Nat)
    (moff n rate : Nat) :
    absorbTail f st msg moff (n + 1) rate =
      if (absorbTail f st msg moff n rate).2 + 1 = rate
      then (f (xorByte (absorbTail f st msg moff n rate).1
            (absorbTail f st msg moff n rate).2 (msg (moff + n))), 0)
      else (xorByte (absorbTail f st msg moff n rate).1
            (absorbTail f st msg moff n rate).2 (msg (moff + n)),
          (absorbTail f st msg moff n rate).2 + 1) := by
  unfold absorbTail
  rw [List.range_succ, List.foldl_append, List.foldl_cons, List.foldl_nil]

theorem absorbTail_maskP {msg : Nat → Nat} (hmsg : ∀ i, msg i < 256)
    (moff rate : Nat) (cnt : Nat) {st : List Nat} (hB : Bounded st)
    (hlen : st.length = 25) :
    (absorbTail keccakf1600_state_permute_intermediateur_lc (maskP st)
        msg moff cnt rate).1 =
      maskP ((absorbTail keccakf1600_state_permute_intermediateur st
        msg moff cnt rate).1) ∧
    (absorbTail keccakf1600_state_permute_intermediateur_lc (maskP st)
        msg moff cnt rate).2 =
      (absorbTail keccakf1600_state_permute_intermediateur st msg moff cnt rate).2 ∧
    Bounded (absorbTail keccakf1600_state_permute_intermediateur st
        msg moff cnt rate).1 ∧
    (absorbTail keccakf1600_state_permute_intermediateur st
        msg moff cnt rate).1.length = 25 := by
  induction cnt with
  | zero => exact ⟨rfl, rfl, hB, hlen⟩
  | succ n ih =>
    obtain ⟨ih1, ih2, ihB, ihL⟩ := ih
    rw [absorbTail_succ, absorbTail_succ, ih1, ih2]
    by_cases hc : (absorbTail keccakf1600_state_permute_intermediateur st
        msg moff n rate).2 + 1 = rate
    · rw [if_pos hc, if_pos hc, xorByte_maskP ihL]
      refine ⟨?_, rfl, ?_, ?_⟩
      · exact permute_lc_maskP (xorByte_bounded ihB (hmsg _) _)
      · exact (permute_inter_inv (xorByte_bounded ihB (hmsg _) _)
          (by rw [xorByte_length]; exact ihL)).1
      · exact (permute_inter_inv (xorByte_bounded ihB (hmsg _) _)
          (by rw [xorByte_length]; exact ihL)).2
    · rw [if_neg hc, if_neg hc, xorByte_maskP ihL]
      exact ⟨rfl, rfl, xorByte_bounded ihB (hmsg _) _,
        by rw [xorByte_length]; exact ihL⟩

theorem absorbPad_maskP6 {st : List Nat} (hB : Bounded st) (hlen : st.length = 25)
    (boff rate : Nat) :
    absorbPad keccakf1600_state_permute_intermediateur_lc (maskP st) boff rate 6 =
      maskP (absorbPad keccakf1600_state_permute_intermediateur st boff rate 6) := by
  rw [absorbPad_delim6, absorbPad_delim6, xorByte_maskP hlen,
    xorByte_maskP (by rw [xorByte_length]; exact hlen)]
  exact permute_lc_maskP
    (xorByte_bounded (xorByte_bounded hB (by omega) boff) (by omega) (rate - 1))

theorem absorb_maskP {msg : Nat → Nat} (hmsg : ∀ i, msg i < 256)
    (mlen md : Nat) {st : List Nat} (hB : Bounded st) (hlen : st.length = 25) :
    keccakf1600_absorb keccakf1600_state_permute_intermediateur_lc (maskP st)
        msg mlen md 6 =
      maskP (keccakf1600_absorb keccakf1600_state_permute_intermediateur st
        msg mlen md 6) := by
  obtain ⟨hb1, hb2, hbB, hbL⟩ :=
    absorbBlocks_maskP hmsg (show (200 - 2 * md) / 8 ≤ 25 by omega)
      (mlen / (200 - 2 * md)) hB hlen
  obtain ⟨ht1, ht2, htB, htL⟩ :=
    absorbTail_maskP hmsg
      (absorbBlocks keccakf1600_state_permute_intermediateur st msg
        (mlen / (200 - 2 * md)) ((200 - 2 * md) / 8)).2
      (200 - 2 * md)
      (mlen - (absorbBlocks keccakf1600_state_permute_intermediateur st msg
        (mlen / (200 - 2 * md)) ((200 - 2 * md) / 8)).2)
      hbB hbL
  unfold keccakf1600_absorb
  simp only []
  rw [hb1, hb2, ht1, ht2]
  exact absorbPad_maskP6 htB htL _ _

theorem maskP_init :
    (((((zeroState.set 1 ones64).set 2 ones64).set 8 ones64).set 12
        ones64).set 17 ones64).set 20 ones64 = maskP zeroState := by decide

theorem shiftr_mod_cnot (x : Nat) {s : Nat} (hs : s ≤ 56) :
    (cnot x >>> s) % 256 = ((x >>> s) % 256) ^^^ 0xFF := by
  apply Nat.eq_of_testBit_eq
  intro j
  rcases Nat.lt_or_ge j 8 with hj | hj
  · have h255 : (255 : Nat).testBit j = true := by
      rw [show (255 : Nat) = 2 ^ 8 - 1 from rfl, Nat.testBit_two_pow_sub_one]
      simpa using hj
    rw [show (256 : Nat) = 2 ^ 8 from rfl, Nat.testBit_mod_two_pow, Nat.testBit_xor,
      Nat.testBit_mod_two_pow, Nat.testBit_shiftRight, Nat.testBit_shiftRight,
      decide_eq_true hj, Bool.true_and, Bool.true_and, h255,
      testBit_cnot _ (show s + j < 64 by omega), Bool.xor_true]
  · have h255 : (255 : Nat).testBit j = false :=
      Nat.testBit_lt_two_pow
        (lt_of_lt_of_le (by norm_num) (Nat.pow_le_pow_right (by norm_num) hj))
    rw [show (256 : Nat) = 2 ^ 8 from rfl, Nat.testBit_mod_two_pow, Nat.testBit_xor,
      Nat.testBit_mod_two_pow, decide_eq_false (by omega), Bool.false_and,
      Bool.false_and, h255, Bool.xor_false]

theorem getByte_maskP (S : List Nat) {i : Nat} (hi : i < 200) :
    getByte (maskP S) i =
      if i / 8 ∈ pSet then getByte S i ^^^ 0xFF else getByte S i := by
  unfold getByte
  rw [lane_maskP S (i / 8) (by omega)]
  by_cases hp : i / 8 ∈ pSet
  · rw [if_pos hp, if_pos hp]
    exact shiftr_mod_cnot _ (by omega)
  · rw [if_neg hp, if_neg hp]

theorem squeezeBlock_false_getD (st : List Nat) (b i : Nat) :
    (squeezeBlock false st b).getD i 0 = if i < b then getByte st i else 0 := by
  show ((List.range b).map (getByte st)).getD i 0 = _
  rw [getD_map_range]

theorem squeezeBlock_unmask (S : List Nat) {b : Nat} (hb8 : b % 8 = 0)
    (hb200 : b ≤ 200) :
    squeezeBlock true (maskP S) b = squeezeBlock false S b := by
  refine eq_getD_of_len (squeezeBlock_length _ _ _) (squeezeBlock_length _ _ _) ?_
  intro i hi
  rw [squeezeBlock_lc_getD, squeezeBlock_false_getD]
  by_cases hib : i < b
  · have hgb := getByte_maskP S (show i < 200 by omega)
    by_cases hp : i / 8 ∈ pSet
    · rw [if_pos ⟨hp, by omega, hib⟩, if_pos hib, hgb, if_pos hp,
        Nat.xor_assoc, Nat.xor_self, Nat.xor_zero]
    · rw [if_neg (fun hc => hp hc.1), if_pos hib, if_pos hib, hgb, if_neg hp]
  · rw [if_neg (fun hc => hib hc.2.2), if_neg hib, if_neg hib]

theorem lc_oneshot_eq_inter {msg : Nat → Nat} (hmsg : ∀ i, msg i < 256)
    (mlen : Nat) {md : Nat} (hmd : md = 32 ∨ md = 64) :
    keccakf1600_oneshot keccakf1600_state_permute_intermediateur_lc true
        msg mlen md 6 =
      keccakf1600_oneshot keccakf1600_state_permute_intermediateur false
        msg mlen md 6 := by
  have hz : Bounded zeroState := by
    intro x hx
    rw [List.eq_of_mem_replicate hx]
    exact two64_pos
  have hzl : zeroState.length = 25 := rfl
  unfold keccakf1600_oneshot
  simp only []
  rw [if_pos trivial, if_neg (show ¬ false = true by decide), maskP_init,
    absorb_maskP hmsg mlen md hz hzl]
  rcases hmd with h | h <;> subst h
  · rw [squeeze_single_32, squeeze_single_32]
    exact squeezeBlock_unmask _ (by omega) (by omega)
  · rw [squeeze_single_64, squeeze_single_64]
    exact squeezeBlock_unmask _ (by omega) (by omega)

/-- C4: for every byte message and digest size k in {256, 512}, the digest
computed with the lane-complementing strategy
(`keccakf1600_state_permute_intermediateur_lc`) with `use_lc` set — the six
P-lanes {1, 2, 8, 12, 17, 20} pre-set to all-ones before absorbing and the
P-lane output bytes inverted at squeeze exit — equals the digest computed
with the non-LC reference strategy. -/
theorem C4_lane_complement_consistency (msg : Nat → Nat) (hmsg : ∀ i, msg i < 256)
    (msg_len : Nat) :
    sha3_256_oneshot keccakf1600_state_permute_intermediateur_lc true msg msg_len =
      sha3_256_oneshot keccakf1600_state_permute_ref false msg msg_len ∧
    sha3_512_oneshot keccakf1600_state_permute_intermediateur_lc true msg msg_len =
      sha3_512_oneshot keccakf1600_state_permute_ref false msg msg_len := by
  constructor
  · show keccakf1600_oneshot keccakf1600_state_permute_intermediateur_lc true
        msg msg_len 32 6 =
      keccakf1600_oneshot keccakf1600_state_permute_ref false msg msg_len 32 6
    rw [lc_oneshot_eq_inter hmsg msg_len (Or.inl rfl)]
    exact (oneshot_congr ref_pointwise_inter inter_len25 false msg msg_len 32 6).symm
  · show keccakf1600_oneshot keccakf1600_state_permute_intermediateur_lc true
        msg msg_len 64 6 =
      keccakf1600_oneshot keccakf1600_state_permute_ref false msg msg_len 64 6
    rw [lc_oneshot_eq_inter hmsg msg_len (Or.inr rfl)]
    exact (oneshot_congr ref_pointwise_inter inter_len25 false msg msg_len 64 6).symm

/-- Closed-form instance of C4 at the empty message. -/
theorem C4_lane_complement_consistency_witness :
    (∀ i, msgEmpty i < 256) ∧
    (sha3_256_oneshot keccakf1600_state_permute_intermediateur_lc true msgEmpty 0 =
        sha3_256_oneshot keccakf1600_state_permute_ref false msgEmpty 0 ∧
      sha3_512_oneshot keccakf1600_state_permute_intermediateur_lc true msgEmpty 0 =
        sha3_512_oneshot keccakf1600_state_permute_ref false msgEmpty 0) :=
  ⟨fun _ => show (0 : Nat) < 256 by decide,
    C4_lane_complement_consistency msgEmpty (fun _ => show (0 : Nat) < 256 by decide) 0⟩

end RvSha3
